import Mathlib

/-!
# Pointing-device modes and gestures

A shallow embedding of `quantum/pointing_device/pointing_device_modes.c` and
`quantum/pointing_device/pointing_device_gestures.c`.

Conventions of the embedding:

* C integers are `Int` (signed) or `Nat` (unsigned); every conversion to a
  fixed-width type is written out with `wrap8`, `wrap16`, `wrap32` or `% 2^w`.
  `int` is 32 bits wide (the board under `keyboards/handwired/onekey/rp2040`).
* C `/` on signed integers is `Int.tdiv` (rounding toward zero).
* File-scope and function-scope `static` variables are fields of an explicit
  state record that every operation receives and returns.
* Weak callbacks are fields of `Hooks`; calls of external primitives
  (`tap_code16_delay`, `action_exec`, `wait_ms`) and of the callbacks are
  appended to the `events` log of the state, in program order.
* Compile-time switches and constants are fields of `Config`.
-/

namespace PointingDevice

/-! ## Fixed-width integers -/

/-- Conversion of an integer to `int8_t` (two's complement). -/
def wrap8 (n : Int) : Int := (n + 128) % 256 - 128

/-- Conversion of an integer to `int16_t` (two's complement). -/
def wrap16 (n : Int) : Int := (n + 32768) % 65536 - 32768

/-- Conversion of an integer to `int32_t` (two's complement). -/
def wrap32 (n : Int) : Int := (n + 2147483648) % 4294967296 - 2147483648

/-- Conversion of an integer to `uint8_t`. -/
def to_u8 (n : Nat) : Nat := n % 256

/-- Conversion of an integer to `uint16_t`. -/
def to_u16 (n : Nat) : Nat := n % 65536

/-- C `abs` on `int`. -/
def c_abs (n : Int) : Int := wrap32 (if n < 0 then -n else n)

/-! ## Data model of the mode pipeline -/

/-- Keycodes named in `pointing_device_modes.c`; `raw` is any other 16-bit keycode. -/
inductive Keycode where
  | KC_NO
  | KC_LEFT
  | KC_DOWN
  | KC_UP
  | KC_RIGHT
  | C_KC_Z
  | C_KC_Y
  | KC_VOLD
  | KC_VOLU
  | raw (n : Nat)
deriving DecidableEq, Repr

/-- The six weak callbacks of `pointing_device_modes.c`. -/
inductive HookId where
  | process_user
  | process_kb
  | get_divisor_user
  | get_divisor_kb
  | divisor_postprocess_user
  | divisor_postprocess_kb
deriving DecidableEq, Repr

/-- Observable calls made by the mode pipeline, in program order. -/
inductive Event where
  | tap_code16_delay (kc : Keycode) (delay : Nat)
  | action_exec (map_id : Nat) (dir : Nat) (pressed : Bool)
  | wait_ms
  | hook (id : HookId)
deriving DecidableEq, Repr

/-- The fields of `report_mouse_t` used by the pipeline: `x`, `y` are
`mouse_xy_report_t`, `h`, `v` are `int8_t`. -/
structure report_mouse_t where
  buttons : Nat
  x : Int
  y : Int
  v : Int
  h : Int
deriving DecidableEq, Repr

/-- Compile-time configuration read by `pointing_device_modes.h` and the `.c` files. -/
structure Config where
  POINTING_MODE_TAP_DELAY : Nat
  POINTING_MODE_DEFAULT : Nat
  POINTING_MODE_NUM_DEVICES : Nat
  POINTING_MODE_SINGLE_CONTROL : Bool
  POINTING_MODE_DEFAULT_DEVICE : Nat
  POINTING_MODE_DEFAULT_DIVISOR : Nat
  POINTING_MODE_HISTORY_DIVISOR : Nat
  POINTING_MODE_VOLUME_DIVISOR : Nat
  POINTING_MODE_CARET_DIVISOR_H : Nat
  POINTING_MODE_CARET_DIVISOR_V : Nat
  POINTING_MODE_PRECISION_DIVISOR : Nat
  POINTING_MODE_DRAG_DIVISOR : Nat
  POINTING_MODE_MAP_START : Nat
  POINTING_VIRTKEY_DEADZONE : Nat
  EXTRAKEY_ENABLE : Bool
  POINTING_VIRTKEY_MAP_ENABLE : Bool
  POINTING_MODE_MAP_ENABLE : Bool
  MOUSE_EXTENDED_REPORT : Bool
deriving DecidableEq, Repr

/-- `PD_DOWN` of `enum pointing_mode_directions`. -/
def PD_DOWN : Nat := 0
/-- `PD_UP` of `enum pointing_mode_directions`. -/
def PD_UP : Nat := 1
/-- `PD_LEFT` of `enum pointing_mode_directions`. -/
def PD_LEFT : Nat := 2
/-- `PD_RIGHT` of `enum pointing_mode_directions`. -/
def PD_RIGHT : Nat := 3

/-- Modelled from the spec: the mode-id enumeration (`PM_NONE`, `PM_PRECISION`, ...) is
declared outside the given sources; the ids are numbered in the order the spec lists the
modes, and only their being distinct is used. -/
def PM_NONE : Nat := 0
/-- Modelled from the spec: see `PM_NONE`. -/
def PM_PRECISION : Nat := 1
/-- Modelled from the spec: see `PM_NONE`. -/
def PM_DRAG : Nat := 2
/-- Modelled from the spec: see `PM_NONE`. -/
def PM_CARET : Nat := 3
/-- Modelled from the spec: see `PM_NONE`. -/
def PM_HISTORY : Nat := 4
/-- Modelled from the spec: see `PM_NONE`; the spec lists VOLUME only for builds with the
extended-keycode capability (`EXTRAKEY_ENABLE`), and both `case PM_VOLUME` of the `.c` file
stand under `#ifdef EXTRAKEY_ENABLE`. -/
def PM_VOLUME : Nat := 5
/-- Modelled from the spec: see `PM_NONE`. -/
def PM_VIRTKEY : Nat := 6
/-- Modelled from the spec: see `PM_NONE`; first id free for custom modes. -/
def PM_SAFE_RANGE : Nat := 7

/-- `POINTING_MODE_DEVICE_CONTROL_COUNT` of `pointing_device_modes.h`. -/
def POINTING_MODE_DEVICE_CONTROL_COUNT (cfg : Config) : Nat :=
  if cfg.POINTING_MODE_SINGLE_CONTROL then 1 else cfg.POINTING_MODE_NUM_DEVICES

/-- The header's defaults with every optional feature switched off. -/
def default_config : Config where
  POINTING_MODE_TAP_DELAY := 0
  POINTING_MODE_DEFAULT := PM_NONE
  POINTING_MODE_NUM_DEVICES := 1
  POINTING_MODE_SINGLE_CONTROL := false
  POINTING_MODE_DEFAULT_DEVICE := 0
  POINTING_MODE_DEFAULT_DIVISOR := 64
  POINTING_MODE_HISTORY_DIVISOR := 64
  POINTING_MODE_VOLUME_DIVISOR := 64
  POINTING_MODE_CARET_DIVISOR_H := 32
  POINTING_MODE_CARET_DIVISOR_V := 32
  POINTING_MODE_PRECISION_DIVISOR := 2
  POINTING_MODE_DRAG_DIVISOR := 4
  POINTING_MODE_MAP_START := PM_SAFE_RANGE
  POINTING_VIRTKEY_DEADZONE := 16
  EXTRAKEY_ENABLE := false
  POINTING_VIRTKEY_MAP_ENABLE := false
  POINTING_MODE_MAP_ENABLE := false
  MOUSE_EXTENDED_REPORT := false

/-- The weak callbacks. A callback taking a pointer is a function from the pointee to
the returned flag and the value left in the pointee. -/
structure Hooks where
  pointing_mode_process_user : report_mouse_t → Bool × report_mouse_t
  pointing_mode_process_kb : report_mouse_t → Bool × report_mouse_t
  pointing_mode_get_divisor_user : Nat → Nat → Nat
  pointing_mode_get_divisor_kb : Nat → Nat → Nat
  pointing_mode_divisor_postprocess_kb : Nat → Bool × Nat
  pointing_mode_divisor_postprocess_user : Nat → Bool × Nat

/-- The weak default definitions at the end of `pointing_device_modes.c`. -/
def default_hooks : Hooks where
  pointing_mode_process_user := fun r => (true, r)
  pointing_mode_process_kb := fun r => (true, r)
  pointing_mode_get_divisor_user := fun _ _ => 0
  pointing_mode_get_divisor_kb := fun _ _ => 0
  pointing_mode_divisor_postprocess_kb := fun d => (true, d)
  pointing_mode_divisor_postprocess_user := fun d => (true, d)

/-- The static variables of `pointing_device_modes.c`: the file-scope ones and
`last_mode`, `leftover_x`, `leftover_y` of `pointing_tap_keycodes_raw`; `events` is the
log of external calls. -/
structure ModeState where
  current_device : Nat
  selected_device : Nat
  current_divisor : Nat
  toggle_mode_id : List Nat
  pointing_mode : List Nat
  last_mode : Nat
  leftover_x : Int
  leftover_y : Int
  events : List Event
deriving DecidableEq, Repr

/-- The initial values of the static variables. -/
def ModeState.init (cfg : Config) : ModeState where
  current_device :=
    if POINTING_MODE_DEVICE_CONTROL_COUNT cfg > 1 then to_u8 cfg.POINTING_MODE_DEFAULT_DEVICE else 0
  selected_device := to_u8 cfg.POINTING_MODE_DEFAULT_DEVICE
  current_divisor := to_u8 cfg.POINTING_MODE_DEFAULT_DIVISOR
  toggle_mode_id :=
    List.replicate (POINTING_MODE_DEVICE_CONTROL_COUNT cfg) (to_u8 cfg.POINTING_MODE_DEFAULT)
  pointing_mode :=
    List.replicate (POINTING_MODE_DEVICE_CONTROL_COUNT cfg) (to_u8 cfg.POINTING_MODE_DEFAULT)
  last_mode := 0
  leftover_x := 0
  leftover_y := 0
  events := []

/-- Appends one external call to the log. -/
def ModeState.log (s : ModeState) (e : Event) : ModeState :=
  { s with events := s.events ++ [e] }

/-! ## Clamping and divisor application (`pointing_device_modes.c`, lines 41-106) -/

/-- `clamp_int_16_to_8`. -/
def clamp_int_16_to_8 (value : Int) : Int :=
  let value := wrap16 value
  if value < -128 then -128 else if value > 127 then 127 else value

/-- `clamp_int_32_to_16`. -/
def clamp_int_32_to_16 (value : Int) : Int :=
  let value := wrap32 value
  if value < -32768 then -32768 else if value > 32767 then 32767 else value

/-- `clamp_uint_16_to_8`. -/
def clamp_uint_16_to_8 (value : Nat) : Nat :=
  let value := to_u16 value
  if value > 255 then 255 else value

/-- `divisor_multiply16`. -/
def divisor_multiply16 (s : ModeState) (value : Int) : Int :=
  let value := wrap16 value
  clamp_int_32_to_16 (wrap32 (value * (s.current_divisor : Int)))

/-- `divisor_divide8`. -/
def divisor_divide8 (s : ModeState) (value : Int) : Int :=
  let value := wrap16 value
  clamp_int_16_to_8 (Int.tdiv value (s.current_divisor : Int))

/-- `divisor_divide16`. -/
def divisor_divide16 (s : ModeState) (value : Int) : Int :=
  let value := wrap16 value
  wrap16 (Int.tdiv value (s.current_divisor : Int))

/-- `pointing_mode_apply_divisor_xy`. -/
def pointing_mode_apply_divisor_xy (cfg : Config) (s : ModeState) (value : Int) : Int :=
  if cfg.MOUSE_EXTENDED_REPORT then divisor_divide16 s value else divisor_divide8 s value

/-- `pointing_mode_apply_divisor_hv`. -/
def pointing_mode_apply_divisor_hv (s : ModeState) (value : Int) : Int :=
  divisor_divide8 s value

/-! ## Device and mode accessors (lines 108-192) -/

/-- `pointing_mode_reset_mode`. -/
def pointing_mode_reset_mode (s : ModeState) : ModeState :=
  { s with pointing_mode := s.pointing_mode.set s.current_device (s.toggle_mode_id.getD s.current_device 0) }

/-- `pointing_mode_get_mode`. -/
def pointing_mode_get_mode (s : ModeState) : Nat :=
  s.pointing_mode.getD s.current_device 0

/-- `pointing_mode_set_mode`. -/
def pointing_mode_set_mode (s : ModeState) (mode_id : Nat) : ModeState :=
  { s with pointing_mode := s.pointing_mode.set s.current_device (to_u8 mode_id) }

/-- `pointing_mode_get_toggled_mode`. -/
def pointing_mode_get_toggled_mode (s : ModeState) : Nat :=
  s.toggle_mode_id.getD s.current_device 0

/-- `pointing_mode_toggle_mode`. -/
def pointing_mode_toggle_mode (cfg : Config) (s : ModeState) (mode_id : Nat) : ModeState :=
  let mode_id := to_u8 mode_id
  if pointing_mode_get_toggled_mode s = mode_id then
    { s with toggle_mode_id := s.toggle_mode_id.set s.current_device (to_u8 cfg.POINTING_MODE_DEFAULT) }
  else
    { s with toggle_mode_id := s.toggle_mode_id.set s.current_device mode_id }

/-! ## Divisor resolution (lines 194-297) -/

/-- The closing `divisor ? divisor : POINTING_MODE_DEFAULT_DIVISOR` of
`divisor_postprocess`, converted to the `uint8_t` return type. -/
def divisor_zero_check (cfg : Config) (divisor : Nat) : Nat :=
  if divisor ≠ 0 then divisor else to_u8 cfg.POINTING_MODE_DEFAULT_DIVISOR

/-- `divisor_postprocess`: the user callback runs first and the keyboard callback only
when the user one returned true (`&&`). -/
def divisor_postprocess (cfg : Config) (hk : Hooks) (s : ModeState) (divisor : Nat) :
    Nat × ModeState :=
  let divisor := to_u8 divisor
  let ru := hk.pointing_mode_divisor_postprocess_user divisor
  let s := s.log (.hook .divisor_postprocess_user)
  let divisor := to_u8 ru.2
  if ru.1 then
    let rk := hk.pointing_mode_divisor_postprocess_kb divisor
    let s := s.log (.hook .divisor_postprocess_kb)
    let divisor := to_u8 rk.2
    if rk.1 then
      let divisor :=
        if pointing_mode_get_toggled_mode s = PM_PRECISION
            ∧ ¬ (pointing_mode_get_mode s = PM_PRECISION) then
          to_u8 (clamp_uint_16_to_8 (divisor * cfg.POINTING_MODE_PRECISION_DIVISOR))
        else divisor
      (divisor_zero_check cfg divisor, s)
    else (divisor_zero_check cfg divisor, s)
  else (divisor_zero_check cfg divisor, s)

/-- `pointing_mode_divisor_override`. -/
def pointing_mode_divisor_override (cfg : Config) (hk : Hooks) (s : ModeState) (divisor : Nat) :
    ModeState :=
  let r := divisor_postprocess cfg hk s divisor
  { r.2 with current_divisor := r.1 }

/-- `get_pointing_mode_direction`. -/
def get_pointing_mode_direction (mouse_report : report_mouse_t) : Nat :=
  if mouse_report.x = 0 ∧ mouse_report.y = 0 then 0
  else if c_abs mouse_report.x > c_abs mouse_report.y then
    if mouse_report.x > 0 then PD_RIGHT else PD_LEFT
  else
    if mouse_report.y > 0 then PD_DOWN else PD_UP

/-- The `switch` of built-in divisors in `get_pointing_mode_divisor`; a mode without a
case leaves `divisor` at its initial 0. -/
def builtin_divisor (cfg : Config) (mode : Nat) (dir : Nat) : Nat :=
  if mode = PM_PRECISION then to_u8 cfg.POINTING_MODE_PRECISION_DIVISOR
  else if mode = PM_DRAG then to_u8 cfg.POINTING_MODE_DRAG_DIVISOR
  else if mode = PM_CARET then
    to_u8 (if dir < PD_LEFT then cfg.POINTING_MODE_CARET_DIVISOR_V
           else cfg.POINTING_MODE_CARET_DIVISOR_H)
  else if mode = PM_HISTORY then to_u8 cfg.POINTING_MODE_HISTORY_DIVISOR
  else if cfg.EXTRAKEY_ENABLE ∧ mode = PM_VOLUME then to_u8 cfg.POINTING_MODE_VOLUME_DIVISOR
  else 0

/-- `get_pointing_mode_divisor`. -/
def get_pointing_mode_divisor (cfg : Config) (hk : Hooks) (s : ModeState)
    (mouse_report : report_mouse_t) : Nat × ModeState :=
  let dir := get_pointing_mode_direction mouse_report
  let divisor := to_u8 (hk.pointing_mode_get_divisor_user (pointing_mode_get_mode s) dir)
  let s := s.log (.hook .get_divisor_user)
  if divisor ≠ 0 then divisor_postprocess cfg hk s divisor
  else
    let divisor := to_u8 (hk.pointing_mode_get_divisor_kb (pointing_mode_get_mode s) dir)
    let s := s.log (.hook .get_divisor_kb)
    if divisor ≠ 0 then divisor_postprocess cfg hk s divisor
    else divisor_postprocess cfg hk s (builtin_divisor cfg (pointing_mode_get_mode s) dir)

/-- The argument and the state with which `get_pointing_mode_divisor` calls
`divisor_postprocess`, at whichever of its three `return divisor_postprocess(divisor)`
sites is reached. -/
def pointing_mode_divisor_handed (cfg : Config) (hk : Hooks) (s : ModeState)
    (mouse_report : report_mouse_t) : Nat × ModeState :=
  let dir := get_pointing_mode_direction mouse_report
  let divisor := to_u8 (hk.pointing_mode_get_divisor_user (pointing_mode_get_mode s) dir)
  let s := s.log (.hook .get_divisor_user)
  if divisor ≠ 0 then (divisor, s)
  else
    let divisor := to_u8 (hk.pointing_mode_get_divisor_kb (pointing_mode_get_mode s) dir)
    let s := s.log (.hook .get_divisor_kb)
    if divisor ≠ 0 then (divisor, s)
    else (builtin_divisor cfg (pointing_mode_get_mode s) dir, s)

/-! ## Tap accumulator (lines 299-380) -/

/-- One pass through the body of the `do ... while (--taps)` loop. -/
def tap_body (cfg : Config) (s : ModeState) (pm_keycodes : List Keycode) (size : Nat)
    (map_id : Nat) (dir : Nat) : ModeState :=
  if size ≠ 0 then
    s.log (.tap_code16_delay (pm_keycodes.getD dir .KC_NO) cfg.POINTING_MODE_TAP_DELAY)
  else if cfg.POINTING_MODE_MAP_ENABLE then
    let s := s.log (.action_exec map_id dir true)
    let s := if cfg.POINTING_MODE_TAP_DELAY > 0 then s.log .wait_ms else s
    s.log (.action_exec map_id dir false)
  else s

/-- The `do ... while (--taps)` loop on the `uint8_t` counter `taps`; `fuel` bounds the
number of passes (256 always suffices). -/
def tap_loop (cfg : Config) (pm_keycodes : List Keycode) (size : Nat) (map_id : Nat)
    (dir : Nat) : Nat → Nat → ModeState → ModeState
  | 0, _, s => s
  | fuel + 1, taps, s =>
    let s := tap_body cfg s pm_keycodes size map_id dir
    let taps := to_u8 (taps + 255)
    if taps ≠ 0 then tap_loop cfg pm_keycodes size map_id dir fuel taps s else s

/-- The tail of `pointing_tap_keycodes_raw` after the `switch`: clamp the count and tap. -/
def tap_codes_emit (cfg : Config) (s : ModeState) (pm_keycodes : List Keycode) (size : Nat)
    (map_id : Nat) (dir : Nat) (count : Int) : ModeState :=
  let taps := to_u8 (clamp_uint_16_to_8 (to_u16 (c_abs count).toNat))
  tap_loop cfg pm_keycodes size map_id dir 256 taps s

/-- `pointing_tap_keycodes_raw`. -/
def pointing_tap_keycodes_raw (cfg : Config) (s : ModeState) (mouse_report : report_mouse_t)
    (pm_keycodes : List Keycode) (size : Nat) (map_id : Nat) : ModeState :=
  let dir := get_pointing_mode_direction mouse_report
  if dir > size then s
  else
    let s :=
      if s.last_mode ≠ pointing_mode_get_mode s then { s with leftover_x := 0, leftover_y := 0 }
      else s
    let s := { s with last_mode := pointing_mode_get_mode s }
    if PD_DOWN ≤ dir ∧ dir ≤ PD_UP then
      let count := divisor_divide16 s (mouse_report.y + s.leftover_y)
      if count = 0 then
        { s with leftover_y := wrap16 (s.leftover_y + mouse_report.y) }
      else
        let s := { s with leftover_y := wrap16 (s.leftover_y - divisor_multiply16 s count) }
        let s := { s with leftover_x := 0 }
        tap_codes_emit cfg s pm_keycodes size map_id dir count
    else if PD_LEFT ≤ dir ∧ dir ≤ PD_RIGHT then
      let count := divisor_divide16 s (mouse_report.x + s.leftover_x)
      if count = 0 then
        { s with leftover_x := wrap16 (s.leftover_x + mouse_report.x) }
      else
        let s := { s with leftover_x := wrap16 (s.leftover_x - divisor_multiply16 s count) }
        let s := { s with leftover_y := 0 }
        tap_codes_emit cfg s pm_keycodes size map_id dir count
    else
      tap_codes_emit cfg s pm_keycodes size map_id dir 0

/-- `pointing_mode_tap_codes`. -/
def pointing_mode_tap_codes (cfg : Config) (s : ModeState) (mouse_report : report_mouse_t)
    (kc_left kc_down kc_up kc_right : Keycode) : ModeState :=
  pointing_tap_keycodes_raw cfg s mouse_report [kc_down, kc_up, kc_left, kc_right] 4 0

/-! ## Mode dispatch (lines 409-505) -/

/-- Conversion to `mouse_xy_report_t`. -/
def to_mouse_xy (cfg : Config) (n : Int) : Int :=
  if cfg.MOUSE_EXTENDED_REPORT then wrap16 n else wrap8 n

/-- The `switch` of `process_pointing_mode`, entered after both callbacks returned true. -/
def process_pointing_mode_switch (cfg : Config) (s : ModeState) (mouse_report : report_mouse_t) :
    report_mouse_t × ModeState :=
  let mode := pointing_mode_get_mode s
  if mode = PM_PRECISION then
    let mouse_report :=
      { mouse_report with x := to_mouse_xy cfg (pointing_mode_apply_divisor_xy cfg s mouse_report.x) }
    let mouse_report :=
      { mouse_report with y := to_mouse_xy cfg (pointing_mode_apply_divisor_xy cfg s mouse_report.y) }
    (mouse_report, s)
  else if mode = PM_DRAG then
    let mouse_report := { mouse_report with h := wrap8 (pointing_mode_apply_divisor_hv s mouse_report.x) }
    let mouse_report :=
      { mouse_report with v := wrap8 (-(pointing_mode_apply_divisor_hv s mouse_report.y)) }
    (mouse_report, s)
  else if mode = PM_CARET then
    let s := pointing_mode_tap_codes cfg s mouse_report .KC_LEFT .KC_DOWN .KC_UP .KC_RIGHT
    ({ mouse_report with x := 0, y := 0 }, s)
  else if cfg.POINTING_VIRTKEY_MAP_ENABLE ∧ mode = PM_VIRTKEY then
    ({ mouse_report with x := 0, y := 0 }, s)
  else if mode = PM_HISTORY then
    let s := pointing_mode_tap_codes cfg s mouse_report .C_KC_Z .KC_NO .KC_NO .C_KC_Y
    ({ mouse_report with x := 0, y := 0 }, s)
  else if cfg.EXTRAKEY_ENABLE ∧ mode = PM_VOLUME then
    let s := pointing_mode_tap_codes cfg s mouse_report .KC_NO .KC_VOLD .KC_VOLU .KC_NO
    ({ mouse_report with x := 0, y := 0 }, s)
  else if cfg.POINTING_MODE_MAP_ENABLE then
    if mode > cfg.POINTING_MODE_MAP_START then
      let s := pointing_tap_keycodes_raw cfg s mouse_report [] 0
        (to_u8 (mode - cfg.POINTING_MODE_MAP_START))
      ({ mouse_report with x := 0, y := 0 }, s)
    else (mouse_report, s)
  else (mouse_report, s)

/-- `process_pointing_mode`: the user callback, then (only if it returned true) the
keyboard callback, then the `switch`. -/
def process_pointing_mode (cfg : Config) (hk : Hooks) (s : ModeState)
    (mouse_report : report_mouse_t) : report_mouse_t × ModeState :=
  let ru := hk.pointing_mode_process_user mouse_report
  let s := s.log (.hook .process_user)
  let mouse_report := ru.2
  if ru.1 then
    let rk := hk.pointing_mode_process_kb mouse_report
    let s := s.log (.hook .process_kb)
    let mouse_report := rk.2
    if rk.1 then process_pointing_mode_switch cfg s mouse_report
    else (mouse_report, s)
  else (mouse_report, s)

/-- `pointing_device_modes_task`. -/
def pointing_device_modes_task (cfg : Config) (hk : Hooks) (s : ModeState)
    (mouse_report : report_mouse_t) : report_mouse_t × ModeState :=
  if pointing_mode_get_mode s = PM_NONE then (mouse_report, s)
  else if mouse_report.x = 0 ∧ mouse_report.y = 0 then (mouse_report, s)
  else if cfg.POINTING_VIRTKEY_MAP_ENABLE ∧ pointing_mode_get_mode s = PM_VIRTKEY then
    ({ mouse_report with x := 0, y := 0 }, s)
  else
    let r := get_pointing_mode_divisor cfg hk s mouse_report
    let s := { r.2 with current_divisor := r.1 }
    process_pointing_mode cfg hk s mouse_report

/-! ## Integer square root (`pointing_device_gestures.c`, lines 81-106) -/

/-- Conversion of an integer to `uint32_t`. -/
def to_u32 (n : Nat) : Nat := n % 4294967296

/-- Conversion of a signed integer to `uint32_t`. -/
def int_to_u32 (n : Int) : Nat := (n % 4294967296).toNat

/-- The number of zero bits above the highest set bit among the low `w` bits of `x`. -/
def clz_from : Nat → Nat → Nat
  | 0, _ => 0
  | w + 1, x => if x / 2 ^ w % 2 = 1 then 0 else clz_from w x + 1

/-- `__builtin_clzl` on a 32-bit `unsigned long`: the number of leading zero bits
(the C result is undefined for 0). -/
def builtin_clzl (x : Nat) : Nat := clz_from 32 x

/-- The `while (l != h - 1)` loop of `sqrt32` on `uint32_t` variables; `none` when the
loop is still running after `fuel` passes. -/
def sqrt32_search (x : Nat) : Nat → Nat → Nat → Option Nat
  | 0, _, _ => none
  | fuel + 1, l, h =>
    if l ≠ to_u32 (h + 4294967295) then
      let m := to_u32 (l + h) / 2
      if to_u32 (m * m) ≤ x then sqrt32_search x fuel m h
      else sqrt32_search x fuel l m
    else some l

/-- `sqrt32`; the result is converted to the `uint16_t` return type. -/
def sqrt32 (x : Nat) : Option Nat :=
  let x := to_u32 x
  if x = 0 then some 0
  else
    let h :=
      if x > 65535 >>> 2 then 65535
      else to_u32 (1 <<< (((builtin_clzl 1 - builtin_clzl x + 1) + 1) >>> 1))
    let l := to_u32 (1 <<< ((builtin_clzl 1 - builtin_clzl x) >>> 1))
    (sqrt32_search x 32 l h).map to_u16

/-! ## Cursor glide (`pointing_device_gestures.c`, lines 27-134) -/

/-- Modelled from the spec: `cursor_glide_t` of `pointing_device_gestures.h` (not among the
given sources): one glide sample, `valid = false` being the no-op result. -/
structure cursor_glide_t where
  dx : Int
  dy : Int
  valid : Bool
deriving DecidableEq, Repr

/-- Modelled from the spec: `cursor_glide_config_t` (GlideConfig, declared in
`pointing_device_gestures.h`, not among the given sources): the three tunables, 16-bit
unsigned as the widening casts `(int32_t)coef` and `(uint32_t)trigger_px` in the `.c` file
presuppose. -/
structure cursor_glide_config_t where
  coef : Nat
  interval : Nat
  trigger_px : Nat
deriving DecidableEq, Repr

/-- Modelled from the spec: `cursor_glide_status_t` (GlideState, declared in
`pointing_device_gestures.h`, not among the given sources): `v0`, `x`, `y` are `int32_t`
(`x` and `y` are assigned the `int32_t` locals of `cursor_glide`), `z`, `timer`, `counter`
are `uint16_t` (`z` is assigned the `uint16_t` parameter of `cursor_glide_update`), `dx0`,
`dy0` are `mouse_xy_report_t`. -/
structure cursor_glide_status_t where
  v0 : Int
  x : Int
  y : Int
  z : Nat
  timer : Nat
  counter : Nat
  dx0 : Int
  dy0 : Int
deriving DecidableEq, Repr

/-- Modelled from the spec: `cursor_glide_context_t`, the configuration and the status. -/
structure cursor_glide_context_t where
  config : cursor_glide_config_t
  status : cursor_glide_status_t
deriving DecidableEq, Repr

/-- The status after `memset(&glide->status, 0, sizeof(glide->status))`. -/
def cursor_glide_status_zero : cursor_glide_status_t where
  v0 := 0
  x := 0
  y := 0
  z := 0
  timer := 0
  counter := 0
  dx0 := 0
  dy0 := 0

/-- The initialiser `{0, 0, false}` of `invalid_report`. -/
def invalid_report : cursor_glide_t where
  dx := 0
  dy := 0
  valid := false

/-- Modelled from the spec: `timer_elapsed` of the millisecond clock (16-bit, wrapping),
with `now` the value `timer_read()` returns. -/
def timer_elapsed (now : Nat) (last : Nat) : Nat := to_u16 (to_u16 now + 65536 - to_u16 last)

/-- `cursor_glide_stop`. -/
def cursor_glide_stop (glide : cursor_glide_context_t) : cursor_glide_context_t :=
  { glide with status := cursor_glide_status_zero }

/-- The 1D position `p` of `cursor_glide` for the step counter `counter`, in `int32_t`
arithmetic. -/
def glide_position (v0 : Int) (coef : Nat) (counter : Nat) : Int :=
  wrap32 (wrap32 (v0 * (counter : Int))
    - wrap32 (Int.tdiv (wrap32 (wrap32 ((coef : Int) * (counter : Int)) * (counter : Int))) 2))

/-- The projection `(int32_t)(p * d0 / v0)` of `cursor_glide`. -/
def glide_project (p : Int) (d0 : Int) (v0 : Int) : Int :=
  wrap32 (Int.tdiv (wrap32 (p * d0)) v0)

/-- `cursor_glide`; `now` is the value `timer_read()` returns. -/
def cursor_glide (cfg : Config) (now : Nat) (glide : cursor_glide_context_t) :
    cursor_glide_t × cursor_glide_context_t :=
  let status := glide.status
  if status.v0 = 0 then
    ({ dx := 0, dy := 0, valid := false }, cursor_glide_stop glide)
  else
    let status := { status with counter := to_u16 (status.counter + 1) }
    let p := glide_position status.v0 glide.config.coef status.counter
    let x := glide_project p status.dx0 status.v0
    let y := glide_project p status.dy0 status.v0
    let report : cursor_glide_t :=
      { dx := to_mouse_xy cfg (wrap32 (x - status.x)),
        dy := to_mouse_xy cfg (wrap32 (y - status.y)),
        valid := true }
    if report.dx ≤ 1 ∧ report.dx ≥ -1 ∧ report.dy ≤ 1 ∧ report.dy ≥ -1 then
      (report, cursor_glide_stop { glide with status := status })
    else
      (report, { glide with status := { status with x := x, y := y, timer := to_u16 now } })

/-- `cursor_glide_check`. -/
def cursor_glide_check (cfg : Config) (now : Nat) (glide : cursor_glide_context_t) :
    cursor_glide_t × cursor_glide_context_t :=
  let status := glide.status
  if status.z ≠ 0 ∨ (status.dx0 = 0 ∧ status.dy0 = 0)
      ∨ timer_elapsed now status.timer < glide.config.interval then
    (invalid_report, glide)
  else cursor_glide cfg now glide

/-- One summand `(int32_t)d0 * 256 * d0 * 256` of the squared Q8 norm. -/
def q8_square (d0 : Int) : Int :=
  wrap32 (wrap32 (wrap32 (d0 * 256) * d0) * 256)

/-- The right-hand side of the assignment to `status->v0` in `cursor_glide_start`: 0 for a
zero vector, else `sqrt32` of the sum of the two Q8 squares. -/
def glide_initial_velocity (dx0 dy0 : Int) : Option Nat :=
  if dx0 = 0 ∧ dy0 = 0 then some 0
  else sqrt32 (int_to_u32 (wrap32 (q8_square dx0 + q8_square dy0)))

/-- `cursor_glide_start`; `none` only if the loop of `sqrt32` runs out of fuel. -/
def cursor_glide_start (cfg : Config) (now : Nat) (glide : cursor_glide_context_t) :
    Option (cursor_glide_t × cursor_glide_context_t) :=
  let status := glide.status
  let status := { status with timer := to_u16 now, counter := 0 }
  (glide_initial_velocity status.dx0 status.dy0).map fun v0 =>
    let status := { status with v0 := wrap32 (v0 : Int), x := 0, y := 0, z := 0 }
    if int_to_u32 status.v0 < to_u32 (glide.config.trigger_px * 256) then
      (invalid_report, cursor_glide_stop { glide with status := status })
    else cursor_glide cfg now { glide with status := status }

/-- `cursor_glide_update`. -/
def cursor_glide_update (cfg : Config) (glide : cursor_glide_context_t) (dx dy : Int) (z : Nat) :
    cursor_glide_context_t :=
  { glide with status :=
      { glide.status with dx0 := to_mouse_xy cfg dx, dy0 := to_mouse_xy cfg dy, z := to_u16 z } }

/-! ## Virtual-key classifier (`pointing_device_gestures.c`, lines 137-230) -/

/-- `PD_VIRTKEY_UP` of `enum pointing_device_virtual_keys`, `1 << 0`. -/
def PD_VIRTKEY_UP : Nat := 1
/-- `PD_VIRTKEY_LEFT`, `1 << 1`. -/
def PD_VIRTKEY_LEFT : Nat := 2
/-- `PD_VIRTKEY_RIGHT`, `1 << 2`. -/
def PD_VIRTKEY_RIGHT : Nat := 4
/-- `PD_VIRTKEY_DOWN`, `1 << 3`. -/
def PD_VIRTKEY_DOWN : Nat := 8
/-- `PD_VIRTKEY_UNDEFINED`, `1 << 7`. -/
def PD_VIRTKEY_UNDEFINED : Nat := 128

/-- `pd_derive_virtual_key_state`. The external `pointing_device_adjust_by_defines` is the
parameter `adjust`; `x` and `y` are the `int8_t` locals, `ratio` the `int16_t` one. The
final `PD_VIRTKEY_UNDEFINED` of band B stands for falling through to the trailing
`return PD_VIRTKEY_UNDEFINED`. -/
def pd_derive_virtual_key_state (cfg : Config) (adjust : report_mouse_t → report_mouse_t)
    (abs_report : report_mouse_t) : Nat :=
  let rot := adjust abs_report
  let x := wrap8 rot.x
  let y := wrap8 rot.y
  if wrap32 (wrap32 (x * x) + wrap32 (y * y)) < (cfg.POINTING_VIRTKEY_DEADZONE : Int) then
    PD_VIRTKEY_UNDEFINED
  else if x = 0 then
    if y > 0 then PD_VIRTKEY_DOWN
    else if y < 0 then PD_VIRTKEY_UP
    else PD_VIRTKEY_UNDEFINED
  else if y = 0 then
    if x > 0 then PD_VIRTKEY_RIGHT
    else if x < 0 then PD_VIRTKEY_LEFT
    else PD_VIRTKEY_UNDEFINED
  else
    let ratio := wrap16 (Int.tdiv (c_abs (wrap32 (wrap16 x * 64))) (c_abs y))
    if ratio < 27 then
      if y > 0 then PD_VIRTKEY_DOWN else PD_VIRTKEY_UP
    else if ratio < 154 then
      if x > 0 ∧ y > 0 then PD_VIRTKEY_DOWN ||| PD_VIRTKEY_RIGHT
      else if x < 0 ∧ y > 0 then PD_VIRTKEY_DOWN ||| PD_VIRTKEY_LEFT
      else if x < 0 ∧ y < 0 then PD_VIRTKEY_UP ||| PD_VIRTKEY_LEFT
      else if x > 0 ∧ y < 0 then PD_VIRTKEY_UP ||| PD_VIRTKEY_RIGHT
      else PD_VIRTKEY_UNDEFINED
    else
      if x > 0 then PD_VIRTKEY_RIGHT else PD_VIRTKEY_LEFT

/-- The classification of `pd_derive_virtual_key_state` written on unbounded integers,
without the conversions to fixed-width types; the two agree on the 8-bit range. -/
def classify_vector (deadzone : Nat) (x y : Int) : Nat :=
  if x * x + y * y < (deadzone : Int) then PD_VIRTKEY_UNDEFINED
  else if x = 0 then
    if y > 0 then PD_VIRTKEY_DOWN
    else if y < 0 then PD_VIRTKEY_UP
    else PD_VIRTKEY_UNDEFINED
  else if y = 0 then
    if x > 0 then PD_VIRTKEY_RIGHT
    else if x < 0 then PD_VIRTKEY_LEFT
    else PD_VIRTKEY_UNDEFINED
  else if Int.tdiv (|x| * 64) |y| < 27 then
    if y > 0 then PD_VIRTKEY_DOWN else PD_VIRTKEY_UP
  else if Int.tdiv (|x| * 64) |y| < 154 then
    if x > 0 ∧ y > 0 then PD_VIRTKEY_DOWN ||| PD_VIRTKEY_RIGHT
    else if x < 0 ∧ y > 0 then PD_VIRTKEY_DOWN ||| PD_VIRTKEY_LEFT
    else if x < 0 ∧ y < 0 then PD_VIRTKEY_UP ||| PD_VIRTKEY_LEFT
    else if x > 0 ∧ y < 0 then PD_VIRTKEY_UP ||| PD_VIRTKEY_RIGHT
    else PD_VIRTKEY_UNDEFINED
  else
    if x > 0 then PD_VIRTKEY_RIGHT else PD_VIRTKEY_LEFT

/-- The code `k` with `PD_VIRTKEY_UP` and `PD_VIRTKEY_DOWN` exchanged and
`PD_VIRTKEY_LEFT` and `PD_VIRTKEY_RIGHT` exchanged, every other bit kept. -/
def opposite_code (k : Nat) : Nat :=
  (k &&& 240)
  ||| (if k &&& PD_VIRTKEY_UP ≠ 0 then PD_VIRTKEY_DOWN else 0)
  ||| (if k &&& PD_VIRTKEY_DOWN ≠ 0 then PD_VIRTKEY_UP else 0)
  ||| (if k &&& PD_VIRTKEY_LEFT ≠ 0 then PD_VIRTKEY_RIGHT else 0)
  ||| (if k &&& PD_VIRTKEY_RIGHT ≠ 0 then PD_VIRTKEY_LEFT else 0)

/-! ## Sample inputs -/

/-- A report with the given motion and nothing else. -/
def motion (x y : Int) : report_mouse_t where
  buttons := 0
  x := x
  y := y
  v := 0
  h := 0

/-- The initial state under the default configuration, switched to `PM_CARET`. -/
def caret_state : ModeState :=
  pointing_mode_set_mode (ModeState.init default_config) PM_CARET

/-- `caret_state` as `pointing_tap_keycodes_raw` sees it inside an unchanged caret mode:
the divisor resolved to 32, `last_mode` already `PM_CARET`, both leftovers 0. -/
def caret_state_running : ModeState :=
  { caret_state with current_divisor := 32, last_mode := PM_CARET }

/-- The initial state under the default configuration, switched to `PM_DRAG`. -/
def drag_state : ModeState :=
  pointing_mode_set_mode (ModeState.init default_config) PM_DRAG

/-- The default configuration with `POINTING_MODE_DRAG_DIVISOR` set to 1. -/
def drag_config_unit : Config :=
  { default_config with POINTING_MODE_DRAG_DIVISOR := 1 }

/-- The key events of a log: everything but the callback calls. -/
def key_events (events : List Event) : List Event :=
  events.filter fun e =>
    match e with
    | .hook _ => false
    | _ => true

/-- The caret table in the order `pointing_mode_tap_codes` builds it. -/
def caret_keycodes : List Keycode := [.KC_DOWN, .KC_UP, .KC_LEFT, .KC_RIGHT]

/-- The state after one call of `pointing_tap_keycodes_raw` with `y = 40` from
`caret_state_running`. -/
def caret_after_first_tap : ModeState :=
  pointing_tap_keycodes_raw default_config caret_state_running (motion 0 40) caret_keycodes 4 0

/-- The state after the first `y = 40` sample of the caret scenario. -/
def caret_scenario_first : ModeState :=
  (pointing_device_modes_task default_config default_hooks caret_state (motion 0 40)).2

/-- The state after the second `y = 40` sample of the caret scenario. -/
def caret_scenario_second : ModeState :=
  (pointing_device_modes_task default_config default_hooks caret_scenario_first (motion 0 40)).2

/-- The value `n` is representable in `int32_t`. -/
def in_int32 (n : Int) : Prop := -2147483648 ≤ n ∧ n ≤ 2147483647

instance (n : Int) : Decidable (in_int32 n) := by
  unfold in_int32
  infer_instance

/-- The value `n` is representable in `mouse_xy_report_t`. -/
def in_mouse_xy (cfg : Config) (n : Int) : Prop :=
  if cfg.MOUSE_EXTENDED_REPORT then -32768 ≤ n ∧ n ≤ 32767 else -128 ≤ n ∧ n ≤ 127

instance (cfg : Config) (n : Int) : Decidable (in_mouse_xy cfg n) := by
  unfold in_mouse_xy
  infer_instance

/-- None of the 32-bit intermediates of one `cursor_glide` step overflows, the step
counter after incrementing being `t`: the products `v0*t`, `coef*t`, `coef*t*t`, the
position `p`, the products `p*dx0`, `p*dy0` and the two quotients by `v0`. -/
def glide_step_fits (glide : cursor_glide_context_t) (t : Nat) : Prop :=
  in_int32 (glide.status.v0 * t)
  ∧ in_int32 ((glide.config.coef : Int) * t)
  ∧ in_int32 ((glide.config.coef : Int) * t * t)
  ∧ in_int32 (glide.status.v0 * t - Int.tdiv ((glide.config.coef : Int) * t * t) 2)
  ∧ in_int32 ((glide.status.v0 * t - Int.tdiv ((glide.config.coef : Int) * t * t) 2)
      * glide.status.dx0)
  ∧ in_int32 ((glide.status.v0 * t - Int.tdiv ((glide.config.coef : Int) * t * t) 2)
      * glide.status.dy0)
  ∧ in_int32 (Int.tdiv ((glide.status.v0 * t - Int.tdiv ((glide.config.coef : Int) * t * t) 2)
      * glide.status.dx0) glide.status.v0)
  ∧ in_int32 (Int.tdiv ((glide.status.v0 * t - Int.tdiv ((glide.config.coef : Int) * t * t) 2)
      * glide.status.dy0) glide.status.v0)

instance (glide : cursor_glide_context_t) (t : Nat) : Decidable (glide_step_fits glide t) := by
  unfold glide_step_fits
  infer_instance

/-- A glide context with the largest friction coefficient and the recorded vector
`(100, 0)`, before `cursor_glide_start`. -/
def steep_glide : cursor_glide_context_t where
  config := { coef := 65535, interval := 0, trigger_px := 0 }
  status := { cursor_glide_status_zero with dx0 := 100, dy0 := 0 }

/-- The context `cursor_glide_start` leaves of `steep_glide` (after the first step). -/
def steep_glide_started : cursor_glide_context_t where
  config := { coef := 65535, interval := 0, trigger_px := 0 }
  status := { v0 := 25600, x := -27, y := 0, z := 0, timer := 0, counter := 1, dx0 := 100, dy0 := 0 }

/-- The context after `n` successive calls of `cursor_glide_check`, the `k`-th call
(counted from 0) reading the clock value `nows k`. -/
def glide_checks (cfg : Config) (nows : Nat → Nat) (glide : cursor_glide_context_t) :
    Nat → cursor_glide_context_t
  | 0 => glide
  | n + 1 => (cursor_glide_check cfg (nows n) (glide_checks cfg nows glide n)).2

/-- A glide context without friction (`coef = 0`) and with the recorded vector `(a, 0)`,
before `cursor_glide_start`. -/
def frictionless_glide_initial (a : Int) : cursor_glide_context_t where
  config := { coef := 0, interval := 0, trigger_px := 0 }
  status := { cursor_glide_status_zero with dx0 := a, dy0 := 0 }

/-- The frictionless glide along `(a, 0)` after `c` steps: `v0 = 256 * a`, position `a * c`. -/
def frictionless_glide (a : Int) (c : Nat) : cursor_glide_context_t where
  config := { coef := 0, interval := 0, trigger_px := 0 }
  status := { v0 := 256 * a, x := a * c, y := 0, z := 0, timer := 0, counter := c,
              dx0 := a, dy0 := 0 }

/-- The 1D position `v0*t - (coef*t*t)/2` of a glide after `t` steps, computed in
unbounded integers. -/
def glide_p (v0 : Int) (coef t : Nat) : Int :=
  v0 * t - Int.tdiv ((coef : Int) * t * t) 2

/-- The context `glide` is in the middle of a glide with configuration `conf`, initial
velocity `v`, direction `(a, b)`, after `t` steps: the status holds the step counter `t`
and the projections of the exact position `glide_p v conf.coef t`. -/
def glide_running (conf : cursor_glide_config_t) (v : Nat) (a b : Int) (t : Nat)
    (glide : cursor_glide_context_t) : Prop :=
  glide.config = conf
  ∧ glide.status.v0 = (v : Int)
  ∧ glide.status.dx0 = a
  ∧ glide.status.dy0 = b
  ∧ glide.status.z = 0
  ∧ glide.status.counter = t
  ∧ glide.status.x = Int.tdiv (glide_p v conf.coef t * a) v
  ∧ glide.status.y = Int.tdiv (glide_p v conf.coef t * b) v

/-- A glide context with friction `coef = 102`, no interval gate and the recorded vector
`(3, 4)`, before `cursor_glide_start`. -/
def damped_glide : cursor_glide_context_t where
  config := { coef := 102, interval := 0, trigger_px := 2 }
  status := { cursor_glide_status_zero with dx0 := 3, dy0 := 4 }

/-- The default configuration with the extra-key feature (`EXTRAKEY_ENABLE`) compiled in,
the builds in which `PM_VOLUME` exists. -/
def extrakey_config : Config :=
  { default_config with EXTRAKEY_ENABLE := true }

/-- A state under `extrakey_config` switched to the mode `mode_id`. -/
def extrakey_state (mode_id : Nat) : ModeState :=
  pointing_mode_set_mode (ModeState.init extrakey_config) mode_id

/-- The default configuration with `POINTING_MODE_DEFAULT_DIVISOR` set to 256, a value
that passes the header's check (`>= 1`) and does not fit the `uint8_t` it is stored in. -/
def wide_default_config : Config :=
  { default_config with POINTING_MODE_DEFAULT_DIVISOR := 256 }

/-- The default configuration with 16-bit motion reports (`MOUSE_EXTENDED_REPORT`). -/
def extended_config : Config :=
  { default_config with MOUSE_EXTENDED_REPORT := true }

/-- The initial state under the default configuration, switched to the custom mode
`PM_SAFE_RANGE + 2`, for which no built-in divisor exists. -/
def custom_state : ModeState :=
  pointing_mode_set_mode (ModeState.init default_config) (PM_SAFE_RANGE + 2)

/-- The state `custom_state` with `PM_PRECISION` as the toggled mode. -/
def custom_state_precise : ModeState :=
  pointing_mode_set_mode
    (pointing_mode_toggle_mode default_config (ModeState.init default_config) PM_PRECISION)
    (PM_SAFE_RANGE + 2)

/-- The state `drag_state` with `PM_PRECISION` as the toggled mode. -/
def drag_state_precise : ModeState :=
  pointing_mode_set_mode
    (pointing_mode_toggle_mode default_config (ModeState.init default_config) PM_PRECISION)
    PM_DRAG

/-- Callbacks whose divisor post-processors both return true: the user-level one writes 7,
the keyboard-level one adds 1 to what it finds. -/
def order_probe_hooks : Hooks :=
  { default_hooks with
    pointing_mode_divisor_postprocess_user := fun _ => (true, 7)
    pointing_mode_divisor_postprocess_kb := fun d => (true, d + 1) }

/-- Callbacks whose user-level divisor post-processor returns false without touching the
divisor; the keyboard-level one adds 1 to what it finds. -/
def user_veto_hooks : Hooks :=
  { default_hooks with
    pointing_mode_divisor_postprocess_user := fun d => (false, d)
    pointing_mode_divisor_postprocess_kb := fun d => (true, d + 1) }

/-- The state after one call of `pointing_tap_keycodes_raw` with `y = 127` from
`caret_state_running`. -/
def caret_after_fast_sample : ModeState :=
  pointing_tap_keycodes_raw default_config caret_state_running (motion 0 127) caret_keycodes 4 0

/-- The state after a further call with `y = 10` from `caret_after_fast_sample`. -/
def caret_after_slow_sample : ModeState :=
  pointing_tap_keycodes_raw default_config caret_after_fast_sample (motion 0 10)
    caret_keycodes 4 0

/-- The cumulative displacement `(X, Y)` emitted by a glide: the report `r0` of
`cursor_glide_start` plus the reports of the first `n` calls of `cursor_glide_check` made
from the context `g0` that `cursor_glide_start` left. -/
def glide_emitted (cfg : Config) (nows : Nat → Nat) (r0 : cursor_glide_t)
    (g0 : cursor_glide_context_t) : Nat → Int × Int
  | 0 => (r0.dx, r0.dy)
  | n + 1 =>
    let e := glide_emitted cfg nows r0 g0 n
    let r := (cursor_glide_check cfg (nows n) (glide_checks cfg nows g0 n)).1
    (e.1 + r.dx, e.2 + r.dy)

/-- A glide context with the largest friction coefficient and the recorded vector
`(100, 50)`, before `cursor_glide_start`. -/
def steep_diagonal_glide : cursor_glide_context_t where
  config := { coef := 65535, interval := 0, trigger_px := 0 }
  status := { cursor_glide_status_zero with dx0 := 100, dy0 := 50 }

/-- The context `cursor_glide_start` leaves of `steep_diagonal_glide` (after the first
step). -/
def steep_diagonal_glide_started : cursor_glide_context_t where
  config := { coef := 65535, interval := 0, trigger_px := 0 }
  status := { v0 := 28621, x := -14, y := -7, z := 0, timer := 0, counter := 1,
              dx0 := 100, dy0 := 50 }

/-- A glide context with friction `coef = 102`, no interval gate and the recorded vector
`(dx0, dy0)`, before `cursor_glide_start`. -/
def glide_from (dx0 dy0 : Int) : cursor_glide_context_t where
  config := { coef := 102, interval := 0, trigger_px := 2 }
  status := { cursor_glide_status_zero with dx0 := dx0, dy0 := dy0 }

/-- The cumulative displacement `e` follows the glide held in `g` (configuration `conf`,
initial velocity `v`, direction `(a, b)`): `e` is the projection of some 1D position, and
`g` is either stopped or in the middle of the glide with `e` the position it stores. -/
def glide_tracking (conf : cursor_glide_config_t) (v : Nat) (a b : Int) (e : Int × Int)
    (g : cursor_glide_context_t) : Prop :=
  (∃ p : Int, e = (Int.tdiv (p * a) v, Int.tdiv (p * b) v))
  ∧ (g.status = cursor_glide_status_zero
    ∨ ∃ t : Nat, glide_running conf v a b t g
        ∧ 2 * ((conf.coef : Int) * t) + 513 ≤ 2 * (v : Int) + conf.coef
        ∧ 0 ≤ glide_p v conf.coef t
        ∧ e = (g.status.x, g.status.y))

/-- The quotient `count` that `pointing_tap_keycodes_raw` computes in its `switch`: the
sample's component on the axis of its direction plus that axis's leftover (zeroed first
when `last_mode` differs from the active mode), divided by the current divisor. -/
def pointing_tap_quotient (s : ModeState) (mouse_report : report_mouse_t) : Int :=
  let dir := get_pointing_mode_direction mouse_report
  let s :=
    if s.last_mode ≠ pointing_mode_get_mode s then { s with leftover_x := 0, leftover_y := 0 }
    else s
  if PD_DOWN ≤ dir ∧ dir ≤ PD_UP then divisor_divide16 s (mouse_report.y + s.leftover_y)
  else divisor_divide16 s (mouse_report.x + s.leftover_x)

/-- The default configuration with pointing-mode maps enabled. -/
def map_config : Config :=
  { default_config with POINTING_MODE_MAP_ENABLE := true }

/-- The initial state under `map_config`, switched to the map mode `PM_SAFE_RANGE + 2`
(map id 2). -/
def map_state : ModeState :=
  pointing_mode_set_mode (ModeState.init map_config) (PM_SAFE_RANGE + 2)

/-- The state `map_state` as `pointing_tap_keycodes_raw` sees it inside an unchanged map
mode: divisor 64, `last_mode` already the map mode, both leftovers 0. -/
def map_state_running : ModeState :=
  { map_state with current_divisor := 64, last_mode := PM_SAFE_RANGE + 2 }

/-- Caret mode, one sample `y = 20` (below the divisor 32): no tap, `leftover_y = 20`. -/
def caret_below_threshold : ModeState :=
  (pointing_device_modes_task default_config default_hooks caret_state (motion 0 20)).2

/-- From `caret_below_threshold`: switched to `PM_DRAG`, one sample processed there,
switched back to `PM_CARET`. -/
def caret_after_drag_detour : ModeState :=
  pointing_mode_set_mode
    (pointing_device_modes_task default_config default_hooks
      (pointing_mode_set_mode caret_below_threshold PM_DRAG) (motion 0 20)).2
    PM_CARET

/-- The initial state under the default configuration with `PM_DRAG` toggled on. -/
def drag_toggled_state : ModeState :=
  pointing_mode_toggle_mode default_config (ModeState.init default_config) PM_DRAG

/-- The bracket `(l, h)` with which `sqrt32` enters its loop (for `x != 0`). -/
def sqrt32_entry (x : Nat) : Nat × Nat :=
  let x := to_u32 x
  let h :=
    if x > 65535 >>> 2 then 65535
    else to_u32 (1 <<< (((builtin_clzl 1 - builtin_clzl x + 1) + 1) >>> 1))
  let l := to_u32 (1 <<< ((builtin_clzl 1 - builtin_clzl x) >>> 1))
  (l, h)

/-- The run of the `while (l != h - 1)` loop of `sqrt32` from `(l, h)` is safe: `l < h`
holds at every loop test, every midpoint `m` has `m * m < 2^32` in unbounded arithmetic,
and the loop exits within `fuel` passes. -/
def sqrt32_search_safe (x : Nat) : Nat → Nat → Nat → Bool
  | 0, _, _ => false
  | fuel + 1, l, h =>
    decide (l < h) &&
      (if l ≠ to_u32 (h + 4294967295) then
        let m := to_u32 (l + h) / 2
        decide (m * m < 4294967296) &&
          (if to_u32 (m * m) ≤ x then sqrt32_search_safe x fuel m h
           else sqrt32_search_safe x fuel l m)
      else true)

/-- Saturation of `n` to the range of `mouse_xy_report_t`, the conversion the
specification describes for glide deltas; `cursor_glide` itself converts with a cast
(`to_mouse_xy`). -/
def saturate_mouse_xy (cfg : Config) (n : Int) : Int :=
  if cfg.MOUSE_EXTENDED_REPORT then
    if n < -32768 then -32768 else if n > 32767 then 32767 else n
  else
    if n < -128 then -128 else if n > 127 then 127 else n

/-! ## Theorems: divisor resolution -/

theorem divisor_zero_check_ne_zero (cfg : Config) (divisor : Nat)
    (hdef : cfg.POINTING_MODE_DEFAULT_DIVISOR % 256 ≠ 0) :
    divisor_zero_check cfg divisor ≠ 0 := by
  unfold divisor_zero_check to_u8
  split <;> omega

theorem divisor_postprocess_ne_zero (cfg : Config) (hk : Hooks) (s : ModeState) (divisor : Nat)
    (hdef : cfg.POINTING_MODE_DEFAULT_DIVISOR % 256 ≠ 0) :
    (divisor_postprocess cfg hk s divisor).1 ≠ 0 := by
  unfold divisor_postprocess
  simp only []
  split_ifs <;> exact divisor_zero_check_ne_zero cfg _ hdef

theorem get_pointing_mode_divisor_ne_zero (cfg : Config) (hk : Hooks) (s : ModeState)
    (mouse_report : report_mouse_t)
    (hdef : cfg.POINTING_MODE_DEFAULT_DIVISOR % 256 ≠ 0) :
    (get_pointing_mode_divisor cfg hk s mouse_report).1 ≠ 0 := by
  unfold get_pointing_mode_divisor
  simp only []
  split_ifs <;> exact divisor_postprocess_ne_zero cfg hk _ _ hdef

/-! ## Theorems: what the tap accumulator leaves of the state -/

theorem log_current_divisor (s : ModeState) (e : Event) :
    (s.log e).current_divisor = s.current_divisor := rfl

theorem tap_body_current_divisor (cfg : Config) (s : ModeState) (pm_keycodes : List Keycode)
    (size map_id dir : Nat) :
    (tap_body cfg s pm_keycodes size map_id dir).current_divisor = s.current_divisor := by
  unfold tap_body
  split_ifs <;> rfl

theorem tap_loop_current_divisor (cfg : Config) (pm_keycodes : List Keycode)
    (size map_id dir : Nat) (fuel taps : Nat) (s : ModeState) :
    (tap_loop cfg pm_keycodes size map_id dir fuel taps s).current_divisor
      = s.current_divisor := by
  induction fuel generalizing taps s with
  | zero => rfl
  | succ n ih =>
    unfold tap_loop
    simp only []
    split_ifs
    · rw [ih, tap_body_current_divisor]
    · rw [tap_body_current_divisor]

theorem pointing_tap_keycodes_raw_current_divisor (cfg : Config) (s : ModeState)
    (mouse_report : report_mouse_t) (pm_keycodes : List Keycode) (size map_id : Nat) :
    (pointing_tap_keycodes_raw cfg s mouse_report pm_keycodes size map_id).current_divisor
      = s.current_divisor := by
  unfold pointing_tap_keycodes_raw tap_codes_emit
  simp only []
  split_ifs <;> simp only [tap_loop_current_divisor]

theorem process_pointing_mode_switch_current_divisor (cfg : Config) (s : ModeState)
    (mouse_report : report_mouse_t) :
    (process_pointing_mode_switch cfg s mouse_report).2.current_divisor = s.current_divisor := by
  unfold process_pointing_mode_switch pointing_mode_tap_codes
  dsimp only
  repeat' split
  all_goals first
    | rfl
    | exact pointing_tap_keycodes_raw_current_divisor _ _ _ _ _ _

theorem process_pointing_mode_current_divisor (cfg : Config) (hk : Hooks) (s : ModeState)
    (mouse_report : report_mouse_t) :
    (process_pointing_mode cfg hk s mouse_report).2.current_divisor = s.current_divisor := by
  unfold process_pointing_mode
  dsimp only
  repeat' split
  all_goals first
    | rfl
    | exact (process_pointing_mode_switch_current_divisor _ _ _).trans rfl

/-! ## Theorems: the claims on the mode pipeline -/

/-- C1 (as the code behaves): one `y = 40` sample processed by `pointing_tap_keycodes_raw`
in an unchanged caret mode with divisor 32 and zero leftovers emits one tap (quotient 1)
and leaves `leftover_y = -32`: the delta fed in, 40, is not `32 * 1 + leftover_y`, and
`|leftover_y| < 32` fails. -/
theorem tap_accumulator_loses_motion :
    caret_state_running.current_divisor = 32
    ∧ key_events caret_after_first_tap.events = [.tap_code16_delay .KC_DOWN 0]
    ∧ caret_after_first_tap.leftover_y = -32
    ∧ (40 : Int) ≠ 32 * 1 + caret_after_first_tap.leftover_y
    ∧ ¬ (|caret_after_first_tap.leftover_y| < 32) := by
  decide

/-- C2 (as the code behaves): in the caret scenario (default divisor 32, `y = 40` twice
from zero leftovers) the first call of `pointing_device_modes_task` emits one down-tap and
leaves `leftover_y = -32`, not 8; the second call emits no tap and leaves `leftover_y = 8`,
not one tap and 16. -/
theorem caret_scenario_leftovers :
    caret_scenario_first.current_divisor = 32
    ∧ key_events caret_scenario_first.events = [.tap_code16_delay .KC_DOWN 0]
    ∧ caret_scenario_first.leftover_y = -32
    ∧ key_events caret_scenario_second.events = [.tap_code16_delay .KC_DOWN 0]
    ∧ caret_scenario_second.leftover_y = 8 := by
  decide

/-- C3 (as stated, refuted): with `POINTING_MODE_DEFAULT_DIVISOR = 256` (which is `>= 1`)
the zero check returns `(uint8_t)256 = 0`: in a mode without built-in divisor and without
override `get_pointing_mode_divisor` yields 0, `pointing_mode_divisor_override(0)` stores
0, the initial `current_divisor` is 0 and `pointing_device_modes_task` stores 0. -/
theorem divisor_never_zero_counterexample :
    1 ≤ wide_default_config.POINTING_MODE_DEFAULT_DIVISOR
    ∧ (get_pointing_mode_divisor wide_default_config default_hooks
        (pointing_mode_set_mode (ModeState.init wide_default_config) (PM_SAFE_RANGE + 2))
        (motion 0 5)).1 = 0
    ∧ (pointing_mode_divisor_override wide_default_config default_hooks
        (ModeState.init wide_default_config) 0).current_divisor = 0
    ∧ (ModeState.init wide_default_config).current_divisor = 0
    ∧ (pointing_device_modes_task wide_default_config default_hooks
        (pointing_mode_set_mode (ModeState.init wide_default_config) (PM_SAFE_RANGE + 2))
        (motion 0 5)).2.current_divisor = 0 := by
  decide

/-- C3 (amended): whatever the four divisor callbacks return or write,
`get_pointing_mode_divisor` and `pointing_mode_divisor_override` produce a nonzero divisor,
the initial `current_divisor` is nonzero and `pointing_device_modes_task` keeps it
nonzero, given that `POINTING_MODE_DEFAULT_DIVISOR` is not a multiple of 256 (so it is
`>= 1` and nonzero as the `uint8_t` the code returns and stores it as). -/
theorem divisor_never_zero (cfg : Config) (hk : Hooks) (s : ModeState)
    (mouse_report : report_mouse_t) (divisor : Nat)
    (hdef : cfg.POINTING_MODE_DEFAULT_DIVISOR % 256 ≠ 0) :
    (get_pointing_mode_divisor cfg hk s mouse_report).1 ≠ 0
    ∧ (pointing_mode_divisor_override cfg hk s divisor).current_divisor ≠ 0
    ∧ (ModeState.init cfg).current_divisor ≠ 0
    ∧ (s.current_divisor ≠ 0 →
        (pointing_device_modes_task cfg hk s mouse_report).2.current_divisor ≠ 0) := by
  refine ⟨get_pointing_mode_divisor_ne_zero cfg hk s mouse_report hdef,
    divisor_postprocess_ne_zero cfg hk s divisor hdef, ?_, ?_⟩
  · show to_u8 cfg.POINTING_MODE_DEFAULT_DIVISOR ≠ 0
    unfold to_u8
    omega
  · intro hs
    unfold pointing_device_modes_task
    dsimp only
    repeat' split
    · exact hs
    · exact hs
    · exact hs
    · rw [process_pointing_mode_current_divisor]
      exact get_pointing_mode_divisor_ne_zero cfg hk s mouse_report hdef

/-- Witness of C3 (amended): the default configuration (default divisor 64) and
callbacks, caret mode, sample `y = 40`. -/
theorem divisor_never_zero_witness :
    (get_pointing_mode_divisor default_config default_hooks caret_state (motion 0 40)).1 ≠ 0
    ∧ (pointing_mode_divisor_override default_config default_hooks caret_state 0).current_divisor
        ≠ 0
    ∧ (ModeState.init default_config).current_divisor ≠ 0
    ∧ (caret_state.current_divisor ≠ 0 →
        (pointing_device_modes_task default_config default_hooks caret_state
          (motion 0 40)).2.current_divisor ≠ 0) :=
  divisor_never_zero default_config default_hooks caret_state (motion 0 40) 0 (by decide)

/-- C4 (as stated, refuted): with the drag divisor resolved to 1, the sample `y = -128`
yields `v = -128`, not `-(y / d) = 128`; and a sample with `x = y = 0` keeps its incoming
`h = 5` instead of `x / d = 0`. -/
theorem drag_transform_counterexample :
    pointing_mode_get_mode drag_state = PM_DRAG
    ∧ (get_pointing_mode_divisor drag_config_unit default_hooks drag_state (motion 0 (-128))).1 = 1
    ∧ (pointing_device_modes_task drag_config_unit default_hooks drag_state
        (motion 0 (-128))).1.v = -128
    ∧ (pointing_device_modes_task drag_config_unit default_hooks drag_state
        (motion 0 (-128))).1.v ≠ -(Int.tdiv (-128) 1)
    ∧ (pointing_device_modes_task default_config default_hooks drag_state
        { buttons := 0, x := 0, y := 0, v := 0, h := 5 }).1.h ≠ Int.tdiv 0 4 := by
  decide

theorem wrap16_of_range (n : Int) (hlo : -32768 ≤ n) (hhi : n ≤ 32767) : wrap16 n = n := by
  unfold wrap16
  omega

theorem wrap8_of_range (n : Int) (hlo : -128 ≤ n) (hhi : n ≤ 127) : wrap8 n = n := by
  unfold wrap8
  omega

theorem tdiv_bounds (a : Int) (d : Nat) (hd : 1 ≤ d) (lo hi : Int) (hlo : lo ≤ 0) (hhi : 0 ≤ hi)
    (ha : lo ≤ a ∧ a ≤ hi) : lo ≤ Int.tdiv a d ∧ Int.tdiv a d ≤ hi := by
  have hdpos : (0 : Int) < d := by exact_mod_cast hd
  rcases le_total 0 a with h0 | h0
  · have h1 : 0 ≤ Int.tdiv a d := Int.tdiv_nonneg h0 hdpos.le
    have h2 : Int.tdiv a d ≤ a := by
      rw [Int.tdiv_eq_ediv h0 hdpos.le]
      exact Int.ediv_le_self _ h0
    omega
  · have h1 : Int.tdiv a d ≤ 0 := by
      have := Int.tdiv_nonneg (a := -a) (b := d) (by omega) hdpos.le
      rw [Int.neg_tdiv] at this
      omega
    have h2 : a ≤ Int.tdiv a d := by
      have h3 : Int.tdiv (-a) d ≤ -a := by
        rw [Int.tdiv_eq_ediv (by omega) hdpos.le]
        exact Int.ediv_le_self _ (by omega)
      rw [Int.neg_tdiv] at h3
      omega
    omega

theorem divisor_divide8_of_range (s : ModeState) (value : Int) (hd : 1 ≤ s.current_divisor)
    (hv : -128 ≤ value ∧ value ≤ 127) :
    divisor_divide8 s value = Int.tdiv value s.current_divisor := by
  have hb := tdiv_bounds value s.current_divisor hd (-128) 127 (by decide) (by decide) hv
  unfold divisor_divide8 clamp_int_16_to_8
  dsimp only
  rw [wrap16_of_range value (by omega) (by omega), wrap16_of_range _ (by omega) (by omega)]
  rw [if_neg (by omega), if_neg (by omega)]

theorem divisor_postprocess_state (cfg : Config) (hk : Hooks) (s : ModeState) (divisor : Nat) :
    (divisor_postprocess cfg hk s divisor).2
      = { s with events := (divisor_postprocess cfg hk s divisor).2.events } := by
  unfold divisor_postprocess
  dsimp only
  repeat' split
  all_goals rfl

theorem get_pointing_mode_divisor_state (cfg : Config) (hk : Hooks) (s : ModeState)
    (mouse_report : report_mouse_t) :
    (get_pointing_mode_divisor cfg hk s mouse_report).2
      = { s with events := (get_pointing_mode_divisor cfg hk s mouse_report).2.events } := by
  unfold get_pointing_mode_divisor
  dsimp only
  repeat' split
  all_goals
    rw [divisor_postprocess_state]
    rfl

theorem get_pointing_mode_divisor_mode (cfg : Config) (hk : Hooks) (s : ModeState)
    (mouse_report : report_mouse_t) :
    pointing_mode_get_mode (get_pointing_mode_divisor cfg hk s mouse_report).2
      = pointing_mode_get_mode s := by
  rw [get_pointing_mode_divisor_state]
  rfl

theorem tdiv_gt_min (y : Int) (d : Nat) (hd : 1 ≤ d) (hy : -128 ≤ y ∧ y ≤ 127)
    (hmin : ¬ (y = -128 ∧ d = 1)) : -127 ≤ Int.tdiv y d ∧ Int.tdiv y d ≤ 127 := by
  by_cases h : y = -128
  · subst h
    have hd2 : 2 ≤ d := by omega
    have hdpos : (0 : Int) < d := by exact_mod_cast hd
    have h1 : Int.tdiv (128 : Int) d < 128 := by
      rw [Int.tdiv_eq_ediv (by decide) hdpos.le]
      apply Int.ediv_lt_of_lt_mul hdpos
      have : (2 : Int) ≤ d := by exact_mod_cast hd2
      omega
    have h2 : 0 ≤ Int.tdiv (128 : Int) d := Int.tdiv_nonneg (by decide) hdpos.le
    have h3 : Int.tdiv (-128 : Int) d = -Int.tdiv (128 : Int) d := Int.neg_tdiv _ _
    omega
  · exact tdiv_bounds y d hd (-127) 127 (by decide) (by decide) (by omega)

/-- C4 (amended): in `PM_DRAG`, with both processing callbacks returning true and leaving
the sample as it is, for every sample with `x`, `y` in the signed 8-bit range that is not
`(0, 0)` and every resolved divisor `d` in 1..255, except `y = -128` with `d = 1`,
`pointing_device_modes_task` returns `h = x / d` and `v = -(y / d)` (rounding toward
zero). -/
theorem drag_transform_values (cfg : Config) (hk : Hooks) (s : ModeState)
    (mouse_report : report_mouse_t) (d : Nat)
    (hmode : pointing_mode_get_mode s = PM_DRAG)
    (hu : hk.pointing_mode_process_user mouse_report = (true, mouse_report))
    (hkb : hk.pointing_mode_process_kb mouse_report = (true, mouse_report))
    (hx : -128 ≤ mouse_report.x ∧ mouse_report.x ≤ 127)
    (hy : -128 ≤ mouse_report.y ∧ mouse_report.y ≤ 127)
    (hnz : ¬ (mouse_report.x = 0 ∧ mouse_report.y = 0))
    (hd : (get_pointing_mode_divisor cfg hk s mouse_report).1 = d)
    (hd1 : 1 ≤ d) (hd2 : d ≤ 255)
    (hmin : ¬ (mouse_report.y = -128 ∧ d = 1)) :
    (pointing_device_modes_task cfg hk s mouse_report).1.h = Int.tdiv mouse_report.x d
    ∧ (pointing_device_modes_task cfg hk s mouse_report).1.v
        = -(Int.tdiv mouse_report.y d) := by
  have hnone : ¬ pointing_mode_get_mode s = PM_NONE := by rw [hmode]; decide
  have hvirt : ¬ (cfg.POINTING_VIRTKEY_MAP_ENABLE ∧ pointing_mode_get_mode s = PM_VIRTKEY) := by
    rw [hmode]; simp [PM_DRAG, PM_VIRTKEY]
  have hprec : ¬ (PM_DRAG = PM_PRECISION) := by decide
  have hm : ∀ e1 e2 : Event, pointing_mode_get_mode
      ((({ (get_pointing_mode_divisor cfg hk s mouse_report).2 with
            current_divisor := (get_pointing_mode_divisor cfg hk s mouse_report).1 }
          : ModeState).log e1).log e2) = PM_DRAG := by
    intro e1 e2
    rw [← hmode, ← get_pointing_mode_divisor_mode cfg hk s mouse_report]
    rfl
  have hbx := tdiv_bounds mouse_report.x d hd1 (-128) 127 (by decide) (by decide) hx
  have hby := tdiv_gt_min mouse_report.y d hd1 hy hmin
  unfold pointing_device_modes_task
  rw [if_neg hnone, if_neg hnz, if_neg hvirt]
  unfold process_pointing_mode
  dsimp only
  rw [hu]
  dsimp only
  rw [if_pos rfl, hkb]
  dsimp only
  rw [if_pos rfl]
  unfold process_pointing_mode_switch
  dsimp only
  rw [hm, if_neg hprec, if_pos rfl]
  dsimp only
  unfold pointing_mode_apply_divisor_hv
  rw [divisor_divide8_of_range _ _ (by show 1 ≤ (get_pointing_mode_divisor cfg hk s mouse_report).1; omega) hx,
    divisor_divide8_of_range _ _ (by show 1 ≤ (get_pointing_mode_divisor cfg hk s mouse_report).1; omega) hy]
  show wrap8 (Int.tdiv mouse_report.x ((get_pointing_mode_divisor cfg hk s mouse_report).1 : Nat)) = _
    ∧ wrap8 (-(Int.tdiv mouse_report.y ((get_pointing_mode_divisor cfg hk s mouse_report).1 : Nat))) = _
  rw [hd]
  rw [wrap8_of_range _ (by omega) (by omega), wrap8_of_range _ (by omega) (by omega)]
  exact ⟨rfl, rfl⟩

/-- Witness of C4 (amended): default configuration (drag divisor 4), sample `(8, -8)`. -/
theorem drag_transform_values_witness :
    (pointing_device_modes_task default_config default_hooks drag_state (motion 8 (-8))).1.h
        = Int.tdiv (motion 8 (-8)).x (4 : Nat)
    ∧ (pointing_device_modes_task default_config default_hooks drag_state (motion 8 (-8))).1.v
        = -(Int.tdiv (motion 8 (-8)).y (4 : Nat)) :=
  drag_transform_values default_config default_hooks drag_state (motion 8 (-8)) 4
    (by decide) rfl rfl (by decide) (by decide) (by decide) (by decide) (by decide) (by decide)
    (by decide)

/-- C5 (as the code behaves): in `PM_DRAG` with divisor 4 the sample `(x = 8, y = -8)`
comes back with `h = 2`, `v = 2` and the pointer motion still in place, `x = 8`, `y = -8`,
not zeroed. -/
theorem drag_keeps_pointer_motion :
    pointing_mode_get_mode drag_state = PM_DRAG
    ∧ (pointing_device_modes_task default_config default_hooks drag_state (motion 8 (-8))).2.current_divisor = 4
    ∧ (pointing_device_modes_task default_config default_hooks drag_state (motion 8 (-8))).1
      = { buttons := 0, x := 8, y := -8, v := 2, h := 2 } := by
  decide

/-- C6: if the active mode is `PM_NONE`, or the sample has `x = 0` and `y = 0`,
`pointing_device_modes_task` returns the input report and the input state unchanged: no
field of the report changes, the event log gains no key event and no callback call, and
`current_divisor`, the mode arrays and the leftovers stay as they were. -/
theorem pass_through (cfg : Config) (hk : Hooks) (s : ModeState) (mouse_report : report_mouse_t)
    (h : pointing_mode_get_mode s = PM_NONE ∨ (mouse_report.x = 0 ∧ mouse_report.y = 0)) :
    pointing_device_modes_task cfg hk s mouse_report = (mouse_report, s) := by
  unfold pointing_device_modes_task
  rcases h with h | h
  · rw [if_pos h]
  · by_cases hn : pointing_mode_get_mode s = PM_NONE
    · rw [if_pos hn]
    · rw [if_neg hn, if_pos h]

/-- Witness of C6: a nonzero sample in the initial state, where the mode is `PM_NONE`. -/
theorem pass_through_witness :
    (pointing_mode_get_mode (ModeState.init default_config) = PM_NONE
      ∨ ((motion 5 7).x = 0 ∧ (motion 5 7).y = 0))
    ∧ pointing_device_modes_task default_config default_hooks (ModeState.init default_config)
        (motion 5 7) = (motion 5 7, ModeState.init default_config) :=
  ⟨Or.inl (by decide),
    pass_through default_config default_hooks (ModeState.init default_config) (motion 5 7)
      (Or.inl (by decide))⟩

/-! ## Theorems: integer square root -/

theorem to_u32_of_lt (n : Nat) (h : n < 4294967296) : to_u32 n = n := by
  unfold to_u32
  omega

theorem square_lt_u32 (m : Nat) (h : m ≤ 65535) : m * m < 4294967296 := by
  have := Nat.mul_le_mul h h
  omega

theorem sqrt32_search_spec (x : Nat) :
    ∀ (f l h : Nat), l < h → h ≤ 65535 → h - l ≤ 2 ^ f →
      ∃ r, sqrt32_search x (f + 1) l h = some r ∧ l ≤ r ∧ r < h
        ∧ (l * l ≤ x → r * r ≤ x) ∧ (x < h * h → x < (r + 1) * (r + 1)) := by
  intro f
  induction f with
  | zero =>
    intro l h hlh hh hw
    have hl : h = l + 1 := by
      simp only [pow_zero] at hw
      omega
    subst hl
    refine ⟨l, ?_, le_refl _, by omega, fun hx => hx, fun hx => hx⟩
    unfold sqrt32_search
    have : to_u32 (l + 1 + 4294967295) = l := by unfold to_u32; omega
    rw [this]
    simp
  | succ f ih =>
    intro l h hlh hh hw
    by_cases hl : h = l + 1
    · subst hl
      refine ⟨l, ?_, le_refl _, by omega, fun hx => hx, fun hx => hx⟩
      unfold sqrt32_search
      have : to_u32 (l + 1 + 4294967295) = l := by unfold to_u32; omega
      rw [this]
      simp
    · have hpow : 2 ^ (f + 1) = 2 * 2 ^ f := by rw [pow_succ]; omega
      have hm1 : to_u32 (l + h) / 2 = (l + h) / 2 := by rw [to_u32_of_lt _ (by omega)]
      have hml : l < (l + h) / 2 := by omega
      have hmh : (l + h) / 2 < h := by omega
      have hmm : to_u32 ((l + h) / 2 * ((l + h) / 2)) = (l + h) / 2 * ((l + h) / 2) :=
        to_u32_of_lt _ (square_lt_u32 _ (by omega))
      have hne : l ≠ to_u32 (h + 4294967295) := by unfold to_u32; omega
      unfold sqrt32_search
      rw [if_pos hne]
      dsimp only
      rw [hm1, hmm]
      by_cases hle : (l + h) / 2 * ((l + h) / 2) ≤ x
      · rw [if_pos hle]
        obtain ⟨r, hr, h1, h2, h3, h4⟩ := ih ((l + h) / 2) h hmh hh (by omega)
        exact ⟨r, hr, by omega, h2, fun _ => h3 hle, h4⟩
      · rw [if_neg hle]
        obtain ⟨r, hr, h1, h2, h3, h4⟩ := ih l ((l + h) / 2) hml (by omega) (by omega)
        exact ⟨r, hr, h1, by omega, h3, fun _ => h4 (by omega)⟩

theorem clz_from_spec : ∀ (w x : Nat), 0 < x → x < 2 ^ w →
    clz_from w x < w ∧ 2 ^ (w - 1 - clz_from w x) ≤ x ∧ x < 2 ^ (w - clz_from w x) := by
  intro w
  induction w with
  | zero =>
    intro x h0 hx
    simp only [pow_zero] at hx
    omega
  | succ w ih =>
    intro x h0 hx
    have hpos : 0 < 2 ^ w := pow_pos (by decide) w
    have hq : x / 2 ^ w < 2 := by
      rw [Nat.div_lt_iff_lt_mul hpos]
      rw [pow_succ] at hx
      omega
    unfold clz_from
    by_cases hbit : x / 2 ^ w % 2 = 1
    · rw [if_pos hbit]
      have h1 : x / 2 ^ w = 1 := by
        generalize x / 2 ^ w = q at hq hbit
        omega
      have h2 : 2 ^ w ≤ x := by
        by_contra hc
        have : x / 2 ^ w = 0 := Nat.div_eq_of_lt (by omega)
        omega
      refine ⟨by omega, ?_, ?_⟩
      · simpa using h2
      · simpa using hx
    · rw [if_neg hbit]
      have h1 : x / 2 ^ w = 0 := by
        generalize x / 2 ^ w = q at hq hbit
        omega
      have h2 : x < 2 ^ w := by
        by_contra hc
        have : 1 ≤ x / 2 ^ w := (Nat.one_le_div_iff hpos).2 (by omega)
        omega
      obtain ⟨ha, hb, hc⟩ := ih x h0 h2
      refine ⟨by omega, ?_, ?_⟩
      · have : w + 1 - 1 - (clz_from w x + 1) = w - 1 - clz_from w x := by omega
        rw [this]
        exact hb
      · have : w + 1 - (clz_from w x + 1) = w - clz_from w x := by omega
        rw [this]
        exact hc

theorem sqrt32_bracket (x c : Nat) (hc : c ≤ 31) (hb1 : 2 ^ (31 - c) ≤ x)
    (hb2 : x < 2 ^ (31 - c + 1)) (hx : x < 4294836225) :
    ∃ l h, to_u32 (1 <<< ((31 - c) >>> 1)) = l
      ∧ (if x > 65535 >>> 2 then 65535
          else to_u32 (1 <<< (((31 - c + 1) + 1) >>> 1))) = h
      ∧ l < h ∧ h ≤ 65535 ∧ l * l ≤ x ∧ x < h * h := by
  interval_cases c <;>
    norm_num [to_u32, Nat.shiftLeft_eq, Nat.shiftRight_eq_div_pow] at hb1 hb2 ⊢ <;>
    (try split) <;> omega

theorem sqrt32_in_range (x : Nat) (h0 : 0 < x) (hx : x < 4294836225) :
    ∃ r, sqrt32 x = some r ∧ r * r ≤ x ∧ x < (r + 1) * (r + 1) ∧ r ≤ 65534 := by
  have hne : x ≠ 0 := by omega
  obtain ⟨hc, hb1, hb2⟩ := clz_from_spec 32 x h0 (by norm_num; omega)
  have e1 : 32 - 1 - clz_from 32 x = 31 - clz_from 32 x := by omega
  have e2 : 32 - clz_from 32 x = 31 - clz_from 32 x + 1 := by omega
  rw [e1] at hb1
  rw [e2] at hb2
  obtain ⟨l, h, hl, hh, hlh, hh2, hlx, hxh⟩ :=
    sqrt32_bracket x (clz_from 32 x) (by omega) hb1 hb2 hx
  obtain ⟨r, hr, h1, h2, h3, h4⟩ := sqrt32_search_spec x 31 l h hlh hh2 (by
    have : (2 : Nat) ^ 31 = 2147483648 := by norm_num
    omega)
  refine ⟨r, ?_, h3 hlx, h4 hxh, by omega⟩
  have hone : clz_from 32 1 = 31 := by decide
  unfold sqrt32 builtin_clzl
  dsimp only
  rw [to_u32_of_lt x (by omega), if_neg hne, hone, hl, hh, hr]
  show some (to_u16 r) = some r
  unfold to_u16
  rw [Nat.mod_eq_of_lt (by omega)]

theorem sqrt32_search_top (x : Nat) :
    ∀ (f l h : Nat), l < h → h ≤ 65535 → h - l ≤ 2 ^ f → (h - 1) * (h - 1) ≤ x →
      sqrt32_search x (f + 1) l h = some (h - 1) := by
  intro f
  induction f with
  | zero =>
    intro l h hlh hh hw _
    have hl : h = l + 1 := by
      simp only [pow_zero] at hw
      omega
    subst hl
    unfold sqrt32_search
    have : to_u32 (l + 1 + 4294967295) = l := by unfold to_u32; omega
    rw [this]
    simp
  | succ f ih =>
    intro l h hlh hh hw hx
    by_cases hl : h = l + 1
    · subst hl
      unfold sqrt32_search
      have : to_u32 (l + 1 + 4294967295) = l := by unfold to_u32; omega
      rw [this]
      simp
    · have hpow : 2 ^ (f + 1) = 2 * 2 ^ f := by rw [pow_succ]; omega
      have hm1 : to_u32 (l + h) / 2 = (l + h) / 2 := by rw [to_u32_of_lt _ (by omega)]
      have hmh : (l + h) / 2 < h := by omega
      have hmm : to_u32 ((l + h) / 2 * ((l + h) / 2)) = (l + h) / 2 * ((l + h) / 2) :=
        to_u32_of_lt _ (square_lt_u32 _ (by omega))
      have hne : l ≠ to_u32 (h + 4294967295) := by unfold to_u32; omega
      have hle : (l + h) / 2 * ((l + h) / 2) ≤ x :=
        le_trans (Nat.mul_le_mul (by omega) (by omega)) hx
      unfold sqrt32_search
      rw [if_pos hne]
      dsimp only
      rw [hm1, hmm, if_pos hle]
      exact ih ((l + h) / 2) h hmh hh (by omega) hx

/-- Every 32-bit `x` from `65535 * 65535` on makes `sqrt32` return 65534, one less than
the floor square root 65535: the loop starts from the bracket `(32768, 65535)`, whose
upper end is exclusive. -/
theorem sqrt32_above_range (x : Nat) (hlo : 4294836225 ≤ x) (hhi : x < 4294967296) :
    sqrt32 x = some 65534 := by
  have hne : x ≠ 0 := by omega
  obtain ⟨hc, hb1, hb2⟩ := clz_from_spec 32 x (by omega) (by norm_num; omega)
  have hc0 : clz_from 32 x = 0 := by
    by_contra hcne
    have h31 : 32 - clz_from 32 x ≤ 31 := by omega
    have : 2 ^ (32 - clz_from 32 x) ≤ 2 ^ 31 := Nat.pow_le_pow_right (by decide) h31
    have h2 : (2 : Nat) ^ 31 = 2147483648 := by norm_num
    omega
  have hone : clz_from 32 1 = 31 := by decide
  have hl : to_u32 (1 <<< ((31 - 0) >>> 1)) = 32768 := by decide
  have hgt : x > 65535 >>> 2 := by
    have : 65535 >>> 2 = 16383 := by decide
    omega
  unfold sqrt32 builtin_clzl
  dsimp only
  rw [to_u32_of_lt x hhi, if_neg hne, hone, hc0, hl, if_pos hgt,
    sqrt32_search_top x 31 32768 65535 (by decide) (by decide) (by norm_num) (by omega)]
  rfl

/-- C7 (as stated, refuted): `sqrt32 (2^32 - 1)` returns 65534 although
`65535 * 65535 <= 2^32 - 1`; the same holds at `65535 * 65535` itself. -/
theorem sqrt32_top_of_range :
    sqrt32 4294967295 = some 65534
    ∧ sqrt32 4294836225 = some 65534
    ∧ 65535 * 65535 ≤ 4294836225
    ∧ ¬ (4294967295 < (65534 + 1) * (65534 + 1)) := by
  decide

/-- C7 (amended): for every `x` below `65535 * 65535 = 4294836225`, `sqrt32 x` returns the
largest integer `r` with `r * r <= x`, i.e. `r * r <= x < (r + 1) * (r + 1)`. -/
theorem sqrt32_floor (x : Nat) (hx : x < 4294836225) :
    ∃ r, sqrt32 x = some r ∧ r * r ≤ x ∧ x < (r + 1) * (r + 1) ∧ r = Nat.sqrt x := by
  by_cases h0 : x = 0
  · subst h0
    exact ⟨0, rfl, by decide, by decide, Nat.eq_sqrt.mpr ⟨by decide, by decide⟩⟩
  · obtain ⟨r, hr, h1, h2, _⟩ := sqrt32_in_range x (by omega) hx
    exact ⟨r, hr, h1, h2, Nat.eq_sqrt.mpr ⟨h1, h2⟩⟩

/-- Witness of C7 (amended): `x = 1000000`. -/
theorem sqrt32_floor_witness :
    ∃ r, sqrt32 1000000 = some r ∧ r * r ≤ 1000000 ∧ 1000000 < (r + 1) * (r + 1)
      ∧ r = Nat.sqrt 1000000 :=
  sqrt32_floor 1000000 (by decide)

/-! ## Theorems: cursor glide -/

theorem wrap32_of_range (n : Int) (hlo : -2147483648 ≤ n) (hhi : n ≤ 2147483647) :
    wrap32 n = n := by
  unfold wrap32
  omega

theorem int8_square_bounds (d : Int) (hd : -128 ≤ d ∧ d ≤ 127) : 0 ≤ d * d ∧ d * d ≤ 16384 := by
  constructor
  · exact mul_self_nonneg d
  · nlinarith [hd.1, hd.2]

theorem q8_square_of_int8 (d : Int) (hd : -128 ≤ d ∧ d ≤ 127) :
    q8_square d = 65536 * (d * d) := by
  have hb := int8_square_bounds d hd
  unfold q8_square
  rw [wrap32_of_range (d * 256) (by omega) (by omega)]
  have e1 : d * 256 * d = 256 * (d * d) := by ring
  rw [e1, wrap32_of_range (256 * (d * d)) (by omega) (by omega)]
  have e2 : 256 * (d * d) * 256 = 65536 * (d * d) := by ring
  rw [e2, wrap32_of_range _ (by omega) (by omega)]

theorem glide_initial_velocity_spec (dx0 dy0 : Int)
    (hx : -128 ≤ dx0 ∧ dx0 ≤ 127) (hy : -128 ≤ dy0 ∧ dy0 ≤ 127) :
    ∃ v : Nat, glide_initial_velocity dx0 dy0 = some v
      ∧ (v : Int) * v ≤ 65536 * (dx0 * dx0 + dy0 * dy0)
      ∧ 65536 * (dx0 * dx0 + dy0 * dy0) < ((v : Int) + 1) * (v + 1)
      ∧ v ≤ 65534 := by
  have hbx := int8_square_bounds dx0 hx
  have hby := int8_square_bounds dy0 hy
  unfold glide_initial_velocity
  by_cases hz : dx0 = 0 ∧ dy0 = 0
  · rw [if_pos hz]
    refine ⟨0, rfl, ?_, ?_, by omega⟩
    · rw [hz.1, hz.2]; decide
    · rw [hz.1, hz.2]; decide
  · rw [if_neg hz]
    rw [q8_square_of_int8 dx0 hx, q8_square_of_int8 dy0 hy]
    have hpos : 0 < dx0 * dx0 + dy0 * dy0 := by
      by_contra hc
      have h1 : dx0 * dx0 = 0 := by omega
      have h2 : dy0 * dy0 = 0 := by omega
      exact hz ⟨mul_self_eq_zero.mp h1, mul_self_eq_zero.mp h2⟩
    obtain ⟨n, hn⟩ : ∃ n : Nat, (n : Int) = dx0 * dx0 + dy0 * dy0 :=
      ⟨(dx0 * dx0 + dy0 * dy0).toNat, Int.toNat_of_nonneg (by omega)⟩
    have harg : int_to_u32 (wrap32 (65536 * (dx0 * dx0) + 65536 * (dy0 * dy0))) = 65536 * n := by
      unfold int_to_u32 wrap32
      omega
    rw [harg]
    obtain ⟨r, hr, h1, h2, h3⟩ := sqrt32_in_range (65536 * n) (by omega) (by omega)
    refine ⟨r, hr, ?_, ?_, h3⟩
    · rw [← hn]
      exact_mod_cast h1
    · rw [← hn]
      exact_mod_cast h2

theorem int_to_u32_wrap32_of_nat (v : Nat) (h : v ≤ 2147483647) :
    int_to_u32 (wrap32 (v : Int)) = v := by
  unfold int_to_u32 wrap32
  omega

theorem lt_of_square_lt_q8 (v t : Nat) (s : Int) (h1 : (v : Int) * v ≤ 65536 * s)
    (h2 : s < (t : Int) * t) : v < t * 256 := by
  by_contra hc
  have hge : t * 256 ≤ v := by omega
  have hsq : (t * 256) * (t * 256) ≤ v * v := Nat.mul_le_mul hge hge
  have hsq' : ((t : Int) * 256) * ((t : Int) * 256) ≤ (v : Int) * v := by exact_mod_cast hsq
  have e : ((t : Int) * 256) * ((t : Int) * 256) = 65536 * ((t : Int) * t) := by ring
  rw [e] at hsq'
  generalize (t : Int) * t = tt at h2 hsq'
  generalize (v : Int) * v = vv at h1 hsq'
  omega

/-- C10: for every recorded vector in the 8-bit report range and every (16-bit)
`trigger_px` with `dx0*dx0 + dy0*dy0 < trigger_px*trigger_px`, `cursor_glide_start` returns
the invalid report `{0, 0, false}` and leaves every field of the glide status zero. -/
theorem glide_threshold (cfg : Config) (now : Nat) (glide : cursor_glide_context_t)
    (hx : -128 ≤ glide.status.dx0 ∧ glide.status.dx0 ≤ 127)
    (hy : -128 ≤ glide.status.dy0 ∧ glide.status.dy0 ≤ 127)
    (ht : glide.config.trigger_px ≤ 65535)
    (hmag : glide.status.dx0 * glide.status.dx0 + glide.status.dy0 * glide.status.dy0
      < (glide.config.trigger_px : Int) * glide.config.trigger_px) :
    cursor_glide_start cfg now glide
      = some ({ dx := 0, dy := 0, valid := false },
          { config := glide.config, status := cursor_glide_status_zero }) := by
  obtain ⟨v, hv, h1, _, h3⟩ := glide_initial_velocity_spec _ _ hx hy
  have hlt : v < glide.config.trigger_px * 256 := lt_of_square_lt_q8 v _ _ h1 hmag
  have e1 : int_to_u32 (wrap32 (v : Int)) = v :=
    int_to_u32_wrap32_of_nat v (le_trans h3 (by decide))
  have e2 : to_u32 (glide.config.trigger_px * 256) = glide.config.trigger_px * 256 :=
    to_u32_of_lt _ (lt_of_le_of_lt (Nat.mul_le_mul_right 256 ht) (by decide))
  unfold cursor_glide_start
  dsimp only
  rw [hv]
  simp only [Option.map_some']
  rw [e1, e2, if_pos hlt]
  rfl

/-- Witness of C10: the vector `(3, 4)` (magnitude 5) with `trigger_px = 10`. -/
theorem glide_threshold_witness :
    cursor_glide_start default_config 7
        { config := { coef := 102, interval := 10, trigger_px := 10 },
          status := { cursor_glide_status_zero with dx0 := 3, dy0 := 4, timer := 99, x := 5 } }
      = some ({ dx := 0, dy := 0, valid := false },
          { config := { coef := 102, interval := 10, trigger_px := 10 },
            status := cursor_glide_status_zero }) :=
  glide_threshold default_config 7
    { config := { coef := 102, interval := 10, trigger_px := 10 },
      status := { cursor_glide_status_zero with dx0 := 3, dy0 := 4, timer := 99, x := 5 } }
    (by decide) (by decide) (by decide) (by decide)

theorem frictionless_position (a : Int) (c : Nat) (ha : 0 ≤ a ∧ a ≤ 127) (hc : c ≤ 65535) :
    glide_position (256 * a) 0 c = 256 * a * c := by
  have hcc : (0 : Int) ≤ (c : Int) ∧ (c : Int) ≤ 65535 := by omega
  have hac : 0 ≤ a * c := mul_nonneg ha.1 hcc.1
  have hac2 : a * c ≤ 127 * 65535 := mul_le_mul ha.2 hcc.2 hcc.1 (by decide)
  have e256 : 256 * a * c = 256 * (a * c) := by ring
  have hb : 0 ≤ 256 * a * c ∧ 256 * a * c ≤ 2147483647 := by
    rw [e256]
    omega
  unfold glide_position
  simp only [Nat.cast_zero, zero_mul]
  rw [wrap32_of_range (256 * a * c) (by omega) (by omega)]
  have h0 : wrap32 0 = 0 := by decide
  rw [h0, zero_mul, h0]
  have h1 : Int.tdiv 0 2 = 0 := by decide
  rw [h1, h0, sub_zero]
  exact wrap32_of_range _ (by omega) (by omega)

theorem frictionless_project (a : Int) (c : Nat) (ha : 1 ≤ a ∧ a ≤ 127)
    (hfit : 256 * a * c * a ≤ 2147483647) :
    glide_project (256 * a * c) a (256 * a) = a * c := by
  have hcc : (0 : Int) ≤ (c : Int) := by omega
  have ha0 : 0 ≤ a := by omega
  have hac : 0 ≤ a * c := mul_nonneg ha0 hcc
  have e0 : 256 * a * c * a = 256 * ((a * c) * a) := by ring
  have haca : a * c ≤ (a * c) * a := le_mul_of_one_le_right hac ha.1
  have hnn : 0 ≤ 256 * a * c * a := by
    rw [e0]
    omega
  have hle : a * c ≤ 256 * a * c * a := by
    rw [e0]
    omega
  unfold glide_project
  rw [wrap32_of_range _ (by omega) hfit]
  have e : 256 * a * c * a = (256 * a) * (a * c) := by ring
  rw [e, Int.mul_tdiv_cancel_left _ (by omega)]
  exact wrap32_of_range _ (by omega) (by omega)

theorem wrap32_zero : wrap32 0 = 0 := by decide

theorem frictionless_step (a : Int) (c : Nat) (ha : 2 ≤ a ∧ a ≤ 127) (hc : c + 1 ≤ 65535)
    (hfit : 256 * a * ((c + 1 : Nat) : Int) * a ≤ 2147483647) :
    cursor_glide_check default_config 0 (frictionless_glide a c)
      = ({ dx := a, dy := 0, valid := true }, frictionless_glide a (c + 1)) := by
  have hpos := frictionless_position a (c + 1) (by omega) hc
  have hprj := frictionless_project a (c + 1) (by omega) hfit
  have hprj0 : glide_project (256 * a * ((c + 1 : Nat) : Int)) 0 (256 * a) = 0 := by
    unfold glide_project
    rw [mul_zero, wrap32_zero, Int.zero_tdiv, wrap32_zero]
  have hcnt : to_u16 (c + 1) = c + 1 := by unfold to_u16; omega
  have hdx : to_mouse_xy default_config (wrap32 (a * ((c + 1 : Nat) : Int) - a * (c : Int))) = a := by
    have e : a * ((c + 1 : Nat) : Int) - a * (c : Int) = a := by push_cast; ring
    rw [e, wrap32_of_range a (by omega) (by omega)]
    show wrap8 a = a
    exact wrap8_of_range a (by omega) (by omega)
  have hdy : to_mouse_xy default_config (wrap32 ((0 : Int) - 0)) = 0 := by decide
  have hgate : ¬ ((0 : Nat) ≠ 0 ∨ (a = 0 ∧ (0 : Int) = 0) ∨ timer_elapsed 0 0 < 0) := by
    rintro (h | h | h)
    · exact h rfl
    · omega
    · exact Nat.not_lt_zero _ h
  have hv0 : ¬ (256 * a = 0) := by omega
  have hstop : ¬ (a ≤ 1 ∧ a ≥ -1 ∧ (0 : Int) ≤ 1 ∧ (0 : Int) ≥ -1) := by omega
  unfold cursor_glide_check frictionless_glide
  dsimp only
  rw [if_neg hgate]
  unfold cursor_glide
  dsimp only
  rw [if_neg hv0, hcnt, hpos, hprj, hprj0, hdx, hdy, if_neg hstop]
  rfl

theorem frictionless_checks_fit (a : Int) (ha : 2 ≤ a ∧ a ≤ 127) :
    ∀ n : Nat, n + 1 ≤ 65535 → 256 * a * ((n + 1 : Nat) : Int) * a ≤ 2147483647 →
      glide_checks default_config (fun _ => 0) (frictionless_glide a 1) n
        = frictionless_glide a (n + 1) := by
  intro n
  induction n with
  | zero => intro _ _; rfl
  | succ n ih =>
    intro hn hfit
    have haa : 0 ≤ 256 * a * a := by
      have : 0 ≤ a * a := mul_self_nonneg a
      have e : 256 * a * a = 256 * (a * a) := by ring
      rw [e]
      omega
    have hle : 256 * a * ((n + 1 : Nat) : Int) * a ≤ 256 * a * ((n + 1 + 1 : Nat) : Int) * a := by
      have e1 : 256 * a * ((n + 1 : Nat) : Int) * a = (256 * a * a) * ((n + 1 : Nat) : Int) := by ring
      have e2 : 256 * a * ((n + 1 + 1 : Nat) : Int) * a
          = (256 * a * a) * ((n + 1 : Nat) : Int) + 256 * a * a := by push_cast; ring
      rw [e1, e2]
      omega
    show (cursor_glide_check default_config 0
      (glide_checks default_config (fun _ => 0) (frictionless_glide a 1) n)).2 = _
    rw [ih (by omega) (le_trans hle hfit), frictionless_step a (n + 1) ha hn hfit]

/-- C8 (as stated, refuted): with `coef = 65535` and the vector `(100, 0)` the second
step (`t = 2`) is not gated out and computes `p = -79870`, `x = -311` after the stored
`x = -27`, but reports `dx = -28`, not `x - (-27) = -284`: the difference is cut to the
8-bit report type. And with `coef = 0` and the vector `(127, 0)` the state reached after
519 checks is not gated out, its step `t = 521` has `p = 32512 * 521` and
`p * dx0 / v0 = 66167`, but the product `p * dx0` exceeds 32 bits and the step stores
`x = -65937`. -/
theorem glide_step_counterexample :
    cursor_glide_start default_config 0 steep_glide
      = some ({ dx := -27, dy := 0, valid := true }, steep_glide_started)
    ∧ steep_glide_started.status.z = 0
    ∧ ¬ (steep_glide_started.status.dx0 = 0 ∧ steep_glide_started.status.dy0 = 0)
    ∧ ¬ (timer_elapsed 0 steep_glide_started.status.timer < steep_glide_started.config.interval)
    ∧ steep_glide_started.status.v0 ≠ 0
    ∧ (25600 * 2 - Int.tdiv (65535 * 2 * 2) 2 : Int) = -79870
    ∧ Int.tdiv (-79870 * 100) 25600 = -311
    ∧ (cursor_glide_check default_config 0 steep_glide_started).2.status.x = -311
    ∧ (cursor_glide_check default_config 0 steep_glide_started).1
        = { dx := -28, dy := 0, valid := true }
    ∧ (cursor_glide_check default_config 0 steep_glide_started).1.dx
        ≠ -311 - steep_glide_started.status.x
    ∧ cursor_glide_start default_config 0 (frictionless_glide_initial 127)
        = some ({ dx := 127, dy := 0, valid := true }, frictionless_glide 127 1)
    ∧ glide_checks default_config (fun _ => 0) (frictionless_glide 127 1) 519
        = frictionless_glide 127 520
    ∧ Int.tdiv ((32512 * 521 - Int.tdiv (0 * 521 * 521) 2) * 127) 32512 = 66167
    ∧ (cursor_glide_check default_config 0 (frictionless_glide 127 520)).2.status.x
        = -65937 := by
  refine ⟨by decide, by decide, by decide, by decide, by decide, by decide, by decide,
    by decide, by decide, by decide, by decide, ?_, by decide, by decide⟩
  exact frictionless_checks_fit 127 (by decide) 519 (by decide) (by decide)

theorem to_mouse_xy_of_range (cfg : Config) (n : Int) (h : in_mouse_xy cfg n) :
    to_mouse_xy cfg n = n := by
  unfold in_mouse_xy at h
  unfold to_mouse_xy
  split
  · rw [if_pos ‹_›] at h
    exact wrap16_of_range n h.1 h.2
  · rw [if_neg ‹_›] at h
    exact wrap8_of_range n h.1 h.2

theorem in_int32_of_mouse_xy (cfg : Config) (n : Int) (h : in_mouse_xy cfg n) : in_int32 n := by
  unfold in_mouse_xy at h
  unfold in_int32
  split at h <;> omega

theorem glide_position_of_fits (v0 : Int) (coef t : Nat)
    (h1 : in_int32 (v0 * t)) (h2 : in_int32 ((coef : Int) * t))
    (h3 : in_int32 ((coef : Int) * t * t))
    (h4 : in_int32 (v0 * t - Int.tdiv ((coef : Int) * t * t) 2)) :
    glide_position v0 coef t = v0 * t - Int.tdiv ((coef : Int) * t * t) 2 := by
  unfold in_int32 at h1 h2 h3 h4
  have hnn : (0 : Int) ≤ (coef : Int) * t * t := by positivity
  have hd := tdiv_bounds ((coef : Int) * t * t) 2 (by decide) 0 2147483647 (le_refl _)
    (by decide) ⟨hnn, h3.2⟩
  unfold glide_position
  rw [wrap32_of_range _ h1.1 h1.2, wrap32_of_range _ h2.1 h2.2, wrap32_of_range _ h3.1 h3.2]
  have hd' : Int.tdiv ((coef : Int) * t * t) 2 = Int.tdiv ((coef : Int) * t * t) ((2 : Nat) : Int) := rfl
  rw [wrap32_of_range (Int.tdiv ((coef : Int) * t * t) 2) (by rw [hd']; omega) (by rw [hd']; omega)]
  exact wrap32_of_range _ h4.1 h4.2

theorem glide_project_of_fits (p d0 v0 : Int) (h1 : in_int32 (p * d0))
    (h2 : in_int32 (Int.tdiv (p * d0) v0)) :
    glide_project p d0 v0 = Int.tdiv (p * d0) v0 := by
  unfold glide_project
  rw [wrap32_of_range _ h1.1 h1.2, wrap32_of_range _ h2.1 h2.2]

/-- C8 (amended): on every step that is not gated out (`z = 0`, recorded vector nonzero,
interval elapsed, `v0 != 0`), with `t` the step counter after incrementing, provided the
32-bit intermediates do not overflow and both differences lie in the range of the report
type, `cursor_glide_check` returns the valid report with `dx = x - status.x` and
`dy = y - status.y`, where `p = v0*t - (coef*t*t)/2`, `x = p*dx0/v0` and `y = p*dy0/v0`
(divisions rounding toward zero). -/
theorem glide_step_kinematics (cfg : Config) (now : Nat) (glide : cursor_glide_context_t)
    (t : Nat) (p x y : Int)
    (hz : glide.status.z = 0)
    (hvec : ¬ (glide.status.dx0 = 0 ∧ glide.status.dy0 = 0))
    (hgate : ¬ (timer_elapsed now glide.status.timer < glide.config.interval))
    (hv0 : glide.status.v0 ≠ 0)
    (ht : t = to_u16 (glide.status.counter + 1))
    (hp : p = glide.status.v0 * t - Int.tdiv ((glide.config.coef : Int) * t * t) 2)
    (hx : x = Int.tdiv (p * glide.status.dx0) glide.status.v0)
    (hy : y = Int.tdiv (p * glide.status.dy0) glide.status.v0)
    (hfit : glide_step_fits glide t)
    (hdx : in_mouse_xy cfg (x - glide.status.x))
    (hdy : in_mouse_xy cfg (y - glide.status.y)) :
    (cursor_glide_check cfg now glide).1
      = { dx := x - glide.status.x, dy := y - glide.status.y, valid := true } := by
  obtain ⟨f1, f2, f3, f4, f5, f6, f7, f8⟩ := hfit
  have hpos := glide_position_of_fits glide.status.v0 glide.config.coef t f1 f2 f3 f4
  rw [← hp] at hpos f5 f6 f7 f8
  have hX := glide_project_of_fits p glide.status.dx0 glide.status.v0 f5 f7
  have hY := glide_project_of_fits p glide.status.dy0 glide.status.v0 f6 f8
  rw [← hx] at hX
  rw [← hy] at hY
  have hwx := in_int32_of_mouse_xy cfg _ hdx
  have hwy := in_int32_of_mouse_xy cfg _ hdy
  have hnogate : ¬ (glide.status.z ≠ 0 ∨ (glide.status.dx0 = 0 ∧ glide.status.dy0 = 0)
      ∨ timer_elapsed now glide.status.timer < glide.config.interval) := by
    rintro (h | h | h)
    · exact h hz
    · exact hvec h
    · exact hgate h
  unfold cursor_glide_check
  dsimp only
  rw [if_neg hnogate]
  unfold cursor_glide
  dsimp only
  rw [if_neg hv0, ← ht, hpos, hX, hY, wrap32_of_range _ hwx.1 hwx.2,
    wrap32_of_range _ hwy.1 hwy.2, to_mouse_xy_of_range cfg _ hdx, to_mouse_xy_of_range cfg _ hdy]
  split <;> rfl

/-- Witness of C8 (amended): vector `(100, 0)`, `v0 = 25600`, `coef = 102`, second step
after the stored `x = 99`: `p = 50996`, `x = 199`, reported `dx = 100`. -/
theorem glide_step_kinematics_witness :
    (cursor_glide_check default_config 10
        { config := { coef := 102, interval := 10, trigger_px := 10 },
          status := { v0 := 25600, x := 99, y := 0, z := 0, timer := 0, counter := 1,
                      dx0 := 100, dy0 := 0 } }).1
      = { dx := 199 - 99, dy := 0 - 0, valid := true } :=
  glide_step_kinematics default_config 10
    { config := { coef := 102, interval := 10, trigger_px := 10 },
      status := { v0 := 25600, x := 99, y := 0, z := 0, timer := 0, counter := 1,
                  dx0 := 100, dy0 := 0 } }
    2 50996 199 0 (by decide) (by decide) (by decide) (by decide) (by decide) (by decide)
    (by decide) (by decide) (by decide) (by decide) (by decide)

theorem frictionless_cycle (c : Nat) (hc : c ≤ 65535) :
    cursor_glide_check default_config 0 (frictionless_glide 2 c)
      = ({ dx := 2, dy := 0, valid := true }, frictionless_glide 2 ((c + 1) % 65536)) := by
  by_cases h : c = 65535
  · subst h
    decide
  · have hlt : c + 1 ≤ 65535 := by omega
    have hmod : (c + 1) % 65536 = c + 1 := by omega
    rw [hmod]
    refine frictionless_step 2 c (by decide) hlt ?_
    have : ((c + 1 : Nat) : Int) ≤ 65535 := by exact_mod_cast hlt
    omega

theorem frictionless_checks (n : Nat) :
    ∃ c, c ≤ 65535 ∧
      glide_checks default_config (fun _ => 0) (frictionless_glide 2 1) n
        = frictionless_glide 2 c := by
  induction n with
  | zero => exact ⟨1, by decide, rfl⟩
  | succ n ih =>
    obtain ⟨c, hc, h⟩ := ih
    refine ⟨(c + 1) % 65536, by omega, ?_⟩
    show (cursor_glide_check default_config 0
      (glide_checks default_config (fun _ => 0) (frictionless_glide 2 1) n)).2 = _
    rw [h, frictionless_cycle c hc]

/-- C9 (as stated, refuted): with `coef = 0`, `interval = 0`, `trigger_px = 0` and the
vector `(2, 0)`, `cursor_glide_start` begins a glide and no later `cursor_glide_check`
(`z = 0`, the interval gate open) ever returns the invalid report or zeroes the status. -/
theorem glide_without_friction_never_stops :
    cursor_glide_start default_config 0 (frictionless_glide_initial 2)
        = some ({ dx := 2, dy := 0, valid := true }, frictionless_glide 2 1)
    ∧ (¬ ∃ n, (cursor_glide_check default_config 0
          (glide_checks default_config (fun _ => 0) (frictionless_glide 2 1) n)).1
        = invalid_report)
    ∧ (¬ ∃ n, (glide_checks default_config (fun _ => 0) (frictionless_glide 2 1) n).status
        = cursor_glide_status_zero) := by
  refine ⟨by decide, ?_, ?_⟩
  · rintro ⟨n, hn⟩
    obtain ⟨c, hc, h⟩ := frictionless_checks n
    rw [h, frictionless_cycle c hc] at hn
    have hv : (true : Bool) = false := congrArg cursor_glide_t.valid hn
    exact absurd hv (by decide)
  · rintro ⟨n, hn⟩
    obtain ⟨c, hc, h⟩ := frictionless_checks n
    rw [h] at hn
    have hd : (2 : Int) = 0 := congrArg cursor_glide_status_t.dx0 hn
    exact absurd hd (by decide)

/-! ### Truncated division by a positive divisor -/

theorem tdiv_spec_nonneg (n v : Int) (hv : 0 < v) (hn : 0 ≤ n) :
    0 ≤ Int.tdiv n v ∧ Int.tdiv n v * v ≤ n ∧ n < Int.tdiv n v * v + v := by
  rw [Int.tdiv_eq_ediv hn hv.le]
  refine ⟨Int.ediv_nonneg hn hv.le, Int.ediv_mul_le n hv.ne', ?_⟩
  have := Int.lt_ediv_add_one_mul_self n hv
  linarith

theorem tdiv_spec_nonpos (n v : Int) (hv : 0 < v) (hn : n ≤ 0) :
    Int.tdiv n v ≤ 0 ∧ Int.tdiv n v * v - v < n ∧ n ≤ Int.tdiv n v * v := by
  obtain ⟨h1, h2, h3⟩ := tdiv_spec_nonneg (-n) v hv (by omega)
  rw [Int.neg_tdiv] at h1 h2 h3
  refine ⟨by omega, ?_, ?_⟩
  · linarith
  · linarith

theorem tdiv_close (n1 n2 v : Int) (hv : 0 < v) (hle : n1 ≤ n2) (hd : n2 - n1 ≤ v) :
    Int.tdiv n1 v ≤ Int.tdiv n2 v ∧ Int.tdiv n2 v ≤ Int.tdiv n1 v + 1 := by
  rcases le_total 0 n1 with h1 | h1
  · obtain ⟨a1, a2, a3⟩ := tdiv_spec_nonneg n1 v hv h1
    obtain ⟨b1, b2, b3⟩ := tdiv_spec_nonneg n2 v hv (by omega)
    constructor
    · by_contra hc
      have : (Int.tdiv n2 v + 1) * v ≤ Int.tdiv n1 v * v :=
        mul_le_mul_of_nonneg_right (by omega) hv.le
      linarith
    · by_contra hc
      have : (Int.tdiv n1 v + 2) * v ≤ Int.tdiv n2 v * v :=
        mul_le_mul_of_nonneg_right (by omega) hv.le
      linarith
  · rcases le_total n2 0 with h2 | h2
    · obtain ⟨a1, a2, a3⟩ := tdiv_spec_nonpos n1 v hv h1
      obtain ⟨b1, b2, b3⟩ := tdiv_spec_nonpos n2 v hv h2
      constructor
      · by_contra hc
        have : (Int.tdiv n2 v + 1) * v ≤ Int.tdiv n1 v * v :=
          mul_le_mul_of_nonneg_right (by omega) hv.le
        linarith
      · by_contra hc
        have : (Int.tdiv n1 v + 2) * v ≤ Int.tdiv n2 v * v :=
          mul_le_mul_of_nonneg_right (by omega) hv.le
        linarith
    · obtain ⟨a1, a2, a3⟩ := tdiv_spec_nonpos n1 v hv h1
      obtain ⟨b1, b2, b3⟩ := tdiv_spec_nonneg n2 v hv h2
      constructor
      · omega
      · by_contra hc
        by_cases hz : Int.tdiv n1 v = 0
        · have hq3 : 2 ≤ Int.tdiv n2 v := by omega
          have hq3' : 2 * v ≤ Int.tdiv n2 v * v := mul_le_mul_of_nonneg_right hq3 hv.le
          linarith
        · by_cases hm : Int.tdiv n1 v = -1
          · have hq3 : 1 ≤ Int.tdiv n2 v := by omega
            have hq3' : 1 * v ≤ Int.tdiv n2 v * v := mul_le_mul_of_nonneg_right hq3 hv.le
            rw [hm] at a3
            linarith
          · have hq1' : Int.tdiv n1 v * v ≤ (-2) * v :=
              mul_le_mul_of_nonneg_right (by omega) hv.le
            linarith

theorem tdiv_scaled_bounds (n v : Int) (hv : 256 ≤ v) (hn : -2147483648 ≤ n ∧ n ≤ 2147483647) :
    -8388608 ≤ Int.tdiv n v ∧ Int.tdiv n v ≤ 8388608 := by
  have hv0 : 0 < v := by omega
  rcases le_total 0 n with h | h
  · obtain ⟨a1, a2, a3⟩ := tdiv_spec_nonneg n v hv0 h
    have : Int.tdiv n v * 256 ≤ Int.tdiv n v * v := mul_le_mul_of_nonneg_left hv a1
    omega
  · obtain ⟨a1, a2, a3⟩ := tdiv_spec_nonpos n v hv0 h
    have : Int.tdiv n v * v ≤ Int.tdiv n v * 256 := mul_le_mul_of_nonpos_left hv a1
    omega

/-! ### The exact position of a glide -/

theorem glide_p_zero (v : Int) (c : Nat) : glide_p v c 0 = 0 := by
  unfold glide_p
  simp

theorem glide_p_delta (v : Int) (c t : Nat) (u : Int) (hu : u = (c : Int) * t) :
    2 * v - 2 * u - c - 1 ≤ 2 * (glide_p v c (t + 1) - glide_p v c t)
    ∧ 2 * (glide_p v c (t + 1) - glide_p v c t) ≤ 2 * v - 2 * u - c + 1 := by
  have hw : (0 : Int) ≤ (c : Int) * t * t := by positivity
  have hw' : (0 : Int) ≤ (c : Int) * ((t + 1 : Nat) : Int) * ((t + 1 : Nat) : Int) := by positivity
  have e : (c : Int) * ((t + 1 : Nat) : Int) * ((t + 1 : Nat) : Int)
      = (c : Int) * t * t + 2 * u + c := by
    rw [hu]; push_cast; ring
  have ev : v * ((t + 1 : Nat) : Int) = v * t + v := by push_cast; ring
  unfold glide_p
  rw [Int.tdiv_eq_ediv hw (by decide), Int.tdiv_eq_ediv hw' (by decide), e, ev]
  generalize (c : Int) * t * t = w at hw
  generalize v * (t : Int) = vt
  omega

theorem glide_p_upper (v c t : Nat) : 2 * (c : Int) * glide_p v c t ≤ (v : Int) * v + c := by
  have hw : (0 : Int) ≤ (c : Int) * t * t := by positivity
  have hF : (c : Int) * t * t - 1 ≤ 2 * Int.tdiv ((c : Int) * t * t) 2 := by
    rw [Int.tdiv_eq_ediv hw (by decide)]
    generalize (c : Int) * t * t = w
    omega
  have hc : (0 : Int) ≤ c := by positivity
  have h1 := mul_le_mul_of_nonneg_left hF hc
  have h2 := sq_nonneg ((v : Int) - c * t)
  unfold glide_p
  nlinarith [h1, h2]

theorem cursor_glide_exact (cfg : Config) (now : Nat) (glide : cursor_glide_context_t) (t : Nat)
    (x y : Int)
    (hv0 : glide.status.v0 ≠ 0) (ht : to_u16 (glide.status.counter + 1) = t)
    (hfit : glide_step_fits glide t)
    (hx : x = Int.tdiv (glide_p glide.status.v0 glide.config.coef t * glide.status.dx0)
      glide.status.v0)
    (hy : y = Int.tdiv (glide_p glide.status.v0 glide.config.coef t * glide.status.dy0)
      glide.status.v0)
    (hdx : in_int32 (x - glide.status.x)) (hdy : in_int32 (y - glide.status.y)) :
    cursor_glide cfg now glide
      = (if to_mouse_xy cfg (x - glide.status.x) ≤ 1 ∧ to_mouse_xy cfg (x - glide.status.x) ≥ -1
            ∧ to_mouse_xy cfg (y - glide.status.y) ≤ 1
            ∧ to_mouse_xy cfg (y - glide.status.y) ≥ -1 then
          ({ dx := to_mouse_xy cfg (x - glide.status.x),
             dy := to_mouse_xy cfg (y - glide.status.y), valid := true },
           { config := glide.config, status := cursor_glide_status_zero })
        else
          ({ dx := to_mouse_xy cfg (x - glide.status.x),
             dy := to_mouse_xy cfg (y - glide.status.y), valid := true },
           { config := glide.config,
             status := { v0 := glide.status.v0, x := x, y := y, z := glide.status.z,
                         timer := to_u16 now, counter := t, dx0 := glide.status.dx0,
                         dy0 := glide.status.dy0 } })) := by
  obtain ⟨f1, f2, f3, f4, f5, f6, f7, f8⟩ := hfit
  have hpos := glide_position_of_fits glide.status.v0 glide.config.coef t f1 f2 f3 f4
  have hX := glide_project_of_fits _ glide.status.dx0 glide.status.v0 f5 f7
  have hY := glide_project_of_fits _ glide.status.dy0 glide.status.v0 f6 f8
  have hp : glide_p glide.status.v0 glide.config.coef t
      = glide.status.v0 * t - Int.tdiv ((glide.config.coef : Int) * t * t) 2 := rfl
  rw [hp] at hx hy
  rw [← hx] at hX
  rw [← hy] at hY
  unfold cursor_glide
  dsimp only
  rw [if_neg hv0, ht, hpos, hX, hY, wrap32_of_range _ hdx.1 hdx.2, wrap32_of_range _ hdy.1 hdy.2]
  split <;> rfl

theorem abs_mul_le_of_le (d a m k : Int) (hd : |d| ≤ m) (ha : |a| ≤ k) : |d * a| ≤ m * k := by
  rw [abs_mul]
  exact mul_le_mul hd ha (abs_nonneg a) (le_trans (abs_nonneg d) hd)

theorem tdiv_close_abs (n1 n2 v : Int) (hv : 0 < v) (h : |n1 - n2| ≤ v) :
    |Int.tdiv n1 v - Int.tdiv n2 v| ≤ 1 := by
  rw [abs_le] at h
  rw [abs_le]
  rcases le_total n1 n2 with hle | hle
  · obtain ⟨h1, h2⟩ := tdiv_close n1 n2 v hv hle (by omega)
    omega
  · obtain ⟨h1, h2⟩ := tdiv_close n2 n1 v hv hle (by omega)
    omega

theorem glide_tick (cfg : Config) (h8 : cfg.MOUSE_EXTENDED_REPORT = false) (now : Nat)
    (conf : cursor_glide_config_t) (v : Nat) (a b : Int) (t : Nat)
    (glide : cursor_glide_context_t) (u : Int) (hu : u = (conf.coef : Int) * t)
    (hc : 64 ≤ conf.coef ∧ conf.coef ≤ 511) (hv : 256 ≤ v ∧ v ≤ 46340)
    (ha : |a| ≤ 128) (hb : |b| ≤ 128) (hav : 256 * |a| ≤ v) (hbv : 256 * |b| ≤ v)
    (hrun : glide_running conf v a b t glide)
    (hJ : 2 * u + 513 ≤ 2 * (v : Int) + conf.coef)
    (hP : 0 ≤ glide_p v conf.coef t) :
    (cursor_glide cfg now glide).2.status = cursor_glide_status_zero
    ∨ (glide_running conf v a b (t + 1) (cursor_glide cfg now glide).2
        ∧ 2 * (u + conf.coef) + 513 ≤ 2 * (v : Int) + conf.coef
        ∧ 0 ≤ glide_p v conf.coef (t + 1)) := by
  obtain ⟨r1, r2, r3, r4, r5, r6, r7, r8⟩ := hrun
  have hcI : (64 : Int) ≤ conf.coef ∧ (conf.coef : Int) ≤ 511 := by omega
  have hvI : (256 : Int) ≤ v ∧ (v : Int) ≤ 46340 := by omega
  have ht0 : (0 : Int) ≤ t := by positivity
  -- the step counter is small
  have htb : (t : Int) ≤ 724 := by
    have h64 : 64 * (t : Int) ≤ (conf.coef : Int) * t := mul_le_mul_of_nonneg_right hcI.1 ht0
    rw [← hu] at h64
    omega
  have htn : t ≤ 724 := by exact_mod_cast htb
  have ht1 : ((t + 1 : Nat) : Int) ≤ 725 := by push_cast; omega
  have ht1' : (0 : Int) ≤ ((t + 1 : Nat) : Int) := by positivity
  -- bounds of the exact position after the step
  obtain ⟨d1, d2⟩ := glide_p_delta v conf.coef t u hu
  have hPlo : -255 ≤ glide_p v conf.coef (t + 1) := by omega
  have hPhi : glide_p v conf.coef (t + 1) ≤ 16776532 := by
    rcases le_total (glide_p v conf.coef (t + 1)) 0 with h0 | h0
    · omega
    · have hup := glide_p_upper v conf.coef (t + 1)
      have hvv : (v : Int) * v ≤ 46340 * 46340 := mul_le_mul hvI.2 hvI.2 (by omega) (by decide)
      have h128 : 128 * glide_p v conf.coef (t + 1)
          ≤ 2 * (conf.coef : Int) * glide_p v conf.coef (t + 1) :=
        mul_le_mul_of_nonneg_right (by omega) h0
      omega
  have hPabs : |glide_p v conf.coef (t + 1)| ≤ 16776532 := abs_le.mpr ⟨by omega, hPhi⟩
  have hPa := abs_le.mp (abs_mul_le_of_le _ a _ _ hPabs ha)
  have hPb := abs_le.mp (abs_mul_le_of_le _ b _ _ hPabs hb)
  have hXn := tdiv_scaled_bounds (glide_p v conf.coef (t + 1) * a) v hvI.1 (by omega)
  have hYn := tdiv_scaled_bounds (glide_p v conf.coef (t + 1) * b) v hvI.1 (by omega)
  -- bounds of the stored position
  have hPabs0 : |glide_p v conf.coef t| ≤ 16776532 := by
    have hup := glide_p_upper v conf.coef t
    have hvv : (v : Int) * v ≤ 46340 * 46340 := mul_le_mul hvI.2 hvI.2 (by omega) (by decide)
    have h128 : 128 * glide_p v conf.coef t ≤ 2 * (conf.coef : Int) * glide_p v conf.coef t :=
      mul_le_mul_of_nonneg_right (by omega) hP
    exact abs_le.mpr ⟨by omega, by omega⟩
  have hPa0 := abs_le.mp (abs_mul_le_of_le _ a _ _ hPabs0 ha)
  have hPb0 := abs_le.mp (abs_mul_le_of_le _ b _ _ hPabs0 hb)
  have hXo := tdiv_scaled_bounds (glide_p v conf.coef t * a) v hvI.1 (by omega)
  have hYo := tdiv_scaled_bounds (glide_p v conf.coef t * b) v hvI.1 (by omega)
  -- the 32-bit intermediates of the step
  have hvt : (0 : Int) ≤ (v : Int) * ((t + 1 : Nat) : Int)
      ∧ (v : Int) * ((t + 1 : Nat) : Int) ≤ 46340 * 725 :=
    ⟨by positivity, mul_le_mul hvI.2 ht1 ht1' (by decide)⟩
  have hct : (0 : Int) ≤ (conf.coef : Int) * ((t + 1 : Nat) : Int)
      ∧ (conf.coef : Int) * ((t + 1 : Nat) : Int) ≤ 511 * 725 :=
    ⟨by positivity, mul_le_mul hcI.2 ht1 ht1' (by decide)⟩
  have hctt : (0 : Int) ≤ (conf.coef : Int) * ((t + 1 : Nat) : Int) * ((t + 1 : Nat) : Int)
      ∧ (conf.coef : Int) * ((t + 1 : Nat) : Int) * ((t + 1 : Nat) : Int) ≤ 511 * 725 * 725 :=
    ⟨by positivity, mul_le_mul hct.2 ht1 ht1' (by decide)⟩
  have hfit : glide_step_fits glide (t + 1) := by
    unfold glide_step_fits
    rw [r1, r2, r3, r4]
    change in_int32 _ ∧ in_int32 _ ∧ in_int32 _ ∧ in_int32 (glide_p v conf.coef (t + 1))
      ∧ in_int32 (glide_p v conf.coef (t + 1) * a) ∧ in_int32 (glide_p v conf.coef (t + 1) * b)
      ∧ in_int32 (Int.tdiv (glide_p v conf.coef (t + 1) * a) v)
      ∧ in_int32 (Int.tdiv (glide_p v conf.coef (t + 1) * b) v)
    unfold in_int32
    refine ⟨⟨?_, ?_⟩, ⟨?_, ?_⟩, ⟨?_, ?_⟩, ⟨?_, ?_⟩, ⟨?_, ?_⟩, ⟨?_, ?_⟩, ⟨?_, ?_⟩, ⟨?_, ?_⟩⟩ <;> omega
  have hcnt : to_u16 (glide.status.counter + 1) = t + 1 := by
    rw [r6]
    unfold to_u16
    omega
  have hne : glide.status.v0 ≠ 0 := by rw [r2]; omega
  have hex := cursor_glide_exact cfg now glide (t + 1)
    (Int.tdiv (glide_p v conf.coef (t + 1) * a) v) (Int.tdiv (glide_p v conf.coef (t + 1) * b) v)
    hne hcnt hfit (by rw [r1, r2, r3]) (by rw [r1, r2, r4])
    (by rw [r7]; unfold in_int32; omega) (by rw [r8]; unfold in_int32; omega)
  have hxy : ∀ n : Int, to_mouse_xy cfg n = wrap8 n := by
    intro n
    unfold to_mouse_xy
    rw [h8]
    rfl
  rw [hex, hxy, hxy, r7, r8]
  split
  · left
    rfl
  · rename_i hstop
    right
    -- the step did not stop, so the position advanced by more than 256
    have hadv : 257 ≤ glide_p v conf.coef (t + 1) - glide_p v conf.coef t := by
      by_contra hcon
      apply hstop
      have hd : |glide_p v conf.coef (t + 1) - glide_p v conf.coef t| ≤ 256 :=
        abs_le.mpr ⟨by omega, by omega⟩
      have hv0 : (0 : Int) < v := by omega
      have hxa : |glide_p v conf.coef (t + 1) * a - glide_p v conf.coef t * a| ≤ v := by
        have e : glide_p v conf.coef (t + 1) * a - glide_p v conf.coef t * a
            = (glide_p v conf.coef (t + 1) - glide_p v conf.coef t) * a := by ring
        rw [e, abs_mul]
        exact le_trans (mul_le_mul_of_nonneg_right hd (abs_nonneg a)) hav
      have hxb : |glide_p v conf.coef (t + 1) * b - glide_p v conf.coef t * b| ≤ v := by
        have e : glide_p v conf.coef (t + 1) * b - glide_p v conf.coef t * b
            = (glide_p v conf.coef (t + 1) - glide_p v conf.coef t) * b := by ring
        rw [e, abs_mul]
        exact le_trans (mul_le_mul_of_nonneg_right hd (abs_nonneg b)) hbv
      have hX := abs_le.mp (tdiv_close_abs _ _ v hv0 hxa)
      have hY := abs_le.mp (tdiv_close_abs _ _ v hv0 hxb)
      rw [wrap8_of_range _ (by omega) (by omega), wrap8_of_range _ (by omega) (by omega)]
      omega
    refine ⟨⟨r1, r2, r3, r4, r5, rfl, rfl, rfl⟩, by omega, by omega⟩

theorem cursor_glide_check_of_zero (cfg : Config) (now : Nat) (glide : cursor_glide_context_t)
    (h : glide.status = cursor_glide_status_zero) :
    cursor_glide_check cfg now glide = (invalid_report, glide) := by
  unfold cursor_glide_check
  dsimp only
  rw [h]
  rw [if_pos (Or.inr (Or.inl ⟨rfl, rfl⟩))]

theorem glide_checks_stay_zero (cfg : Config) (nows : Nat → Nat) (glide : cursor_glide_context_t)
    (n : Nat) (h : (glide_checks cfg nows glide n).status = cursor_glide_status_zero) :
    ∀ m, n ≤ m → (glide_checks cfg nows glide m).status = cursor_glide_status_zero := by
  intro m hm
  induction m with
  | zero =>
    have : n = 0 := by omega
    rw [← this]
    exact h
  | succ m ih =>
    by_cases hn : n = m + 1
    · rw [← hn]
      exact h
    · have hz := ih (by omega)
      show (cursor_glide_check cfg (nows m) (glide_checks cfg nows glide m)).2.status = _
      rw [cursor_glide_check_of_zero cfg (nows m) _ hz]
      exact hz

theorem cursor_glide_check_running (cfg : Config) (now : Nat) (conf : cursor_glide_config_t)
    (v : Nat) (a b : Int) (t : Nat) (glide : cursor_glide_context_t)
    (hvec : ¬ (a = 0 ∧ b = 0))
    (hrun : glide_running conf v a b t glide)
    (hgate : ¬ (timer_elapsed now glide.status.timer < conf.interval)) :
    cursor_glide_check cfg now glide = cursor_glide cfg now glide := by
  obtain ⟨r1, r2, r3, r4, r5, r6, r7, r8⟩ := hrun
  unfold cursor_glide_check
  dsimp only
  rw [if_neg]
  rw [r1, r3, r4, r5]
  rintro (h | h | h)
  · exact h rfl
  · exact hvec h
  · exact hgate h

theorem glide_checks_reach_zero (cfg : Config) (h8 : cfg.MOUSE_EXTENDED_REPORT = false)
    (nows : Nat → Nat) (conf : cursor_glide_config_t) (v : Nat) (a b : Int)
    (glide : cursor_glide_context_t)
    (hc : 64 ≤ conf.coef ∧ conf.coef ≤ 511) (hv : 256 ≤ v ∧ v ≤ 46340)
    (ha : |a| ≤ 128) (hb : |b| ≤ 128) (hav : 256 * |a| ≤ v) (hbv : 256 * |b| ≤ v)
    (hvec : ¬ (a = 0 ∧ b = 0))
    (hgate : ∀ k, ¬ (timer_elapsed (nows k) (glide_checks cfg nows glide k).status.timer
      < conf.interval)) :
    ∀ (k j t : Nat) (u : Int), u = (conf.coef : Int) * t →
      glide_running conf v a b t (glide_checks cfg nows glide j) →
      2 * u + 513 ≤ 2 * (v : Int) + conf.coef →
      0 ≤ glide_p v conf.coef t →
      2 * (v : Int) + conf.coef + 1 ≤ 2 * u + 513 + 128 * k →
      ∃ n, n ≤ j + k ∧ (glide_checks cfg nows glide n).status = cursor_glide_status_zero := by
  intro k
  induction k with
  | zero =>
    intro j t u hu hrun hJ hP hm
    exfalso
    simp only [Nat.cast_zero, mul_zero, add_zero] at hm
    omega
  | succ k ih =>
    intro j t u hu hrun hJ hP hm
    have hstep : glide_checks cfg nows glide (j + 1)
        = (cursor_glide cfg (nows j) (glide_checks cfg nows glide j)).2 := by
      show (cursor_glide_check cfg (nows j) (glide_checks cfg nows glide j)).2 = _
      rw [cursor_glide_check_running cfg (nows j) conf v a b t _ hvec hrun (hgate j)]
    rcases glide_tick cfg h8 (nows j) conf v a b t _ u hu hc hv ha hb hav hbv hrun hJ hP
      with hz | ⟨hrun', hJ', hP'⟩
    · exact ⟨j + 1, by omega, by rw [hstep]; exact hz⟩
    · rw [← hstep] at hrun'
      have hu' : u + conf.coef = (conf.coef : Int) * ((t + 1 : Nat) : Int) := by
        rw [hu]; push_cast; ring
      obtain ⟨n, hn, hzero⟩ := ih (j + 1) (t + 1) (u + conf.coef) hu' hrun' hJ' hP' (by
        push_cast at hm
        omega)
      exact ⟨n, by omega, hzero⟩

theorem initial_velocity_bounds (a b : Int) (v : Nat)
    (ha : -128 ≤ a ∧ a ≤ 127) (hb : -128 ≤ b ∧ b ≤ 127) (hvec : ¬ (a = 0 ∧ b = 0))
    (h1 : (v : Int) * v ≤ 65536 * (a * a + b * b))
    (h2 : 65536 * (a * a + b * b) < ((v : Int) + 1) * (v + 1)) :
    256 ≤ v ∧ v ≤ 46340 ∧ 256 * |a| ≤ v ∧ 256 * |b| ≤ v := by
  have hsa := int8_square_bounds a ha
  have hsb := int8_square_bounds b hb
  have hv0 : (0 : Int) ≤ v := by positivity
  have hpos : 1 ≤ a * a + b * b := by
    by_contra hc
    have e1 : a * a = 0 := by omega
    have e2 : b * b = 0 := by omega
    exact hvec ⟨mul_self_eq_zero.mp e1, mul_self_eq_zero.mp e2⟩
  have key : ∀ w : Int, 0 ≤ w → w * w ≤ 65536 * (a * a + b * b) → w ≤ v := by
    intro w hw hww
    by_contra hc
    have hle : (v : Int) + 1 ≤ w := by omega
    have := mul_le_mul hle hle (by omega) hw
    omega
  have hlo : (256 : Int) ≤ v := key 256 (by decide) (by omega)
  have hhi : (v : Int) ≤ 46340 := by
    by_contra hc
    have hle : (46341 : Int) ≤ v := by omega
    have := mul_le_mul hle hle (by decide) hv0
    omega
  have habs : ∀ d : Int, d * d ≤ a * a + b * b → 256 * |d| ≤ v := by
    intro d hd
    apply key _ (by positivity)
    have e : 256 * |d| * (256 * |d|) = 65536 * (d * d) := by
      rw [← abs_mul_abs_self d]; ring
    rw [e]
    omega
  exact ⟨by omega, by omega, habs a (by omega), habs b (by omega)⟩

theorem cursor_glide_start_eq (cfg : Config) (now : Nat) (glide : cursor_glide_context_t)
    (v : Nat) (hv : glide_initial_velocity glide.status.dx0 glide.status.dy0 = some v)
    (hv32 : wrap32 (v : Int) = v) :
    cursor_glide_start cfg now glide
      = some (if int_to_u32 (v : Int) < to_u32 (glide.config.trigger_px * 256) then
          (invalid_report, { config := glide.config, status := cursor_glide_status_zero })
        else
          cursor_glide cfg now
            { config := glide.config,
              status := { v0 := (v : Int), x := 0, y := 0, z := 0, timer := to_u16 now,
                          counter := 0, dx0 := glide.status.dx0, dy0 := glide.status.dy0 } }) := by
  unfold cursor_glide_start
  dsimp only
  rw [hv]
  simp only [Option.map_some']
  rw [hv32]
  rfl

theorem cursor_glide_start_running (cfg : Config) (h8 : cfg.MOUSE_EXTENDED_REPORT = false)
    (now : Nat) (glide : cursor_glide_context_t)
    (hc : 64 ≤ glide.config.coef ∧ glide.config.coef ≤ 511)
    (hx : -128 ≤ glide.status.dx0 ∧ glide.status.dx0 ≤ 127)
    (hy : -128 ≤ glide.status.dy0 ∧ glide.status.dy0 ≤ 127)
    (hvec : ¬ (glide.status.dx0 = 0 ∧ glide.status.dy0 = 0)) :
    ∃ (v : Nat) (r0 : cursor_glide_t) (g0 : cursor_glide_context_t),
      cursor_glide_start cfg now glide = some (r0, g0)
      ∧ 256 ≤ v ∧ v ≤ 46340 ∧ 256 * |glide.status.dx0| ≤ v ∧ 256 * |glide.status.dy0| ≤ v
      ∧ (g0.status = cursor_glide_status_zero
        ∨ (glide_running glide.config v glide.status.dx0 glide.status.dy0 1 g0
            ∧ 2 * ((glide.config.coef : Int) * (1 : Nat)) + 513 ≤ 2 * (v : Int) + glide.config.coef
            ∧ 0 ≤ glide_p v glide.config.coef 1)) := by
  obtain ⟨v, hv, h1, h2, h3⟩ := glide_initial_velocity_spec _ _ hx hy
  obtain ⟨b1, b2, b3, b4⟩ := initial_velocity_bounds _ _ v hx hy hvec h1 h2
  clear h1 h2
  have hw : wrap32 (v : Int) = v := wrap32_of_range _ (by omega) (by omega)
  have hax : |glide.status.dx0| ≤ 128 := abs_le.mpr ⟨by omega, by omega⟩
  have hay : |glide.status.dy0| ≤ 128 := abs_le.mpr ⟨by omega, by omega⟩
  have hstart := cursor_glide_start_eq cfg now glide v hv hw
  by_cases hab : int_to_u32 (v : Int) < to_u32 (glide.config.trigger_px * 256)
  · rw [if_pos hab] at hstart
    exact ⟨v, _, _, hstart, b1, b2, b3, b4, Or.inl rfl⟩
  · rw [if_neg hab] at hstart
    have hrun : glide_running glide.config v glide.status.dx0 glide.status.dy0 0
        { config := glide.config,
          status := { v0 := (v : Int), x := 0, y := 0, z := 0, timer := to_u16 now, counter := 0,
                      dx0 := glide.status.dx0, dy0 := glide.status.dy0 } } := by
      refine ⟨rfl, rfl, rfl, rfl, rfl, rfl, ?_, ?_⟩
      · show (0 : Int) = _
        rw [glide_p_zero, zero_mul, Int.zero_tdiv]
      · show (0 : Int) = _
        rw [glide_p_zero, zero_mul, Int.zero_tdiv]
    have hJ0 : 2 * (0 : Int) + 513 ≤ 2 * (v : Int) + glide.config.coef := by omega
    have htick := glide_tick cfg h8 now glide.config v glide.status.dx0 glide.status.dy0 0 _ 0
      (by simp) hc ⟨b1, b2⟩ hax hay b3 b4 hrun hJ0 (by rw [glide_p_zero])
    generalize cursor_glide cfg now
        { config := glide.config,
          status := { v0 := (v : Int), x := 0, y := 0, z := 0, timer := to_u16 now, counter := 0,
                      dx0 := glide.status.dx0, dy0 := glide.status.dy0 } } = res at hstart htick
    obtain ⟨r0, g0⟩ := res
    refine ⟨v, r0, g0, hstart, b1, b2, b3, b4, ?_⟩
    rcases htick with hz | ⟨hr, hJ, hP⟩
    · exact Or.inl hz
    · refine Or.inr ⟨hr, ?_, hP⟩
      have e : (glide.config.coef : Int) * ((1 : Nat) : Int) = glide.config.coef := by
        push_cast; ring
      rw [e]
      omega

/-- C9 (amended): for any configuration with `coef` in 64..511 (any interval and
trigger), 8-bit reports and any nonzero recorded vector in the 8-bit range,
`cursor_glide_start` returns, and repeated `cursor_glide_check` calls with the interval
gate open (and no new input, so `z = 0`) reach within at most 724 calls a state from which
on every field of the glide status is zero and every call returns the invalid report. -/
theorem glide_terminates (cfg : Config) (h8 : cfg.MOUSE_EXTENDED_REPORT = false) (now : Nat)
    (glide : cursor_glide_context_t)
    (hc : 64 ≤ glide.config.coef ∧ glide.config.coef ≤ 511)
    (hx : -128 ≤ glide.status.dx0 ∧ glide.status.dx0 ≤ 127)
    (hy : -128 ≤ glide.status.dy0 ∧ glide.status.dy0 ≤ 127)
    (hvec : ¬ (glide.status.dx0 = 0 ∧ glide.status.dy0 = 0)) :
    ∃ (r0 : cursor_glide_t) (g0 : cursor_glide_context_t),
      cursor_glide_start cfg now glide = some (r0, g0)
      ∧ ∀ nows : Nat → Nat,
          (∀ k, ¬ (timer_elapsed (nows k) (glide_checks cfg nows g0 k).status.timer
            < glide.config.interval)) →
          ∃ n, n ≤ 724 ∧ ∀ m, n ≤ m →
            (glide_checks cfg nows g0 m).status = cursor_glide_status_zero
            ∧ (cursor_glide_check cfg (nows m) (glide_checks cfg nows g0 m)).1
                = invalid_report := by
  obtain ⟨v, r0, g0, hstart, b1, b2, b3, b4, hcases⟩ :=
    cursor_glide_start_running cfg h8 now glide hc hx hy hvec
  refine ⟨r0, g0, hstart, ?_⟩
  intro nows hgate
  have hax : |glide.status.dx0| ≤ 128 := abs_le.mpr ⟨by omega, by omega⟩
  have hay : |glide.status.dy0| ≤ 128 := abs_le.mpr ⟨by omega, by omega⟩
  have hreach : ∃ n, n ≤ 724
      ∧ (glide_checks cfg nows g0 n).status = cursor_glide_status_zero := by
    rcases hcases with hz | ⟨hr, hJ, hP⟩
    · exact ⟨0, by omega, hz⟩
    · obtain ⟨n, hn, hzero⟩ := glide_checks_reach_zero cfg h8 nows glide.config v
        glide.status.dx0 glide.status.dy0 g0 hc ⟨b1, b2⟩ hax hay b3 b4 hvec hgate
        724 0 1 _ rfl hr hJ hP (by push_cast; omega)
      exact ⟨n, by omega, hzero⟩
  obtain ⟨n, hn, hzero⟩ := hreach
  refine ⟨n, hn, fun m hm => ?_⟩
  have hz := glide_checks_stay_zero cfg nows g0 n hzero m hm
  exact ⟨hz, by rw [cursor_glide_check_of_zero cfg (nows m) _ hz]⟩

/-- Witness of C9 (amended): `coef = 102`, vector `(3, 4)`, every check made with the
interval gate open (`interval = 0`). -/
theorem glide_terminates_witness :
    ∃ (r0 : cursor_glide_t) (g0 : cursor_glide_context_t),
      cursor_glide_start default_config 0 damped_glide = some (r0, g0)
      ∧ ∃ n, n ≤ 724 ∧ ∀ m, n ≤ m →
          (glide_checks default_config (fun _ => 0) g0 m).status = cursor_glide_status_zero
          ∧ (cursor_glide_check default_config 0
              (glide_checks default_config (fun _ => 0) g0 m)).1 = invalid_report := by
  obtain ⟨r0, g0, hs, h⟩ := glide_terminates default_config rfl 0 damped_glide
    (by decide) (by decide) (by decide) (by decide)
  exact ⟨r0, g0, hs, h (fun _ => 0) (fun _ => Nat.not_lt_zero _)⟩

/-! ## Theorems: virtual-key classifier -/

theorem c_abs_of_range (n : Int) (hlo : -2147483647 ≤ n) (hhi : n ≤ 2147483647) :
    c_abs n = |n| := by
  unfold c_abs
  split
  · rw [abs_of_neg ‹_›]
    exact wrap32_of_range _ (by omega) (by omega)
  · rw [abs_of_nonneg (by omega)]
    exact wrap32_of_range _ (by omega) (by omega)

theorem abs_int8_bounds (d : Int) (hd : -128 ≤ d ∧ d ≤ 127) : 0 ≤ |d| ∧ |d| ≤ 128 :=
  ⟨abs_nonneg d, abs_le.mpr ⟨by omega, by omega⟩⟩

theorem virtkey_ratio_of_int8 (x y : Int) (hx : -128 ≤ x ∧ x ≤ 127) (hy : -128 ≤ y ∧ y ≤ 127)
    (hy0 : y ≠ 0) :
    wrap16 (Int.tdiv (c_abs (wrap32 (wrap16 x * 64))) (c_abs y)) = Int.tdiv (|x| * 64) |y|
    ∧ 0 ≤ Int.tdiv (|x| * 64) |y| ∧ Int.tdiv (|x| * 64) |y| ≤ 8192 := by
  have hax := abs_int8_bounds x hx
  have hay := abs_int8_bounds y hy
  have hay1 : 1 ≤ |y| := Int.one_le_abs hy0
  rw [wrap16_of_range x (by omega) (by omega), wrap32_of_range _ (by omega) (by omega),
    c_abs_of_range _ (by omega) (by omega), c_abs_of_range _ (by omega) (by omega)]
  have e : |x * 64| = |x| * 64 := by rw [abs_mul]; rfl
  rw [e]
  obtain ⟨n, hn⟩ : ∃ n : Nat, (n : Int) = |y| := ⟨|y|.toNat, Int.toNat_of_nonneg hay.1⟩
  rw [← hn] at hay1 ⊢
  have hb := tdiv_bounds (|x| * 64) n (by omega) 0 8192 (le_refl _) (by decide) (by omega)
  exact ⟨wrap16_of_range _ (by omega) (by omega), hb.1, hb.2⟩

theorem pd_derive_of_int8 (cfg : Config) (adjust : report_mouse_t → report_mouse_t)
    (abs_report : report_mouse_t)
    (hx : -128 ≤ (adjust abs_report).x ∧ (adjust abs_report).x ≤ 127)
    (hy : -128 ≤ (adjust abs_report).y ∧ (adjust abs_report).y ≤ 127) :
    pd_derive_virtual_key_state cfg adjust abs_report
      = classify_vector cfg.POINTING_VIRTKEY_DEADZONE (adjust abs_report).x
          (adjust abs_report).y := by
  unfold pd_derive_virtual_key_state classify_vector
  dsimp only
  generalize (adjust abs_report).x = x at hx ⊢
  generalize (adjust abs_report).y = y at hy ⊢
  have hsx := int8_square_bounds x hx
  have hsy := int8_square_bounds y hy
  rw [wrap8_of_range x hx.1 hx.2, wrap8_of_range y hy.1 hy.2,
    wrap32_of_range (x * x) (by omega) (by omega), wrap32_of_range (y * y) (by omega) (by omega),
    wrap32_of_range _ (by omega) (by omega)]
  by_cases hy0 : y = 0
  · subst hy0
    simp
  · rw [(virtkey_ratio_of_int8 x y hx hy hy0).1]

theorem classify_vector_ne_undefined (dz : Nat) (x y : Int) (hout : ¬ (x * x + y * y < (dz : Int)))
    (hnz : ¬ (x = 0 ∧ y = 0)) : classify_vector dz x y ≠ PD_VIRTKEY_UNDEFINED := by
  unfold classify_vector
  rw [if_neg hout]
  clear hout
  split_ifs <;> first | decide | omega

/-- C13 (as stated, refuted): with `POINTING_VIRTKEY_DEADZONE` configured to 0 the vector
`(0, 0)` lies outside the dead zone (`0 < 0` is false) and is still classified
`PD_VIRTKEY_UNDEFINED`. -/
theorem virtkey_dead_zone_counterexample :
    pd_derive_virtual_key_state { default_config with POINTING_VIRTKEY_DEADZONE := 0 } id
        (motion 0 0) = PD_VIRTKEY_UNDEFINED
    ∧ ¬ ((motion 0 0).x * (motion 0 0).x + (motion 0 0).y * (motion 0 0).y
        < (({ default_config with POINTING_VIRTKEY_DEADZONE := 0 } : Config).POINTING_VIRTKEY_DEADZONE
            : Int)) := by
  decide

/-- C13 (amended): for every adjusted vector `(x, y)` in the signed 8-bit range,
`pd_derive_virtual_key_state` returns `PD_VIRTKEY_UNDEFINED` if and only if
`x*x + y*y < POINTING_VIRTKEY_DEADZONE` or `(x, y) = (0, 0)`; every vector other than
`(0, 0)` outside the dead zone gets a code other than `PD_VIRTKEY_UNDEFINED`. -/
theorem virtkey_dead_zone (cfg : Config) (adjust : report_mouse_t → report_mouse_t)
    (abs_report : report_mouse_t)
    (hx : -128 ≤ (adjust abs_report).x ∧ (adjust abs_report).x ≤ 127)
    (hy : -128 ≤ (adjust abs_report).y ∧ (adjust abs_report).y ≤ 127) :
    (pd_derive_virtual_key_state cfg adjust abs_report = PD_VIRTKEY_UNDEFINED
      ↔ ((adjust abs_report).x * (adjust abs_report).x
            + (adjust abs_report).y * (adjust abs_report).y
          < (cfg.POINTING_VIRTKEY_DEADZONE : Int)
        ∨ ((adjust abs_report).x = 0 ∧ (adjust abs_report).y = 0)))
    ∧ (¬ ((adjust abs_report).x * (adjust abs_report).x
            + (adjust abs_report).y * (adjust abs_report).y
          < (cfg.POINTING_VIRTKEY_DEADZONE : Int)) →
        ¬ ((adjust abs_report).x = 0 ∧ (adjust abs_report).y = 0) →
        pd_derive_virtual_key_state cfg adjust abs_report ≠ PD_VIRTKEY_UNDEFINED) := by
  rw [pd_derive_of_int8 cfg adjust abs_report hx hy]
  generalize (adjust abs_report).x = x
  generalize (adjust abs_report).y = y
  refine ⟨⟨?_, ?_⟩, fun hout hnz => classify_vector_ne_undefined _ x y hout hnz⟩
  · intro h
    by_contra hnot
    exact classify_vector_ne_undefined _ x y (fun hdz => hnot (Or.inl hdz))
      (fun hz => hnot (Or.inr hz)) h
  · rintro (h | ⟨rfl, rfl⟩)
    · unfold classify_vector
      rw [if_pos h]
    · unfold classify_vector
      split_ifs <;> first | rfl | omega

/-- Witness of C13 (amended): with the default dead zone 16 the vector `(5, 3)` (squared
length 34) gets a code other than `PD_VIRTKEY_UNDEFINED`. -/
theorem virtkey_dead_zone_witness :
    pd_derive_virtual_key_state default_config id (motion 5 3) ≠ PD_VIRTKEY_UNDEFINED :=
  (virtkey_dead_zone default_config id (motion 5 3) (by decide) (by decide)).2
    (by decide) (by decide)

/-- C14 (as stated, refuted): with 16-bit reports the adjusted vector `(300, 200)` lies
outside the dead zone, has `r = (300 * 64) / 200 = 96` (the middle band) and `x > 0`,
`y > 0`, yet the result is `UP | RIGHT`, not `DOWN | RIGHT`: the code cuts the components
to `int8_t` (44 and -56) before classifying. -/
theorem virtkey_octant_bands_counterexample :
    extended_config.MOUSE_EXTENDED_REPORT = true
    ∧ ¬ ((motion 300 200).x * (motion 300 200).x + (motion 300 200).y * (motion 300 200).y
        < (extended_config.POINTING_VIRTKEY_DEADZONE : Int))
    ∧ Int.tdiv (|(motion 300 200).x| * 64) |(motion 300 200).y| = 96
    ∧ wrap8 (motion 300 200).x = 44
    ∧ wrap8 (motion 300 200).y = -56
    ∧ pd_derive_virtual_key_state extended_config id (motion 300 200)
        = PD_VIRTKEY_UP ||| PD_VIRTKEY_RIGHT
    ∧ PD_VIRTKEY_UP ||| PD_VIRTKEY_RIGHT ≠ PD_VIRTKEY_DOWN ||| PD_VIRTKEY_RIGHT := by
  decide

/-- C14 (amended): for every vector with both components in the signed 8-bit range,
outside the dead zone, with `x != 0` and `y != 0`, and with `r = (|x|*64) / |y|`:
`r < 27` gives the pure vertical code, `27 <= r < 154`
the OR of the vertical bit for the sign of `y` and the horizontal bit for the sign of `x`,
`r >= 154` the pure horizontal code; the result never holds both `UP` and `DOWN` nor both
`LEFT` and `RIGHT`. -/
theorem virtkey_octant_bands (cfg : Config) (adjust : report_mouse_t → report_mouse_t)
    (abs_report : report_mouse_t)
    (hx : -128 ≤ (adjust abs_report).x ∧ (adjust abs_report).x ≤ 127)
    (hy : -128 ≤ (adjust abs_report).y ∧ (adjust abs_report).y ≤ 127)
    (hout : ¬ ((adjust abs_report).x * (adjust abs_report).x
          + (adjust abs_report).y * (adjust abs_report).y
        < (cfg.POINTING_VIRTKEY_DEADZONE : Int)))
    (hx0 : (adjust abs_report).x ≠ 0) (hy0 : (adjust abs_report).y ≠ 0) :
    (Int.tdiv (|(adjust abs_report).x| * 64) |(adjust abs_report).y| < 27 →
        pd_derive_virtual_key_state cfg adjust abs_report
          = if (adjust abs_report).y > 0 then PD_VIRTKEY_DOWN else PD_VIRTKEY_UP)
    ∧ (27 ≤ Int.tdiv (|(adjust abs_report).x| * 64) |(adjust abs_report).y|
        ∧ Int.tdiv (|(adjust abs_report).x| * 64) |(adjust abs_report).y| < 154 →
        pd_derive_virtual_key_state cfg adjust abs_report
          = (if (adjust abs_report).y > 0 then PD_VIRTKEY_DOWN else PD_VIRTKEY_UP)
            ||| (if (adjust abs_report).x > 0 then PD_VIRTKEY_RIGHT else PD_VIRTKEY_LEFT))
    ∧ (154 ≤ Int.tdiv (|(adjust abs_report).x| * 64) |(adjust abs_report).y| →
        pd_derive_virtual_key_state cfg adjust abs_report
          = if (adjust abs_report).x > 0 then PD_VIRTKEY_RIGHT else PD_VIRTKEY_LEFT)
    ∧ ¬ (pd_derive_virtual_key_state cfg adjust abs_report &&& PD_VIRTKEY_UP ≠ 0
        ∧ pd_derive_virtual_key_state cfg adjust abs_report &&& PD_VIRTKEY_DOWN ≠ 0)
    ∧ ¬ (pd_derive_virtual_key_state cfg adjust abs_report &&& PD_VIRTKEY_LEFT ≠ 0
        ∧ pd_derive_virtual_key_state cfg adjust abs_report &&& PD_VIRTKEY_RIGHT ≠ 0) := by
  rw [pd_derive_of_int8 cfg adjust abs_report hx hy]
  generalize (adjust abs_report).x = x at hout hx0 ⊢
  generalize (adjust abs_report).y = y at hout hy0 ⊢
  unfold classify_vector
  rw [if_neg hout, if_neg hx0, if_neg hy0]
  clear hout
  generalize Int.tdiv (|x| * 64) |y| = r
  refine ⟨?_, ?_, ?_, ?_, ?_⟩
  · intro h
    rw [if_pos h]
  · rintro ⟨h1, h2⟩
    rw [if_neg (by omega), if_pos h2]
    split_ifs <;> first | rfl | omega
  · intro h
    rw [if_neg (by omega), if_neg (by omega)]
  · split_ifs <;> decide
  · split_ifs <;> decide

/-- Witness of C14 (amended): the vector `(7, 7)` (ratio 64, band B) with the default dead
zone. -/
theorem virtkey_octant_bands_witness :
    pd_derive_virtual_key_state default_config id (motion 7 7)
      = PD_VIRTKEY_DOWN ||| PD_VIRTKEY_RIGHT :=
  (virtkey_octant_bands default_config id (motion 7 7) (by decide) (by decide) (by decide)
    (by decide) (by decide)).2.1 (by decide)

theorem opposite_code_values :
    opposite_code PD_VIRTKEY_UNDEFINED = PD_VIRTKEY_UNDEFINED
    ∧ opposite_code PD_VIRTKEY_UP = PD_VIRTKEY_DOWN
    ∧ opposite_code PD_VIRTKEY_DOWN = PD_VIRTKEY_UP
    ∧ opposite_code PD_VIRTKEY_LEFT = PD_VIRTKEY_RIGHT
    ∧ opposite_code PD_VIRTKEY_RIGHT = PD_VIRTKEY_LEFT
    ∧ opposite_code (PD_VIRTKEY_DOWN ||| PD_VIRTKEY_RIGHT) = PD_VIRTKEY_UP ||| PD_VIRTKEY_LEFT
    ∧ opposite_code (PD_VIRTKEY_DOWN ||| PD_VIRTKEY_LEFT) = PD_VIRTKEY_UP ||| PD_VIRTKEY_RIGHT
    ∧ opposite_code (PD_VIRTKEY_UP ||| PD_VIRTKEY_LEFT) = PD_VIRTKEY_DOWN ||| PD_VIRTKEY_RIGHT
    ∧ opposite_code (PD_VIRTKEY_UP ||| PD_VIRTKEY_RIGHT) = PD_VIRTKEY_DOWN ||| PD_VIRTKEY_LEFT := by
  decide

theorem sign_cases (x : Int) :
    ((x < 0) = True ∧ (x = 0) = False ∧ (0 < x) = False)
    ∨ ((x < 0) = False ∧ (x = 0) = True ∧ (0 < x) = False)
    ∨ ((x < 0) = False ∧ (x = 0) = False ∧ (0 < x) = True) := by
  rcases lt_trichotomy x 0 with h | h | h
  · exact Or.inl ⟨eq_true h, eq_false (by omega), eq_false (by omega)⟩
  · exact Or.inr (Or.inl ⟨eq_false (by omega), eq_true h, eq_false (by omega)⟩)
  · exact Or.inr (Or.inr ⟨eq_false (by omega), eq_false (by omega), eq_true h⟩)

theorem classify_vector_neg (dz : Nat) (x y : Int) :
    classify_vector dz (-x) (-y) = opposite_code (classify_vector dz x y) := by
  obtain ⟨e0, e1, e2, e3, e4, e5, e6, e7, e8⟩ := opposite_code_values
  unfold classify_vector
  rw [neg_mul_neg, neg_mul_neg, abs_neg, abs_neg]
  generalize Int.tdiv (|x| * 64) |y| = r
  generalize x * x + y * y = q
  by_cases hq : q < (dz : Int)
  · rw [if_pos hq, if_pos hq, e0]
  · rw [if_neg hq, if_neg hq]
    clear hq
    simp only [neg_eq_zero, Left.neg_pos_iff, Left.neg_neg_iff, gt_iff_lt]
    rcases sign_cases x with ⟨a1, a2, a3⟩ | ⟨a1, a2, a3⟩ | ⟨a1, a2, a3⟩ <;>
      rcases sign_cases y with ⟨b1, b2, b3⟩ | ⟨b1, b2, b3⟩ | ⟨b1, b2, b3⟩ <;>
      simp only [a1, a2, a3, b1, b2, b3, if_true, if_false, and_true, and_false, true_and,
        false_and, and_self] <;>
      first
        | exact e0.symm | exact e1.symm | exact e2.symm | exact e3.symm | exact e4.symm
        | (by_cases h1 : r < 27
           · simp only [h1, if_true, e1, e2]
           · by_cases h2 : r < 154
             · simp only [h1, h2, if_true, if_false, e5, e6, e7, e8]
             · simp only [h1, h2, if_false, e3, e4])

/-- C15: for every vector `(x, y)` with components in -127..127 outside the dead zone,
`pd_derive_virtual_key_state` of the negated vector is the opposite code: the same
bitmask with `UP` and `DOWN` exchanged and `LEFT` and `RIGHT` exchanged. -/
theorem virtkey_point_symmetry (cfg : Config) (adjust : report_mouse_t → report_mouse_t)
    (abs_report negated : report_mouse_t)
    (hx : -127 ≤ (adjust abs_report).x ∧ (adjust abs_report).x ≤ 127)
    (hy : -127 ≤ (adjust abs_report).y ∧ (adjust abs_report).y ≤ 127)
    (hnx : (adjust negated).x = -(adjust abs_report).x)
    (hny : (adjust negated).y = -(adjust abs_report).y)
    (_hout : ¬ ((adjust abs_report).x * (adjust abs_report).x
          + (adjust abs_report).y * (adjust abs_report).y
        < (cfg.POINTING_VIRTKEY_DEADZONE : Int))) :
    pd_derive_virtual_key_state cfg adjust negated
      = opposite_code (pd_derive_virtual_key_state cfg adjust abs_report) := by
  rw [pd_derive_of_int8 cfg adjust abs_report ⟨by omega, hx.2⟩ ⟨by omega, hy.2⟩,
    pd_derive_of_int8 cfg adjust negated (by rw [hnx]; omega) (by rw [hny]; omega), hnx, hny]
  exact classify_vector_neg _ _ _

/-- Witness of C15: the vectors `(3, -9)` and `(-3, 9)` with the default dead zone. -/
theorem virtkey_point_symmetry_witness :
    pd_derive_virtual_key_state default_config id (motion (-3) 9)
      = opposite_code (pd_derive_virtual_key_state default_config id (motion 3 (-9))) :=
  virtkey_point_symmetry default_config id (motion 3 (-9)) (motion (-3) 9) (by decide)
    (by decide) (by decide) (by decide) (by decide)

/-- C16 (as stated, refuted): with 16-bit reports the adjusted vector `(256, 0)` lies
outside the dead zone and has `x > 0`, yet the result is `UNDEFINED`, not `RIGHT`; and
`(0, 128)` has `y > 0`, yet the result is `UP`, not `DOWN`: the code cuts the components
to `int8_t` (to 0 and to -128) before classifying. -/
theorem virtkey_axis_aligned_counterexample :
    extended_config.MOUSE_EXTENDED_REPORT = true
    ∧ ¬ ((motion 256 0).x * (motion 256 0).x + (motion 256 0).y * (motion 256 0).y
        < (extended_config.POINTING_VIRTKEY_DEADZONE : Int))
    ∧ wrap8 (motion 256 0).x = 0
    ∧ pd_derive_virtual_key_state extended_config id (motion 256 0) = PD_VIRTKEY_UNDEFINED
    ∧ PD_VIRTKEY_UNDEFINED ≠ PD_VIRTKEY_RIGHT
    ∧ ¬ ((motion 0 128).x * (motion 0 128).x + (motion 0 128).y * (motion 0 128).y
        < (extended_config.POINTING_VIRTKEY_DEADZONE : Int))
    ∧ wrap8 (motion 0 128).y = -128
    ∧ pd_derive_virtual_key_state extended_config id (motion 0 128) = PD_VIRTKEY_UP
    ∧ PD_VIRTKEY_UP ≠ PD_VIRTKEY_DOWN := by
  decide

/-- C16 (amended): for every vector with both components in the signed 8-bit range,
outside the dead zone, with exactly one zero component, the result is the cardinal code
of the sign of the other component, positive `y` being down: `(x>0, 0)` gives `RIGHT`,
`(x<0, 0)` `LEFT`, `(0, y>0)` `DOWN`, `(0, y<0)` `UP`. -/
theorem virtkey_axis_aligned (cfg : Config) (adjust : report_mouse_t → report_mouse_t)
    (abs_report : report_mouse_t)
    (hx : -128 ≤ (adjust abs_report).x ∧ (adjust abs_report).x ≤ 127)
    (hy : -128 ≤ (adjust abs_report).y ∧ (adjust abs_report).y ≤ 127)
    (hout : ¬ ((adjust abs_report).x * (adjust abs_report).x
          + (adjust abs_report).y * (adjust abs_report).y
        < (cfg.POINTING_VIRTKEY_DEADZONE : Int))) :
    ((adjust abs_report).x > 0 ∧ (adjust abs_report).y = 0 →
        pd_derive_virtual_key_state cfg adjust abs_report = PD_VIRTKEY_RIGHT)
    ∧ ((adjust abs_report).x < 0 ∧ (adjust abs_report).y = 0 →
        pd_derive_virtual_key_state cfg adjust abs_report = PD_VIRTKEY_LEFT)
    ∧ ((adjust abs_report).x = 0 ∧ (adjust abs_report).y > 0 →
        pd_derive_virtual_key_state cfg adjust abs_report = PD_VIRTKEY_DOWN)
    ∧ ((adjust abs_report).x = 0 ∧ (adjust abs_report).y < 0 →
        pd_derive_virtual_key_state cfg adjust abs_report = PD_VIRTKEY_UP) := by
  rw [pd_derive_of_int8 cfg adjust abs_report hx hy]
  generalize (adjust abs_report).x = x at hout ⊢
  generalize (adjust abs_report).y = y at hout ⊢
  unfold classify_vector
  rw [if_neg hout]
  clear hout
  refine ⟨?_, ?_, ?_, ?_⟩
  · rintro ⟨h1, h2⟩
    rw [if_neg (by omega), if_pos h2, if_pos h1]
  · rintro ⟨h1, h2⟩
    rw [if_neg (by omega), if_pos h2, if_neg (by omega), if_pos h1]
  · rintro ⟨h1, h2⟩
    rw [if_pos h1, if_pos h2]
  · rintro ⟨h1, h2⟩
    rw [if_pos h1, if_neg (by omega), if_pos h2]

/-- Witness of C16 (amended): `(5,0)`, `(0,5)`, `(-5,0)`, `(0,-5)` map to `RIGHT`, `DOWN`, `LEFT`,
`UP` under the default dead zone. -/
theorem virtkey_axis_aligned_witness :
    pd_derive_virtual_key_state default_config id (motion 5 0) = PD_VIRTKEY_RIGHT
    ∧ pd_derive_virtual_key_state default_config id (motion 0 5) = PD_VIRTKEY_DOWN
    ∧ pd_derive_virtual_key_state default_config id (motion (-5) 0) = PD_VIRTKEY_LEFT
    ∧ pd_derive_virtual_key_state default_config id (motion 0 (-5)) = PD_VIRTKEY_UP :=
  ⟨(virtkey_axis_aligned default_config id (motion 5 0) (by decide) (by decide)
      (by decide)).1 (by decide),
    (virtkey_axis_aligned default_config id (motion 0 5) (by decide) (by decide)
      (by decide)).2.2.1 (by decide),
    (virtkey_axis_aligned default_config id (motion (-5) 0) (by decide) (by decide)
      (by decide)).2.1 (by decide),
    (virtkey_axis_aligned default_config id (motion 0 (-5)) (by decide) (by decide)
      (by decide)).2.2.2 (by decide)⟩

/-! ## Theorems: divisor precedence, scaling and post-processing order -/

theorem pointing_mode_divisor_handed_spec (cfg : Config) (hk : Hooks) (s : ModeState)
    (mouse_report : report_mouse_t) :
    get_pointing_mode_divisor cfg hk s mouse_report
      = divisor_postprocess cfg hk (pointing_mode_divisor_handed cfg hk s mouse_report).2
          (pointing_mode_divisor_handed cfg hk s mouse_report).1 := by
  unfold get_pointing_mode_divisor pointing_mode_divisor_handed
  dsimp only
  split_ifs <;> rfl

theorem get_pointing_mode_direction_lt (mouse_report : report_mouse_t) :
    get_pointing_mode_direction mouse_report < 4 := by
  unfold get_pointing_mode_direction
  split_ifs <;> decide

/-- C17: `get_pointing_mode_divisor` returns `divisor_postprocess` of the handed value,
which is the user-level override (as `uint8_t`) if that is nonzero; otherwise the
keyboard-level override if that is nonzero; otherwise the built-in value of the active
mode: PRECISION, DRAG, HISTORY their configured divisor, CARET the vertical divisor for the
directions DOWN and UP and the horizontal one for LEFT and RIGHT, VOLUME (a mode of the
builds with `EXTRAKEY_ENABLE`) its configured divisor. -/
theorem divisor_precedence (cfg : Config) (hk : Hooks) (s : ModeState)
    (mouse_report : report_mouse_t) :
    get_pointing_mode_divisor cfg hk s mouse_report
      = divisor_postprocess cfg hk (pointing_mode_divisor_handed cfg hk s mouse_report).2
          (pointing_mode_divisor_handed cfg hk s mouse_report).1
    ∧ (to_u8 (hk.pointing_mode_get_divisor_user (pointing_mode_get_mode s)
          (get_pointing_mode_direction mouse_report)) ≠ 0 →
        (pointing_mode_divisor_handed cfg hk s mouse_report).1
          = to_u8 (hk.pointing_mode_get_divisor_user (pointing_mode_get_mode s)
              (get_pointing_mode_direction mouse_report)))
    ∧ (to_u8 (hk.pointing_mode_get_divisor_user (pointing_mode_get_mode s)
          (get_pointing_mode_direction mouse_report)) = 0 →
        to_u8 (hk.pointing_mode_get_divisor_kb (pointing_mode_get_mode s)
          (get_pointing_mode_direction mouse_report)) ≠ 0 →
        (pointing_mode_divisor_handed cfg hk s mouse_report).1
          = to_u8 (hk.pointing_mode_get_divisor_kb (pointing_mode_get_mode s)
              (get_pointing_mode_direction mouse_report)))
    ∧ (to_u8 (hk.pointing_mode_get_divisor_user (pointing_mode_get_mode s)
          (get_pointing_mode_direction mouse_report)) = 0 →
        to_u8 (hk.pointing_mode_get_divisor_kb (pointing_mode_get_mode s)
          (get_pointing_mode_direction mouse_report)) = 0 →
        (pointing_mode_get_mode s = PM_PRECISION →
          (pointing_mode_divisor_handed cfg hk s mouse_report).1
            = to_u8 cfg.POINTING_MODE_PRECISION_DIVISOR)
        ∧ (pointing_mode_get_mode s = PM_DRAG →
          (pointing_mode_divisor_handed cfg hk s mouse_report).1
            = to_u8 cfg.POINTING_MODE_DRAG_DIVISOR)
        ∧ (pointing_mode_get_mode s = PM_CARET →
          (get_pointing_mode_direction mouse_report = PD_DOWN
              ∨ get_pointing_mode_direction mouse_report = PD_UP →
            (pointing_mode_divisor_handed cfg hk s mouse_report).1
              = to_u8 cfg.POINTING_MODE_CARET_DIVISOR_V)
          ∧ (get_pointing_mode_direction mouse_report = PD_LEFT
              ∨ get_pointing_mode_direction mouse_report = PD_RIGHT →
            (pointing_mode_divisor_handed cfg hk s mouse_report).1
              = to_u8 cfg.POINTING_MODE_CARET_DIVISOR_H))
        ∧ (pointing_mode_get_mode s = PM_HISTORY →
          (pointing_mode_divisor_handed cfg hk s mouse_report).1
            = to_u8 cfg.POINTING_MODE_HISTORY_DIVISOR)
        ∧ (pointing_mode_get_mode s = PM_VOLUME → cfg.EXTRAKEY_ENABLE = true →
          (pointing_mode_divisor_handed cfg hk s mouse_report).1
            = to_u8 cfg.POINTING_MODE_VOLUME_DIVISOR)) := by
  refine ⟨pointing_mode_divisor_handed_spec cfg hk s mouse_report, ?_, ?_, ?_⟩
  · intro hu
    unfold pointing_mode_divisor_handed
    dsimp only
    rw [if_pos hu]
  · intro hu hk0
    unfold pointing_mode_divisor_handed
    dsimp only
    rw [if_neg (not_not.mpr hu)]
    exact congrArg Prod.fst (if_pos hk0)
  · intro hu hk0
    have hb : (pointing_mode_divisor_handed cfg hk s mouse_report).1
        = builtin_divisor cfg (pointing_mode_get_mode s)
            (get_pointing_mode_direction mouse_report) := by
      unfold pointing_mode_divisor_handed
      dsimp only
      rw [if_neg (not_not.mpr hu)]
      exact congrArg Prod.fst (if_neg (not_not.mpr hk0))
    rw [hb]
    unfold builtin_divisor
    refine ⟨?_, ?_, ?_, ?_, ?_⟩
    · intro hm
      rw [hm, if_pos rfl]
    · intro hm
      rw [hm, if_neg (by decide), if_pos rfl]
    · intro hm
      rw [hm, if_neg (by decide), if_neg (by decide), if_pos rfl]
      constructor
      · intro hd
        rw [if_pos (by rcases hd with h | h <;> rw [h] <;> decide)]
      · intro hd
        rw [if_neg (by rcases hd with h | h <;> rw [h] <;> decide)]
    · intro hm
      rw [hm, if_neg (by decide), if_neg (by decide), if_neg (by decide), if_pos rfl]
    · intro hm he
      rw [hm, if_neg (by decide), if_neg (by decide), if_neg (by decide), if_neg (by decide),
        if_pos ⟨he, rfl⟩]

/-- Witness of C17: under the header's default divisors, with the default callbacks (no
override) and `EXTRAKEY_ENABLE`, the handed value is 2 in PRECISION, 4 in DRAG, 32 in
CARET for a vertical and for a horizontal sample, 64 in HISTORY and 64 in VOLUME. -/
theorem divisor_precedence_witness :
    (pointing_mode_divisor_handed extrakey_config default_hooks (extrakey_state PM_PRECISION)
        (motion 0 5)).1 = 2
    ∧ (pointing_mode_divisor_handed extrakey_config default_hooks (extrakey_state PM_DRAG)
        (motion 0 5)).1 = 4
    ∧ (pointing_mode_divisor_handed extrakey_config default_hooks (extrakey_state PM_CARET)
        (motion 0 (-5))).1 = 32
    ∧ (pointing_mode_divisor_handed extrakey_config default_hooks (extrakey_state PM_CARET)
        (motion 5 0)).1 = 32
    ∧ (pointing_mode_divisor_handed extrakey_config default_hooks (extrakey_state PM_HISTORY)
        (motion 0 5)).1 = 64
    ∧ (pointing_mode_divisor_handed extrakey_config default_hooks (extrakey_state PM_VOLUME)
        (motion 0 5)).1 = 64 :=
  ⟨((divisor_precedence extrakey_config default_hooks (extrakey_state PM_PRECISION)
      (motion 0 5)).2.2.2 (by decide) (by decide)).1 (by decide),
    ((divisor_precedence extrakey_config default_hooks (extrakey_state PM_DRAG)
      (motion 0 5)).2.2.2 (by decide) (by decide)).2.1 (by decide),
    (((divisor_precedence extrakey_config default_hooks (extrakey_state PM_CARET)
      (motion 0 (-5))).2.2.2 (by decide) (by decide)).2.2.1 (by decide)).1 (by decide),
    (((divisor_precedence extrakey_config default_hooks (extrakey_state PM_CARET)
      (motion 5 0)).2.2.2 (by decide) (by decide)).2.2.1 (by decide)).2 (by decide),
    ((divisor_precedence extrakey_config default_hooks (extrakey_state PM_HISTORY)
      (motion 0 5)).2.2.2 (by decide) (by decide)).2.2.2.1 (by decide),
    ((divisor_precedence extrakey_config default_hooks (extrakey_state PM_VOLUME)
      (motion 0 5)).2.2.2 (by decide) (by decide)).2.2.2.2 (by decide) (by decide)⟩

theorem divisor_postprocess_plain (cfg : Config) (hk : Hooks) (s : ModeState) (d : Nat)
    (hd : d ≤ 255)
    (hkb : ∀ n, hk.pointing_mode_divisor_postprocess_kb n = (true, n))
    (huser : ∀ n, hk.pointing_mode_divisor_postprocess_user n = (true, n)) :
    (divisor_postprocess cfg hk s d).1
      = divisor_zero_check cfg
          (if pointing_mode_get_toggled_mode s = PM_PRECISION
              ∧ ¬ (pointing_mode_get_mode s = PM_PRECISION) then
            to_u8 (clamp_uint_16_to_8 (d * cfg.POINTING_MODE_PRECISION_DIVISOR))
          else d) := by
  have e : to_u8 d = d := by unfold to_u8; omega
  unfold divisor_postprocess
  dsimp only
  rw [huser, hkb]
  dsimp only
  rw [e, e, e]
  rfl

theorem pointing_mode_divisor_handed_le (cfg : Config) (hk : Hooks) (s : ModeState)
    (mouse_report : report_mouse_t) :
    (pointing_mode_divisor_handed cfg hk s mouse_report).1 ≤ 255 := by
  unfold pointing_mode_divisor_handed builtin_divisor to_u8
  dsimp only
  split_ifs <;> dsimp only <;> omega

theorem pointing_mode_divisor_handed_congr (cfg : Config) (hk : Hooks) (s1 s2 : ModeState)
    (mouse_report : report_mouse_t)
    (hm : pointing_mode_get_mode s1 = pointing_mode_get_mode s2) :
    (pointing_mode_divisor_handed cfg hk s1 mouse_report).1
      = (pointing_mode_divisor_handed cfg hk s2 mouse_report).1 := by
  unfold pointing_mode_divisor_handed
  dsimp only
  have e : ∀ (s : ModeState) (e : Event), pointing_mode_get_mode (s.log e)
      = pointing_mode_get_mode s := fun _ _ => rfl
  simp only [e, hm]
  split_ifs <;> rfl

theorem pointing_mode_divisor_handed_modes (cfg : Config) (hk : Hooks) (s : ModeState)
    (mouse_report : report_mouse_t) :
    pointing_mode_get_mode (pointing_mode_divisor_handed cfg hk s mouse_report).2
        = pointing_mode_get_mode s
    ∧ pointing_mode_get_toggled_mode (pointing_mode_divisor_handed cfg hk s mouse_report).2
        = pointing_mode_get_toggled_mode s := by
  unfold pointing_mode_divisor_handed
  dsimp only
  split_ifs <;> exact ⟨rfl, rfl⟩

/-- C18 (as stated, refuted): in the custom mode `PM_SAFE_RANGE + 2`, which has no built-in
divisor, with the default callbacks (no override, post-processors returning true and
leaving the divisor alone), the divisor resolved without precision toggled is the default
divisor 64, and the one resolved with `PM_PRECISION` toggled is 64 as well, not
`min(255, 2 * 64) = 128`: the scaling is applied to the handed value 0 before the zero
check. -/
theorem precision_scaling_counterexample :
    pointing_mode_get_mode custom_state = pointing_mode_get_mode custom_state_precise
    ∧ pointing_mode_get_mode custom_state ≠ PM_PRECISION
    ∧ pointing_mode_get_toggled_mode custom_state ≠ PM_PRECISION
    ∧ pointing_mode_get_toggled_mode custom_state_precise = PM_PRECISION
    ∧ (get_pointing_mode_divisor default_config default_hooks custom_state (motion 0 5)).1 = 64
    ∧ (get_pointing_mode_divisor default_config default_hooks custom_state_precise
        (motion 0 5)).1 = 64
    ∧ min 255 (default_config.POINTING_MODE_PRECISION_DIVISOR * 64) = 128 := by
  decide

/-- C18 (amended): for every active mode other than `PM_PRECISION` and every sample, when
both post-process callbacks return true without modifying the divisor, the value handed to
post-processing is nonzero and `POINTING_MODE_PRECISION_DIVISOR` lies in 1..257, the
divisor resolved while the toggled mode is `PM_PRECISION` equals
`min(255, POINTING_MODE_PRECISION_DIVISOR * d)`, where `d` is the divisor resolved for the
same mode, sample and overrides while the toggled mode is not `PM_PRECISION`. -/
theorem precision_scaling (cfg : Config) (hk : Hooks) (s_on s_off : ModeState)
    (mouse_report : report_mouse_t)
    (hmode : pointing_mode_get_mode s_on = pointing_mode_get_mode s_off)
    (hactive : pointing_mode_get_mode s_on ≠ PM_PRECISION)
    (hon : pointing_mode_get_toggled_mode s_on = PM_PRECISION)
    (hoff : pointing_mode_get_toggled_mode s_off ≠ PM_PRECISION)
    (hkb : ∀ n, hk.pointing_mode_divisor_postprocess_kb n = (true, n))
    (huser : ∀ n, hk.pointing_mode_divisor_postprocess_user n = (true, n))
    (hhanded : (pointing_mode_divisor_handed cfg hk s_off mouse_report).1 ≠ 0)
    (hp : 1 ≤ cfg.POINTING_MODE_PRECISION_DIVISOR ∧ cfg.POINTING_MODE_PRECISION_DIVISOR ≤ 257) :
    (get_pointing_mode_divisor cfg hk s_on mouse_report).1
      = min 255 (cfg.POINTING_MODE_PRECISION_DIVISOR
          * (get_pointing_mode_divisor cfg hk s_off mouse_report).1) := by
  have hle := pointing_mode_divisor_handed_le cfg hk s_off mouse_report
  have hcg := pointing_mode_divisor_handed_congr cfg hk s_on s_off mouse_report hmode
  obtain ⟨m1, t1⟩ := pointing_mode_divisor_handed_modes cfg hk s_on mouse_report
  obtain ⟨m2, t2⟩ := pointing_mode_divisor_handed_modes cfg hk s_off mouse_report
  rw [pointing_mode_divisor_handed_spec cfg hk s_on, pointing_mode_divisor_handed_spec cfg hk s_off,
    divisor_postprocess_plain cfg hk _ _ (hcg ▸ hle) hkb huser,
    divisor_postprocess_plain cfg hk _ _ hle hkb huser, m1, t1, m2, t2, hcg,
    if_pos ⟨hon, hactive⟩, if_neg (fun h => hoff h.1)]
  generalize (pointing_mode_divisor_handed cfg hk s_off mouse_report).1 = d at hle hhanded
  generalize cfg.POINTING_MODE_PRECISION_DIVISOR = p at hp
  have hprod : d * p ≤ 255 * 257 := Nat.mul_le_mul hle hp.2
  have hpos : 1 ≤ d * p := Nat.mul_pos (by omega) (by omega)
  have hcomm : p * d = d * p := Nat.mul_comm p d
  unfold divisor_zero_check clamp_uint_16_to_8 to_u16 to_u8
  dsimp only
  rw [if_pos hhanded, hcomm]
  generalize d * p = q at hprod hpos
  have e16 : q % 65536 = q := by omega
  rw [e16]
  by_cases hq : q > 255
  · rw [if_pos hq, if_pos (by decide)]
    omega
  · rw [if_neg hq]
    have e8 : q % 256 = q := by omega
    rw [e8, if_pos (by omega)]
    omega

/-- Witness of C18 (amended): drag mode (built-in divisor 4) under the default
configuration and callbacks: 8 with precision toggled, 4 without. -/
theorem precision_scaling_witness :
    (get_pointing_mode_divisor default_config default_hooks drag_state_precise (motion 0 5)).1
      = min 255 (default_config.POINTING_MODE_PRECISION_DIVISOR
          * (get_pointing_mode_divisor default_config default_hooks drag_state (motion 0 5)).1) :=
  precision_scaling default_config default_hooks drag_state_precise drag_state (motion 0 5)
    (by decide) (by decide) (by decide) (by decide) (fun _ => rfl) (fun _ => rfl) (by decide)
    (by decide)

/-- C19 (as stated, refuted): with a user-level post-processor that writes 7 and a
keyboard-level one that adds 1 (both returning true), `divisor_postprocess` of 4 yields 8
and logs the user-level call before the keyboard-level call; the order keyboard-then-user
would yield 7. And when the user-level post-processor returns false, the keyboard-level
one is not called at all. -/
theorem postprocess_order_counterexample :
    (divisor_postprocess default_config order_probe_hooks (ModeState.init default_config) 4).1 = 8
    ∧ (divisor_postprocess default_config order_probe_hooks
        (ModeState.init default_config) 4).2.events
        = [.hook .divisor_postprocess_user, .hook .divisor_postprocess_kb]
    ∧ (order_probe_hooks.pointing_mode_divisor_postprocess_user
        (order_probe_hooks.pointing_mode_divisor_postprocess_kb 4).2).2 = 7
    ∧ (divisor_postprocess default_config user_veto_hooks (ModeState.init default_config) 4).1 = 4
    ∧ (divisor_postprocess default_config user_veto_hooks
        (ModeState.init default_config) 4).2.events
        = [.hook .divisor_postprocess_user] := by
  decide

/-- C19 (amended): `divisor_postprocess` runs the user-level post-processor first; if it
returns false the keyboard-level one is not called, otherwise the keyboard-level one runs
on the divisor as left by the user-level one; if either returns false the built-in
precision scaling is skipped and the zero check is applied to the divisor as it stands;
if both return true the scaling (when precision is toggled and not active) and then the
zero check are applied. -/
theorem postprocess_order (cfg : Config) (hk : Hooks) (s : ModeState) (divisor : Nat) :
    ((hk.pointing_mode_divisor_postprocess_user (to_u8 divisor)).1 = false →
      divisor_postprocess cfg hk s divisor
        = (divisor_zero_check cfg
              (to_u8 (hk.pointing_mode_divisor_postprocess_user (to_u8 divisor)).2),
            s.log (.hook .divisor_postprocess_user)))
    ∧ ((hk.pointing_mode_divisor_postprocess_user (to_u8 divisor)).1 = true →
      (divisor_postprocess cfg hk s divisor).2
          = (s.log (.hook .divisor_postprocess_user)).log (.hook .divisor_postprocess_kb)
      ∧ ((hk.pointing_mode_divisor_postprocess_kb
            (to_u8 (hk.pointing_mode_divisor_postprocess_user (to_u8 divisor)).2)).1 = false →
          (divisor_postprocess cfg hk s divisor).1
            = divisor_zero_check cfg
                (to_u8 (hk.pointing_mode_divisor_postprocess_kb
                  (to_u8 (hk.pointing_mode_divisor_postprocess_user (to_u8 divisor)).2)).2))
      ∧ ((hk.pointing_mode_divisor_postprocess_kb
            (to_u8 (hk.pointing_mode_divisor_postprocess_user (to_u8 divisor)).2)).1 = true →
          (divisor_postprocess cfg hk s divisor).1
            = divisor_zero_check cfg
                (if pointing_mode_get_toggled_mode s = PM_PRECISION
                    ∧ ¬ (pointing_mode_get_mode s = PM_PRECISION) then
                  to_u8 (clamp_uint_16_to_8
                    (to_u8 (hk.pointing_mode_divisor_postprocess_kb
                        (to_u8 (hk.pointing_mode_divisor_postprocess_user (to_u8 divisor)).2)).2
                      * cfg.POINTING_MODE_PRECISION_DIVISOR))
                else
                  to_u8 (hk.pointing_mode_divisor_postprocess_kb
                    (to_u8 (hk.pointing_mode_divisor_postprocess_user (to_u8 divisor)).2)).2))) := by
  refine ⟨?_, ?_⟩
  · intro hu
    unfold divisor_postprocess
    dsimp only
    rw [hu]
    rfl
  · intro hu
    unfold divisor_postprocess
    dsimp only
    rw [hu]
    refine ⟨?_, ?_, ?_⟩
    · simp only [if_true]
      split <;> rfl
    · intro hkb
      rw [hkb]
      rfl
    · intro hkb
      rw [hkb]
      rfl

/-- C20 (as the code behaves): in an unchanged caret mode with divisor 32 and zero
leftovers a sample `y = 127` emits three down-taps and leaves `leftover_y = -96`; the next
sample `y = 10` then has the quotient `(10 - 96) / 32 = -2`, and the two taps emitted are
`KC_DOWN` taps (the key of the sample's direction), not `KC_UP` taps. -/
theorem tap_key_against_quotient_sign :
    key_events caret_after_fast_sample.events
      = [.tap_code16_delay .KC_DOWN 0, .tap_code16_delay .KC_DOWN 0, .tap_code16_delay .KC_DOWN 0]
    ∧ caret_after_fast_sample.leftover_y = -96
    ∧ divisor_divide16 caret_after_fast_sample ((motion 0 10).y + caret_after_fast_sample.leftover_y)
        = -2
    ∧ get_pointing_mode_direction (motion 0 10) = PD_DOWN
    ∧ key_events caret_after_slow_sample.events
      = key_events caret_after_fast_sample.events
        ++ [.tap_code16_delay .KC_DOWN 0, .tap_code16_delay .KC_DOWN 0] := by
  decide

/-- C11: for every recorded vector with components in -127..127, `cursor_glide_start`
returns, and the velocity `v` it stores in `v0` before the threshold test is the Q8
Euclidean norm `floor(256*sqrt(dx0^2 + dy0^2))`: the largest integer with
`v*v <= 65536*(dx0^2 + dy0^2)`. The two Q8 squares and their sum are computed without
32-bit overflow, and `v` fits in 16 bits. -/
theorem glide_initial_velocity_norm (cfg : Config) (now : Nat) (glide : cursor_glide_context_t)
    (hx : -127 ≤ glide.status.dx0 ∧ glide.status.dx0 ≤ 127)
    (hy : -127 ≤ glide.status.dy0 ∧ glide.status.dy0 ≤ 127) :
    ∃ v : Nat,
      glide_initial_velocity glide.status.dx0 glide.status.dy0 = some v
      ∧ cursor_glide_start cfg now glide
        = some (if int_to_u32 (v : Int) < to_u32 (glide.config.trigger_px * 256) then
            (invalid_report, { config := glide.config, status := cursor_glide_status_zero })
          else
            cursor_glide cfg now
              { config := glide.config,
                status := { v0 := (v : Int), x := 0, y := 0, z := 0, timer := to_u16 now,
                            counter := 0, dx0 := glide.status.dx0, dy0 := glide.status.dy0 } })
      ∧ v = Nat.sqrt (65536 * (glide.status.dx0 * glide.status.dx0
              + glide.status.dy0 * glide.status.dy0).toNat)
      ∧ (v : Int) * v ≤ 65536 * (glide.status.dx0 * glide.status.dx0
              + glide.status.dy0 * glide.status.dy0)
      ∧ (∀ w : Nat, (w : Int) * w ≤ 65536 * (glide.status.dx0 * glide.status.dx0
              + glide.status.dy0 * glide.status.dy0) → w ≤ v)
      ∧ q8_square glide.status.dx0 = 65536 * (glide.status.dx0 * glide.status.dx0)
      ∧ q8_square glide.status.dy0 = 65536 * (glide.status.dy0 * glide.status.dy0)
      ∧ in_int32 (q8_square glide.status.dx0 + q8_square glide.status.dy0)
      ∧ v ≤ 65535 := by
  have hx8 : -128 ≤ glide.status.dx0 ∧ glide.status.dx0 ≤ 127 := ⟨by omega, hx.2⟩
  have hy8 : -128 ≤ glide.status.dy0 ∧ glide.status.dy0 ≤ 127 := ⟨by omega, hy.2⟩
  obtain ⟨v, hv, h1, h2, h3⟩ := glide_initial_velocity_spec _ _ hx8 hy8
  have hqx := q8_square_of_int8 _ hx8
  have hqy := q8_square_of_int8 _ hy8
  have hsx : glide.status.dx0 * glide.status.dx0 ≤ 16129 := by nlinarith [hx.1, hx.2]
  have hsy : glide.status.dy0 * glide.status.dy0 ≤ 16129 := by nlinarith [hy.1, hy.2]
  have hnx := mul_self_nonneg glide.status.dx0
  have hny := mul_self_nonneg glide.status.dy0
  have hw : wrap32 (v : Int) = v := wrap32_of_range _ (by omega) (by omega)
  refine ⟨v, hv, cursor_glide_start_eq cfg now glide v hv hw, ?_, h1, ?_, hqx, hqy, ?_, by omega⟩
  · obtain ⟨n, hn⟩ : ∃ n : Nat, (n : Int) = glide.status.dx0 * glide.status.dx0
        + glide.status.dy0 * glide.status.dy0 :=
      ⟨_, Int.toNat_of_nonneg (by omega)⟩
    rw [← hn] at h1 h2 ⊢
    rw [Int.toNat_ofNat]
    apply Nat.eq_sqrt.mpr
    constructor
    · exact_mod_cast h1
    · exact_mod_cast h2
  · intro w hw1
    by_contra hc
    have hle : (v : Int) + 1 ≤ w := by omega
    have hmul := mul_le_mul hle hle (by omega) (by omega : (0 : Int) ≤ w)
    generalize (w : Int) * w = ww at hw1 hmul
    generalize ((v : Int) + 1) * (v + 1) = vv at h2 hmul
    clear h1
    omega
  · rw [hqx, hqy]
    unfold in_int32
    omega

/-- Witness of C11: the vector `(3, 4)`: `v0 = 1280 = 256 * 5`. -/
theorem glide_initial_velocity_norm_witness :
    ∃ v : Nat,
      glide_initial_velocity damped_glide.status.dx0 damped_glide.status.dy0 = some v
      ∧ v = Nat.sqrt (65536 * (damped_glide.status.dx0 * damped_glide.status.dx0
              + damped_glide.status.dy0 * damped_glide.status.dy0).toNat)
      ∧ v ≤ 65535 := by
  obtain ⟨v, h1, _, h3, _, _, _, _, _, h9⟩ :=
    glide_initial_velocity_norm default_config 0 damped_glide (by decide) (by decide)
  exact ⟨v, h1, h3, h9⟩

/-! ## Theorems: direction of a glide -/

theorem tdiv_diff_le (v : Int) (hv : 0 < v) : ∀ (k : Nat) (n1 n2 : Int), n1 ≤ n2 →
    n2 - n1 ≤ (k : Int) * v →
    Int.tdiv n1 v ≤ Int.tdiv n2 v ∧ Int.tdiv n2 v ≤ Int.tdiv n1 v + k := by
  intro k
  induction k with
  | zero =>
    intro n1 n2 h1 h2
    have e : n1 = n2 := by
      simp only [Nat.cast_zero, zero_mul] at h2
      omega
    subst e
    simp
  | succ k ih =>
    intro n1 n2 h1 h2
    have hk : ((k + 1 : Nat) : Int) * v = (k : Int) * v + v := by push_cast; ring
    rw [hk] at h2
    by_cases hs : n2 - n1 ≤ v
    · obtain ⟨c1, c2⟩ := tdiv_close n1 n2 v hv h1 hs
      refine ⟨c1, ?_⟩
      push_cast
      omega
    · obtain ⟨c1, c2⟩ := tdiv_close (n2 - v) n2 v hv (by omega) (by omega)
      obtain ⟨c3, c4⟩ := ih n1 (n2 - v) (by omega) (by linarith)
      refine ⟨by omega, ?_⟩
      push_cast
      omega

theorem glide_delta_fits (v a p q : Int) (hv : 256 ≤ v) (ha : -128 ≤ a ∧ a ≤ 127)
    (hav : 256 * |a| ≤ v) (hlo : -255 ≤ q - p) (hhi : q - p ≤ v) :
    -128 ≤ Int.tdiv (q * a) v - Int.tdiv (p * a) v
    ∧ Int.tdiv (q * a) v - Int.tdiv (p * a) v ≤ 127 := by
  have hv0 : 0 < v := by omega
  rcases le_total 0 (q - p) with hd | hd
  · rcases le_total 0 a with h0 | h0
    · obtain ⟨k, hk⟩ : ∃ k : Nat, (k : Int) = a := ⟨a.toNat, Int.toNat_of_nonneg h0⟩
      have e : q * a - p * a = (q - p) * a := by ring
      have h1 : p * a ≤ q * a := by
        have := mul_nonneg hd h0
        linarith
      have h2 : q * a - p * a ≤ (k : Int) * v := by
        rw [e, hk, mul_comm a v]
        exact mul_le_mul_of_nonneg_right hhi h0
      obtain ⟨c1, c2⟩ := tdiv_diff_le v hv0 k _ _ h1 h2
      omega
    · obtain ⟨k, hk⟩ : ∃ k : Nat, (k : Int) = -a := ⟨(-a).toNat, Int.toNat_of_nonneg (by omega)⟩
      have e : p * a - q * a = (q - p) * (-a) := by ring
      have h1 : q * a ≤ p * a := by
        have := mul_nonneg hd (by omega : 0 ≤ -a)
        linarith
      have h2 : p * a - q * a ≤ (k : Int) * v := by
        rw [e, hk, mul_comm (-a) v]
        exact mul_le_mul_of_nonneg_right hhi (by omega)
      obtain ⟨c1, c2⟩ := tdiv_diff_le v hv0 k _ _ h1 h2
      omega
  · have habs : |q - p| ≤ 255 := abs_le.mpr ⟨by omega, by omega⟩
    have hx : |q * a - p * a| ≤ v := by
      have e : q * a - p * a = (q - p) * a := by ring
      rw [e, abs_mul]
      have h1 : |q - p| * |a| ≤ 255 * |a| := mul_le_mul_of_nonneg_right habs (abs_nonneg a)
      have h2 := abs_nonneg a
      linarith
    have hc := abs_le.mp (tdiv_close_abs _ _ v hv0 hx)
    omega

theorem tdiv_remainder_abs (n v : Int) (hv : 0 < v) : |n - Int.tdiv n v * v| ≤ v - 1 := by
  rcases le_total 0 n with h | h
  · obtain ⟨_, h2, h3⟩ := tdiv_spec_nonneg n v hv h
    exact abs_le.mpr ⟨by linarith, by linarith⟩
  · obtain ⟨_, h2, h3⟩ := tdiv_spec_nonpos n v hv h
    exact abs_le.mpr ⟨by linarith, by linarith⟩

theorem projection_proportional (p a b v : Int) (hv : 0 < v) (hvec : ¬ (a = 0 ∧ b = 0)) :
    |Int.tdiv (p * a) v * b - Int.tdiv (p * b) v * a| < |a| + |b| := by
  have h1 := tdiv_remainder_abs (p * a) v hv
  have h2 := tdiv_remainder_abs (p * b) v hv
  generalize Int.tdiv (p * a) v = X at h1 ⊢
  generalize Int.tdiv (p * b) v = Y at h2 ⊢
  have e : v * (X * b - Y * a) = (p * b - Y * v) * a - (p * a - X * v) * b := by ring
  have hm : 1 ≤ |a| + |b| := by
    by_contra hc
    have ha := abs_nonneg a
    have hb := abs_nonneg b
    exact hvec ⟨abs_eq_zero.mp (by omega), abs_eq_zero.mp (by omega)⟩
  have h3 : |v * (X * b - Y * a)| ≤ (v - 1) * (|a| + |b|) := by
    rw [e]
    have t1 : |(p * b - Y * v) * a - (p * a - X * v) * b|
        ≤ |(p * b - Y * v) * a| + |(p * a - X * v) * b| := abs_sub _ _
    rw [abs_mul, abs_mul] at t1
    have t2 : |p * b - Y * v| * |a| ≤ (v - 1) * |a| :=
      mul_le_mul_of_nonneg_right h2 (abs_nonneg a)
    have t3 : |p * a - X * v| * |b| ≤ (v - 1) * |b| :=
      mul_le_mul_of_nonneg_right h1 (abs_nonneg b)
    linarith
  rw [abs_mul, abs_of_pos hv] at h3
  by_contra hcon
  have hge : |a| + |b| ≤ |X * b - Y * a| := not_lt.mp hcon
  have t4 : v * (|a| + |b|) ≤ v * |X * b - Y * a| := mul_le_mul_of_nonneg_left hge hv.le
  nlinarith

theorem glide_tick_report (cfg : Config) (h8 : cfg.MOUSE_EXTENDED_REPORT = false) (now : Nat)
    (conf : cursor_glide_config_t) (v : Nat) (a b : Int) (t : Nat)
    (glide : cursor_glide_context_t) (u : Int) (hu : u = (conf.coef : Int) * t)
    (hc : 64 ≤ conf.coef ∧ conf.coef ≤ 511) (hv : 256 ≤ v ∧ v ≤ 46340)
    (ha8 : -128 ≤ a ∧ a ≤ 127) (hb8 : -128 ≤ b ∧ b ≤ 127)
    (hav : 256 * |a| ≤ v) (hbv : 256 * |b| ≤ v)
    (hrun : glide_running conf v a b t glide)
    (hJ : 2 * u + 513 ≤ 2 * (v : Int) + conf.coef)
    (hP : 0 ≤ glide_p v conf.coef t) :
    (cursor_glide cfg now glide).1.dx
        = Int.tdiv (glide_p v conf.coef (t + 1) * a) v - glide.status.x
    ∧ (cursor_glide cfg now glide).1.dy
        = Int.tdiv (glide_p v conf.coef (t + 1) * b) v - glide.status.y := by
  have ha : |a| ≤ 128 := abs_le.mpr ⟨by omega, by omega⟩
  have hb : |b| ≤ 128 := abs_le.mpr ⟨by omega, by omega⟩
  obtain ⟨r1, r2, r3, r4, r5, r6, r7, r8⟩ := hrun
  have hcI : (64 : Int) ≤ conf.coef ∧ (conf.coef : Int) ≤ 511 := by omega
  have hvI : (256 : Int) ≤ v ∧ (v : Int) ≤ 46340 := by omega
  have ht0 : (0 : Int) ≤ t := by positivity
  have hu0 : 0 ≤ u := by rw [hu]; positivity
  have htb : (t : Int) ≤ 724 := by
    have h64 : 64 * (t : Int) ≤ (conf.coef : Int) * t := mul_le_mul_of_nonneg_right hcI.1 ht0
    rw [← hu] at h64
    omega
  have htn : t ≤ 724 := by exact_mod_cast htb
  have ht1 : ((t + 1 : Nat) : Int) ≤ 725 := by push_cast; omega
  have ht1' : (0 : Int) ≤ ((t + 1 : Nat) : Int) := by positivity
  obtain ⟨d1, d2⟩ := glide_p_delta v conf.coef t u hu
  have hPlo : -255 ≤ glide_p v conf.coef (t + 1) := by omega
  have hPhi : glide_p v conf.coef (t + 1) ≤ 16776532 := by
    rcases le_total (glide_p v conf.coef (t + 1)) 0 with h0 | h0
    · omega
    · have hup := glide_p_upper v conf.coef (t + 1)
      have hvv : (v : Int) * v ≤ 46340 * 46340 := mul_le_mul hvI.2 hvI.2 (by omega) (by decide)
      have h128 : 128 * glide_p v conf.coef (t + 1)
          ≤ 2 * (conf.coef : Int) * glide_p v conf.coef (t + 1) :=
        mul_le_mul_of_nonneg_right (by omega) h0
      omega
  have hPabs : |glide_p v conf.coef (t + 1)| ≤ 16776532 := abs_le.mpr ⟨by omega, hPhi⟩
  have hPa := abs_le.mp (abs_mul_le_of_le _ a _ _ hPabs ha)
  have hPb := abs_le.mp (abs_mul_le_of_le _ b _ _ hPabs hb)
  have hXn := tdiv_scaled_bounds (glide_p v conf.coef (t + 1) * a) v hvI.1 (by omega)
  have hYn := tdiv_scaled_bounds (glide_p v conf.coef (t + 1) * b) v hvI.1 (by omega)
  have hPabs0 : |glide_p v conf.coef t| ≤ 16776532 := by
    have hup := glide_p_upper v conf.coef t
    have hvv : (v : Int) * v ≤ 46340 * 46340 := mul_le_mul hvI.2 hvI.2 (by omega) (by decide)
    have h128 : 128 * glide_p v conf.coef t ≤ 2 * (conf.coef : Int) * glide_p v conf.coef t :=
      mul_le_mul_of_nonneg_right (by omega) hP
    exact abs_le.mpr ⟨by omega, by omega⟩
  have hPa0 := abs_le.mp (abs_mul_le_of_le _ a _ _ hPabs0 ha)
  have hPb0 := abs_le.mp (abs_mul_le_of_le _ b _ _ hPabs0 hb)
  have hXo := tdiv_scaled_bounds (glide_p v conf.coef t * a) v hvI.1 (by omega)
  have hYo := tdiv_scaled_bounds (glide_p v conf.coef t * b) v hvI.1 (by omega)
  have hvt : (0 : Int) ≤ (v : Int) * ((t + 1 : Nat) : Int)
      ∧ (v : Int) * ((t + 1 : Nat) : Int) ≤ 46340 * 725 :=
    ⟨by positivity, mul_le_mul hvI.2 ht1 ht1' (by decide)⟩
  have hct : (0 : Int) ≤ (conf.coef : Int) * ((t + 1 : Nat) : Int)
      ∧ (conf.coef : Int) * ((t + 1 : Nat) : Int) ≤ 511 * 725 :=
    ⟨by positivity, mul_le_mul hcI.2 ht1 ht1' (by decide)⟩
  have hctt : (0 : Int) ≤ (conf.coef : Int) * ((t + 1 : Nat) : Int) * ((t + 1 : Nat) : Int)
      ∧ (conf.coef : Int) * ((t + 1 : Nat) : Int) * ((t + 1 : Nat) : Int) ≤ 511 * 725 * 725 :=
    ⟨by positivity, mul_le_mul hct.2 ht1 ht1' (by decide)⟩
  have hfit : glide_step_fits glide (t + 1) := by
    unfold glide_step_fits
    rw [r1, r2, r3, r4]
    change in_int32 _ ∧ in_int32 _ ∧ in_int32 _ ∧ in_int32 (glide_p v conf.coef (t + 1))
      ∧ in_int32 (glide_p v conf.coef (t + 1) * a) ∧ in_int32 (glide_p v conf.coef (t + 1) * b)
      ∧ in_int32 (Int.tdiv (glide_p v conf.coef (t + 1) * a) v)
      ∧ in_int32 (Int.tdiv (glide_p v conf.coef (t + 1) * b) v)
    unfold in_int32
    refine ⟨⟨?_, ?_⟩, ⟨?_, ?_⟩, ⟨?_, ?_⟩, ⟨?_, ?_⟩, ⟨?_, ?_⟩, ⟨?_, ?_⟩, ⟨?_, ?_⟩, ⟨?_, ?_⟩⟩ <;> omega
  have hcnt : to_u16 (glide.status.counter + 1) = t + 1 := by
    rw [r6]
    unfold to_u16
    omega
  have hne : glide.status.v0 ≠ 0 := by rw [r2]; omega
  have hex := cursor_glide_exact cfg now glide (t + 1)
    (Int.tdiv (glide_p v conf.coef (t + 1) * a) v) (Int.tdiv (glide_p v conf.coef (t + 1) * b) v)
    hne hcnt hfit (by rw [r1, r2, r3]) (by rw [r1, r2, r4])
    (by rw [r7]; unfold in_int32; omega) (by rw [r8]; unfold in_int32; omega)
  have hxy : ∀ n : Int, to_mouse_xy cfg n = wrap8 n := by
    intro n
    unfold to_mouse_xy
    rw [h8]
    rfl
  have dxfit := glide_delta_fits v a (glide_p v conf.coef t) (glide_p v conf.coef (t + 1))
    hvI.1 ha8 hav (by omega) (by omega)
  have dyfit := glide_delta_fits v b (glide_p v conf.coef t) (glide_p v conf.coef (t + 1))
    hvI.1 hb8 hbv (by omega) (by omega)
  rw [hex, hxy, hxy, r7, r8, wrap8_of_range _ dxfit.1 dxfit.2, wrap8_of_range _ dyfit.1 dyfit.2]
  split <;> exact ⟨rfl, rfl⟩

theorem cursor_glide_check_gated (cfg : Config) (now : Nat) (glide : cursor_glide_context_t)
    (hgate : timer_elapsed now glide.status.timer < glide.config.interval) :
    cursor_glide_check cfg now glide = (invalid_report, glide) := by
  unfold cursor_glide_check
  dsimp only
  rw [if_pos (Or.inr (Or.inr hgate))]

theorem glide_tracking_tick (cfg : Config) (h8 : cfg.MOUSE_EXTENDED_REPORT = false) (now : Nat)
    (conf : cursor_glide_config_t) (v : Nat) (a b : Int) (t : Nat)
    (g : cursor_glide_context_t) (e : Int × Int)
    (hc : 64 ≤ conf.coef ∧ conf.coef ≤ 511) (hv : 256 ≤ v ∧ v ≤ 46340)
    (ha8 : -128 ≤ a ∧ a ≤ 127) (hb8 : -128 ≤ b ∧ b ≤ 127)
    (hav : 256 * |a| ≤ v) (hbv : 256 * |b| ≤ v)
    (hrun : glide_running conf v a b t g)
    (hJ : 2 * ((conf.coef : Int) * t) + 513 ≤ 2 * (v : Int) + conf.coef)
    (hP : 0 ≤ glide_p v conf.coef t)
    (he : e = (g.status.x, g.status.y)) :
    glide_tracking conf v a b
      (e.1 + (cursor_glide cfg now g).1.dx, e.2 + (cursor_glide cfg now g).1.dy)
      (cursor_glide cfg now g).2 := by
  have ha : |a| ≤ 128 := abs_le.mpr ⟨by omega, by omega⟩
  have hb : |b| ≤ 128 := abs_le.mpr ⟨by omega, by omega⟩
  obtain ⟨rx, ry⟩ := glide_tick_report cfg h8 now conf v a b t g _ rfl hc hv ha8 hb8 hav hbv
    hrun hJ hP
  have htick := glide_tick cfg h8 now conf v a b t g _ rfl hc hv ha hb hav hbv hrun hJ hP
  have ex : e.1 + (cursor_glide cfg now g).1.dx
      = Int.tdiv (glide_p v conf.coef (t + 1) * a) v := by
    rw [rx, he]
    ring
  have ey : e.2 + (cursor_glide cfg now g).1.dy
      = Int.tdiv (glide_p v conf.coef (t + 1) * b) v := by
    rw [ry, he]
    ring
  rw [ex, ey]
  refine ⟨⟨glide_p v conf.coef (t + 1), rfl⟩, ?_⟩
  rcases htick with hz | ⟨hrun', hJ', hP'⟩
  · exact Or.inl hz
  · refine Or.inr ⟨t + 1, hrun', ?_, hP', ?_⟩
    · have e1 : (conf.coef : Int) * ((t + 1 : Nat) : Int) = (conf.coef : Int) * t + conf.coef := by
        push_cast; ring
      rw [e1]
      exact hJ'
    · obtain ⟨_, _, _, _, _, _, q7, q8⟩ := hrun'
      rw [q7, q8]

theorem glide_tracking_check (cfg : Config) (h8 : cfg.MOUSE_EXTENDED_REPORT = false) (now : Nat)
    (conf : cursor_glide_config_t) (v : Nat) (a b : Int)
    (g : cursor_glide_context_t) (e : Int × Int)
    (hc : 64 ≤ conf.coef ∧ conf.coef ≤ 511) (hv : 256 ≤ v ∧ v ≤ 46340)
    (ha8 : -128 ≤ a ∧ a ≤ 127) (hb8 : -128 ≤ b ∧ b ≤ 127)
    (hav : 256 * |a| ≤ v) (hbv : 256 * |b| ≤ v) (hvec : ¬ (a = 0 ∧ b = 0))
    (h : glide_tracking conf v a b e g) :
    glide_tracking conf v a b
      (e.1 + (cursor_glide_check cfg now g).1.dx, e.2 + (cursor_glide_check cfg now g).1.dy)
      (cursor_glide_check cfg now g).2 := by
  have hidle : cursor_glide_check cfg now g = (invalid_report, g) →
      glide_tracking conf v a b
        (e.1 + (cursor_glide_check cfg now g).1.dx, e.2 + (cursor_glide_check cfg now g).1.dy)
        (cursor_glide_check cfg now g).2 := by
    intro hck
    rw [hck]
    have e0 : (e.1 + (invalid_report, g).1.dx, e.2 + (invalid_report, g).1.dy) = e := by
      show (e.1 + 0, e.2 + 0) = e
      rw [add_zero, add_zero]
    rw [e0]
    exact h
  obtain ⟨_, hcase⟩ := h
  rcases hcase with hz | ⟨t, hrun, hJ, hP, he⟩
  · exact hidle (cursor_glide_check_of_zero cfg now g hz)
  · by_cases hg : timer_elapsed now g.status.timer < g.config.interval
    · exact hidle (cursor_glide_check_gated cfg now g hg)
    · rw [cursor_glide_check_running cfg now conf v a b t g hvec hrun (by rw [← hrun.1]; exact hg)]
      exact glide_tracking_tick cfg h8 now conf v a b t g e hc hv ha8 hb8 hav hbv hrun hJ hP he

theorem glide_emitted_tracking (cfg : Config) (h8 : cfg.MOUSE_EXTENDED_REPORT = false)
    (nows : Nat → Nat) (conf : cursor_glide_config_t) (v : Nat) (a b : Int)
    (r0 : cursor_glide_t) (g0 : cursor_glide_context_t)
    (hc : 64 ≤ conf.coef ∧ conf.coef ≤ 511) (hv : 256 ≤ v ∧ v ≤ 46340)
    (ha8 : -128 ≤ a ∧ a ≤ 127) (hb8 : -128 ≤ b ∧ b ≤ 127)
    (hav : 256 * |a| ≤ v) (hbv : 256 * |b| ≤ v) (hvec : ¬ (a = 0 ∧ b = 0))
    (h0 : glide_tracking conf v a b (r0.dx, r0.dy) g0) :
    ∀ n, glide_tracking conf v a b (glide_emitted cfg nows r0 g0 n)
      (glide_checks cfg nows g0 n) := by
  intro n
  induction n with
  | zero => exact h0
  | succ n ih =>
    exact glide_tracking_check cfg h8 (nows n) conf v a b _ _ hc hv ha8 hb8 hav hbv hvec ih

theorem cursor_glide_start_tracking (cfg : Config) (h8 : cfg.MOUSE_EXTENDED_REPORT = false)
    (now : Nat) (glide : cursor_glide_context_t)
    (hc : 64 ≤ glide.config.coef ∧ glide.config.coef ≤ 511)
    (hx : -128 ≤ glide.status.dx0 ∧ glide.status.dx0 ≤ 127)
    (hy : -128 ≤ glide.status.dy0 ∧ glide.status.dy0 ≤ 127)
    (hvec : ¬ (glide.status.dx0 = 0 ∧ glide.status.dy0 = 0)) :
    ∃ (v : Nat) (r0 : cursor_glide_t) (g0 : cursor_glide_context_t),
      cursor_glide_start cfg now glide = some (r0, g0)
      ∧ 256 ≤ v ∧ v ≤ 46340 ∧ 256 * |glide.status.dx0| ≤ v ∧ 256 * |glide.status.dy0| ≤ v
      ∧ glide_tracking glide.config v glide.status.dx0 glide.status.dy0 (r0.dx, r0.dy) g0 := by
  obtain ⟨v, hv, h1, h2, h3⟩ := glide_initial_velocity_spec _ _ hx hy
  obtain ⟨b1, b2, b3, b4⟩ := initial_velocity_bounds _ _ v hx hy hvec h1 h2
  clear h1 h2
  have hw : wrap32 (v : Int) = v := wrap32_of_range _ (by omega) (by omega)
  have hstart := cursor_glide_start_eq cfg now glide v hv hw
  by_cases hab : int_to_u32 (v : Int) < to_u32 (glide.config.trigger_px * 256)
  · rw [if_pos hab] at hstart
    refine ⟨v, _, _, hstart, b1, b2, b3, b4, ⟨0, ?_⟩, Or.inl rfl⟩
    show ((0 : Int), (0 : Int)) = _
    rw [zero_mul, zero_mul, Int.zero_tdiv]
  · rw [if_neg hab] at hstart
    have hrun : glide_running glide.config v glide.status.dx0 glide.status.dy0 0
        { config := glide.config,
          status := { v0 := (v : Int), x := 0, y := 0, z := 0, timer := to_u16 now, counter := 0,
                      dx0 := glide.status.dx0, dy0 := glide.status.dy0 } } := by
      refine ⟨rfl, rfl, rfl, rfl, rfl, rfl, ?_, ?_⟩
      · show (0 : Int) = _
        rw [glide_p_zero, zero_mul, Int.zero_tdiv]
      · show (0 : Int) = _
        rw [glide_p_zero, zero_mul, Int.zero_tdiv]
    have htr := glide_tracking_tick cfg h8 now glide.config v glide.status.dx0 glide.status.dy0 0
      _ ((0 : Int), (0 : Int)) hc ⟨b1, b2⟩ hx hy b3 b4 hrun (by push_cast; omega)
      (by rw [glide_p_zero]) rfl
    generalize cursor_glide cfg now
        { config := glide.config,
          status := { v0 := (v : Int), x := 0, y := 0, z := 0, timer := to_u16 now, counter := 0,
                      dx0 := glide.status.dx0, dy0 := glide.status.dy0 } } = res at hstart htr
    obtain ⟨r0, g0⟩ := res
    refine ⟨v, r0, g0, hstart, b1, b2, b3, b4, ?_⟩
    have e0 : (((0 : Int), (0 : Int)).1 + (r0, g0).1.dx, ((0 : Int), (0 : Int)).2 + (r0, g0).1.dy)
        = (r0.dx, r0.dy) := by
      show ((0 : Int) + r0.dx, (0 : Int) + r0.dy) = _
      rw [zero_add, zero_add]
    rw [e0] at htr
    exact htr

/-- C12 (as stated, refuted): with `coef = 65535` and the recorded vector `(100, 50)`,
`cursor_glide_start` (`v0 = 28621`) emits `(-14, -7)`; the next step (`t = 2`) has
`p = -73828`, `x = -257`, `y = -128`, and the differences `-243` and `-121` are reported as
`dx = 13` (cut to 8 bits) and `dy = -121`. The cumulative displacement is then
`(-1, -128)` and `|X*dy0 - Y*dx0| = 12750` is not below `|dx0| + |dy0| = 150`. -/
theorem glide_direction_counterexample :
    cursor_glide_start default_config 0 steep_diagonal_glide
      = some ({ dx := -14, dy := -7, valid := true }, steep_diagonal_glide_started)
    ∧ (28621 * 2 - Int.tdiv (65535 * 2 * 2) 2 : Int) = -73828
    ∧ Int.tdiv (-73828 * 100) 28621 = -257
    ∧ Int.tdiv (-73828 * 50) 28621 = -128
    ∧ (cursor_glide_check default_config 0 steep_diagonal_glide_started).1
        = { dx := 13, dy := -121, valid := true }
    ∧ glide_emitted default_config (fun _ => 0) { dx := -14, dy := -7, valid := true }
        steep_diagonal_glide_started 1 = (-1, -128)
    ∧ (-1 : Int) * steep_diagonal_glide.status.dy0 - (-128) * steep_diagonal_glide.status.dx0
        = 12750
    ∧ ¬ (|(glide_emitted default_config (fun _ => 0) { dx := -14, dy := -7, valid := true }
              steep_diagonal_glide_started 1).1 * steep_diagonal_glide.status.dy0
            - (glide_emitted default_config (fun _ => 0) { dx := -14, dy := -7, valid := true }
              steep_diagonal_glide_started 1).2 * steep_diagonal_glide.status.dx0|
          < |steep_diagonal_glide.status.dx0| + |steep_diagonal_glide.status.dy0|) := by
  refine ⟨by decide, by decide, by decide, by decide, by decide, by decide, by decide, by decide⟩

/-- C12 (amended): for 8-bit reports, `coef` in 64..511 and any nonzero recorded vector
in the 8-bit range, `cursor_glide_start` returns, and after the start sample and after
each further `cursor_glide_check` call (whatever the clock reads) the cumulative emitted
displacement `(X, Y)` satisfies `|X*dy0 - Y*dx0| < |dx0| + |dy0|`; a glide with `dy0 = 0`
never emits a nonzero `dy` and one with `dx0 = 0` never emits a nonzero `dx`. -/
theorem glide_direction_preserved (cfg : Config) (h8 : cfg.MOUSE_EXTENDED_REPORT = false)
    (now : Nat) (nows : Nat → Nat) (glide : cursor_glide_context_t)
    (hc : 64 ≤ glide.config.coef ∧ glide.config.coef ≤ 511)
    (hx : -128 ≤ glide.status.dx0 ∧ glide.status.dx0 ≤ 127)
    (hy : -128 ≤ glide.status.dy0 ∧ glide.status.dy0 ≤ 127)
    (hvec : ¬ (glide.status.dx0 = 0 ∧ glide.status.dy0 = 0)) :
    ∃ (r0 : cursor_glide_t) (g0 : cursor_glide_context_t),
      cursor_glide_start cfg now glide = some (r0, g0)
      ∧ ∀ n,
        |(glide_emitted cfg nows r0 g0 n).1 * glide.status.dy0
            - (glide_emitted cfg nows r0 g0 n).2 * glide.status.dx0|
          < |glide.status.dx0| + |glide.status.dy0|
        ∧ (glide.status.dy0 = 0 → r0.dy = 0
            ∧ (cursor_glide_check cfg (nows n) (glide_checks cfg nows g0 n)).1.dy = 0)
        ∧ (glide.status.dx0 = 0 → r0.dx = 0
            ∧ (cursor_glide_check cfg (nows n) (glide_checks cfg nows g0 n)).1.dx = 0) := by
  obtain ⟨v, r0, g0, hs, b1, b2, b3, b4, h0⟩ :=
    cursor_glide_start_tracking cfg h8 now glide hc hx hy hvec
  have htr := glide_emitted_tracking cfg h8 nows glide.config v glide.status.dx0
    glide.status.dy0 r0 g0 hc ⟨b1, b2⟩ hx hy b3 b4 hvec h0
  refine ⟨r0, g0, hs, fun n => ?_⟩
  obtain ⟨⟨p, hp⟩, _⟩ := htr n
  obtain ⟨⟨q, hq⟩, _⟩ := htr (n + 1)
  obtain ⟨⟨p0, hp0⟩, _⟩ := htr 0
  have hv0 : (0 : Int) < v := by omega
  have hstep : glide_emitted cfg nows r0 g0 (n + 1)
      = ((glide_emitted cfg nows r0 g0 n).1
          + (cursor_glide_check cfg (nows n) (glide_checks cfg nows g0 n)).1.dx,
        (glide_emitted cfg nows r0 g0 n).2
          + (cursor_glide_check cfg (nows n) (glide_checks cfg nows g0 n)).1.dy) := rfl
  have hzero : glide_emitted cfg nows r0 g0 0 = (r0.dx, r0.dy) := rfl
  refine ⟨?_, ?_, ?_⟩
  · rw [hp]
    exact projection_proportional p _ _ v hv0 hvec
  · intro hb0
    have z : ∀ w : Int, Int.tdiv (w * glide.status.dy0) v = 0 := by
      intro w
      rw [hb0, mul_zero, Int.zero_tdiv]
    have e0 : r0.dy = 0 := by
      have := congrArg Prod.snd (hzero.symm.trans hp0)
      exact this.trans (z p0)
    have en : (glide_emitted cfg nows r0 g0 n).2 = 0 := (congrArg Prod.snd hp).trans (z p)
    have en1 := (congrArg Prod.snd (hstep.symm.trans hq)).trans (z q)
    refine ⟨e0, ?_⟩
    have : (glide_emitted cfg nows r0 g0 n).2
        + (cursor_glide_check cfg (nows n) (glide_checks cfg nows g0 n)).1.dy = 0 := en1
    omega
  · intro ha0
    have z : ∀ w : Int, Int.tdiv (w * glide.status.dx0) v = 0 := by
      intro w
      rw [ha0, mul_zero, Int.zero_tdiv]
    have e0 : r0.dx = 0 := by
      have := congrArg Prod.fst (hzero.symm.trans hp0)
      exact this.trans (z p0)
    have en : (glide_emitted cfg nows r0 g0 n).1 = 0 := (congrArg Prod.fst hp).trans (z p)
    have en1 := (congrArg Prod.fst (hstep.symm.trans hq)).trans (z q)
    refine ⟨e0, ?_⟩
    have : (glide_emitted cfg nows r0 g0 n).1
        + (cursor_glide_check cfg (nows n) (glide_checks cfg nows g0 n)).1.dx = 0 := en1
    omega

/-- Witness of C12 (amended): `coef = 102` and the vectors `(3, -9)`, `(7, 7)`, `(10, 0)`,
`(0, 10)`, every check made at clock value 0. -/
theorem glide_direction_preserved_witness :
    (∃ (r0 : cursor_glide_t) (g0 : cursor_glide_context_t),
      cursor_glide_start default_config 0 (glide_from 3 (-9)) = some (r0, g0)
      ∧ ∀ n, |(glide_emitted default_config (fun _ => 0) r0 g0 n).1 * (glide_from 3 (-9)).status.dy0
            - (glide_emitted default_config (fun _ => 0) r0 g0 n).2
              * (glide_from 3 (-9)).status.dx0|
          < |(glide_from 3 (-9)).status.dx0| + |(glide_from 3 (-9)).status.dy0|)
    ∧ (∃ (r0 : cursor_glide_t) (g0 : cursor_glide_context_t),
      cursor_glide_start default_config 0 (glide_from 7 7) = some (r0, g0)
      ∧ ∀ n, |(glide_emitted default_config (fun _ => 0) r0 g0 n).1 * (glide_from 7 7).status.dy0
            - (glide_emitted default_config (fun _ => 0) r0 g0 n).2 * (glide_from 7 7).status.dx0|
          < |(glide_from 7 7).status.dx0| + |(glide_from 7 7).status.dy0|)
    ∧ (∃ (r0 : cursor_glide_t) (g0 : cursor_glide_context_t),
      cursor_glide_start default_config 0 (glide_from 10 0) = some (r0, g0)
      ∧ r0.dy = 0
      ∧ ∀ n, (cursor_glide_check default_config 0
          (glide_checks default_config (fun _ => 0) g0 n)).1.dy = 0)
    ∧ (∃ (r0 : cursor_glide_t) (g0 : cursor_glide_context_t),
      cursor_glide_start default_config 0 (glide_from 0 10) = some (r0, g0)
      ∧ r0.dx = 0
      ∧ ∀ n, (cursor_glide_check default_config 0
          (glide_checks default_config (fun _ => 0) g0 n)).1.dx = 0) := by
  refine ⟨?_, ?_, ?_, ?_⟩
  · obtain ⟨r0, g0, hs, h⟩ := glide_direction_preserved default_config rfl 0 (fun _ => 0)
      (glide_from 3 (-9)) (by decide) (by decide) (by decide) (by decide)
    exact ⟨r0, g0, hs, fun n => (h n).1⟩
  · obtain ⟨r0, g0, hs, h⟩ := glide_direction_preserved default_config rfl 0 (fun _ => 0)
      (glide_from 7 7) (by decide) (by decide) (by decide) (by decide)
    exact ⟨r0, g0, hs, fun n => (h n).1⟩
  · obtain ⟨r0, g0, hs, h⟩ := glide_direction_preserved default_config rfl 0 (fun _ => 0)
      (glide_from 10 0) (by decide) (by decide) (by decide) (by decide)
    exact ⟨r0, g0, hs, ((h 0).2.1 rfl).1, fun n => ((h n).2.1 rfl).2⟩
  · obtain ⟨r0, g0, hs, h⟩ := glide_direction_preserved default_config rfl 0 (fun _ => 0)
      (glide_from 0 10) (by decide) (by decide) (by decide) (by decide)
    exact ⟨r0, g0, hs, ((h 0).2.2 rfl).1, fun n => ((h n).2.2 rfl).2⟩

/-! ## Theorems: tap direction, mode toggling and device selection -/

/-- C29 (as the code behaves): on a tie `|x| = |y| != 0` the test `abs(x) > abs(y)` fails
and `get_pointing_mode_direction` takes the vertical branch: `(5, 5)` and `(-5, 5)` give
`PD_DOWN`, `(5, -5)` and `(-5, -5)` give `PD_UP`, never `PD_RIGHT` or `PD_LEFT`. Off
the tie the axis of larger magnitude is taken: `(6, 5)` gives `PD_RIGHT`. -/
theorem tie_takes_vertical_axis :
    get_pointing_mode_direction (motion 5 5) = PD_DOWN
    ∧ get_pointing_mode_direction (motion (-5) 5) = PD_DOWN
    ∧ get_pointing_mode_direction (motion 5 (-5)) = PD_UP
    ∧ get_pointing_mode_direction (motion (-5) (-5)) = PD_UP
    ∧ get_pointing_mode_direction (motion 6 5) = PD_RIGHT
    ∧ get_pointing_mode_direction (motion (-6) 5) = PD_LEFT
    ∧ PD_DOWN ≠ PD_RIGHT ∧ PD_DOWN ≠ PD_LEFT ∧ PD_UP ≠ PD_RIGHT ∧ PD_UP ≠ PD_LEFT := by
  decide

theorem getD_set_self (l : List Nat) (i v : Nat) (h : i < l.length) :
    (l.set i v).getD i 0 = v := by
  rw [List.getD_eq_getElem?_getD, List.getElem?_set_self h]
  rfl

/-- C24 (as stated, refuted): from a state whose toggled mode is `PM_DRAG`, calling
`pointing_mode_toggle_mode(PM_CARET)` twice leaves the toggled mode at
`POINTING_MODE_DEFAULT` (`PM_NONE`), not at `PM_DRAG`. -/
theorem toggle_twice_counterexample :
    pointing_mode_get_toggled_mode drag_toggled_state = PM_DRAG
    ∧ pointing_mode_get_toggled_mode
        (pointing_mode_toggle_mode default_config drag_toggled_state PM_CARET) = PM_CARET
    ∧ pointing_mode_get_toggled_mode
        (pointing_mode_toggle_mode default_config
          (pointing_mode_toggle_mode default_config drag_toggled_state PM_CARET) PM_CARET)
        = PM_NONE
    ∧ PM_NONE ≠ PM_DRAG := by
  decide

/-- C24 (amended): for every mode id `M` (a `uint8_t`) and every starting state whose
toggled mode of the current device is `M` or `POINTING_MODE_DEFAULT`, calling
`pointing_mode_toggle_mode(M)` twice restores the toggled mode to the value it had before
the two calls; from any other toggled mode the two calls leave
`POINTING_MODE_DEFAULT`, and neither call changes the active mode. -/
theorem toggle_twice (cfg : Config) (s : ModeState) (mode_id : Nat)
    (hidx : s.current_device < s.toggle_mode_id.length)
    (hm : mode_id ≤ 255) :
    (pointing_mode_get_toggled_mode s = mode_id
        ∨ pointing_mode_get_toggled_mode s = to_u8 cfg.POINTING_MODE_DEFAULT →
      pointing_mode_get_toggled_mode
          (pointing_mode_toggle_mode cfg (pointing_mode_toggle_mode cfg s mode_id) mode_id)
        = pointing_mode_get_toggled_mode s)
    ∧ (pointing_mode_get_toggled_mode s ≠ mode_id →
      pointing_mode_get_toggled_mode
          (pointing_mode_toggle_mode cfg (pointing_mode_toggle_mode cfg s mode_id) mode_id)
        = to_u8 cfg.POINTING_MODE_DEFAULT)
    ∧ pointing_mode_get_mode (pointing_mode_toggle_mode cfg s mode_id) = pointing_mode_get_mode s
    ∧ pointing_mode_get_mode
        (pointing_mode_toggle_mode cfg (pointing_mode_toggle_mode cfg s mode_id) mode_id)
      = pointing_mode_get_mode s := by
  have hu : to_u8 mode_id = mode_id := by unfold to_u8; omega
  have step : ∀ t : ModeState, t.current_device < t.toggle_mode_id.length →
      (pointing_mode_toggle_mode cfg t mode_id).current_device = t.current_device
      ∧ (pointing_mode_toggle_mode cfg t mode_id).toggle_mode_id.length = t.toggle_mode_id.length
      ∧ pointing_mode_get_mode (pointing_mode_toggle_mode cfg t mode_id) = pointing_mode_get_mode t
      ∧ (pointing_mode_get_toggled_mode t = mode_id →
          pointing_mode_get_toggled_mode (pointing_mode_toggle_mode cfg t mode_id)
            = to_u8 cfg.POINTING_MODE_DEFAULT)
      ∧ (pointing_mode_get_toggled_mode t ≠ mode_id →
          pointing_mode_get_toggled_mode (pointing_mode_toggle_mode cfg t mode_id) = mode_id) := by
    intro t ht
    unfold pointing_mode_toggle_mode
    dsimp only
    rw [hu]
    by_cases hc : pointing_mode_get_toggled_mode t = mode_id
    · rw [if_pos hc]
      refine ⟨rfl, List.length_set _ _ _, rfl, fun _ => ?_, fun h => absurd hc h⟩
      exact getD_set_self _ _ _ ht
    · rw [if_neg hc]
      refine ⟨rfl, List.length_set _ _ _, rfl, fun h => absurd h hc, fun _ => ?_⟩
      exact getD_set_self _ _ _ ht
  obtain ⟨c1, l1, m1, a1, b1⟩ := step s hidx
  obtain ⟨c2, l2, m2, a2, b2⟩ := step (pointing_mode_toggle_mode cfg s mode_id)
    (by rw [c1, l1]; exact hidx)
  refine ⟨?_, ?_, m1, m2.trans m1⟩
  · rintro (h | h)
    · by_cases hd : to_u8 cfg.POINTING_MODE_DEFAULT = mode_id
      · rw [a2 ((a1 h).trans hd), h, hd]
      · rw [b2 (by rw [a1 h]; exact hd), h]
    · by_cases hd : pointing_mode_get_toggled_mode s = mode_id
      · by_cases hd2 : to_u8 cfg.POINTING_MODE_DEFAULT = mode_id
        · rw [a2 ((a1 hd).trans hd2), h]
        · rw [b2 (by rw [a1 hd]; exact hd2), hd]
      · rw [a2 (b1 hd), h]
  · intro hd
    exact a2 (b1 hd)

/-- Witness of C24 (amended): the initial state (toggled mode `PM_NONE`) and `M = PM_CARET`. -/
theorem toggle_twice_witness :
    pointing_mode_get_toggled_mode
        (pointing_mode_toggle_mode default_config
          (pointing_mode_toggle_mode default_config (ModeState.init default_config) PM_CARET)
          PM_CARET)
      = pointing_mode_get_toggled_mode (ModeState.init default_config) :=
  (toggle_twice default_config (ModeState.init default_config) PM_CARET (by decide)
    (by decide)).1 (Or.inr (by decide))

theorem tap_body_literal (cfg : Config) (s : ModeState) (pm_keycodes : List Keycode)
    (size map_id dir : Nat) (hsize : size ≠ 0) :
    tap_body cfg s pm_keycodes size map_id dir
      = { s with events := (s.events
            ++ [.tap_code16_delay (pm_keycodes.getD dir .KC_NO) cfg.POINTING_MODE_TAP_DELAY]) } := by
  unfold tap_body
  rw [if_pos hsize]
  rfl

theorem tap_loop_literal (cfg : Config) (pm_keycodes : List Keycode) (size map_id dir : Nat)
    (hsize : size ≠ 0) :
    ∀ (fuel taps : Nat) (s : ModeState), 1 ≤ taps → taps ≤ 255 → taps ≤ fuel →
      tap_loop cfg pm_keycodes size map_id dir fuel taps s
        = { s with events := (s.events ++ List.replicate taps
              (.tap_code16_delay (pm_keycodes.getD dir .KC_NO) cfg.POINTING_MODE_TAP_DELAY)) } := by
  intro fuel
  induction fuel with
  | zero =>
    intro taps s h1 _ h3
    omega
  | succ fuel ih =>
    intro taps s h1 h2 h3
    have hdec : to_u8 (taps + 255) = taps - 1 := by unfold to_u8; omega
    unfold tap_loop
    dsimp only
    rw [hdec, tap_body_literal cfg s pm_keycodes size map_id dir hsize]
    by_cases hone : taps - 1 ≠ 0
    · rw [if_pos hone, ih (taps - 1) _ (by omega) (by omega) (by omega)]
      have e : taps = (taps - 1) + 1 := by omega
      conv_rhs => rw [e, List.replicate_succ]
      simp only [List.append_assoc, List.singleton_append]
    · rw [if_neg hone]
      have e : taps = 1 := by omega
      rw [e]
      rfl

theorem tap_count_of_quotient (count : Int) (hlo : -32768 ≤ count) (hhi : count ≤ 32767) :
    to_u8 (clamp_uint_16_to_8 (to_u16 (c_abs count).toNat)) = min count.natAbs 255 := by
  have habs : c_abs count = (count.natAbs : Int) := by
    unfold c_abs wrap32
    split <;> omega
  rw [habs, Int.toNat_ofNat]
  unfold clamp_uint_16_to_8 to_u16 to_u8
  dsimp only
  have hn : count.natAbs ≤ 32768 := by omega
  generalize count.natAbs = n at hn
  have e : n % 65536 % 65536 = n := by omega
  rw [e]
  split <;> omega

theorem divisor_divide16_range (s : ModeState) (value : Int) :
    -32768 ≤ divisor_divide16 s value ∧ divisor_divide16 s value ≤ 32767 := by
  unfold divisor_divide16 wrap16
  dsimp only
  omega

theorem tap_codes_emit_literal (cfg : Config) (s : ModeState) (pm_keycodes : List Keycode)
    (size map_id dir : Nat) (count : Int) (hsize : size ≠ 0)
    (hlo : -32768 ≤ count) (hhi : count ≤ 32767) (hne : count ≠ 0) :
    tap_codes_emit cfg s pm_keycodes size map_id dir count
      = { s with events := (s.events ++ List.replicate (min count.natAbs 255)
            (.tap_code16_delay (pm_keycodes.getD dir .KC_NO) cfg.POINTING_MODE_TAP_DELAY)) } := by
  unfold tap_codes_emit
  dsimp only
  rw [tap_count_of_quotient count hlo hhi]
  exact tap_loop_literal cfg pm_keycodes size map_id dir hsize 256 _ s (by omega) (by omega)
    (by omega)

theorem get_pointing_mode_direction_le (mouse_report : report_mouse_t) :
    get_pointing_mode_direction mouse_report ≤ PD_RIGHT := by
  unfold get_pointing_mode_direction
  split_ifs <;> decide

theorem tap_codes_emit_events (cfg : Config) (s : ModeState) (pm_keycodes : List Keycode)
    (size map_id dir : Nat) (count : Int) (hsize : size ≠ 0)
    (hlo : -32768 ≤ count) (hhi : count ≤ 32767) (hne : count ≠ 0) :
    (tap_codes_emit cfg s pm_keycodes size map_id dir count).events
      = s.events ++ List.replicate (min count.natAbs 255)
          (.tap_code16_delay (pm_keycodes.getD dir .KC_NO) cfg.POINTING_MODE_TAP_DELAY) := by
  rw [tap_codes_emit_literal cfg s pm_keycodes size map_id dir count hsize hlo hhi hne]

theorem wrap16_range (n : Int) : -32768 ≤ wrap16 n ∧ wrap16 n ≤ 32767 := by
  unfold wrap16
  omega

theorem pointing_tap_keycodes_raw_events (cfg : Config) (s : ModeState)
    (mouse_report : report_mouse_t) (pm_keycodes : List Keycode) (size map_id : Nat)
    (hsize : size ≠ 0) (hdir : get_pointing_mode_direction mouse_report ≤ size) :
    (pointing_tap_keycodes_raw cfg s mouse_report pm_keycodes size map_id).events
      = s.events ++ List.replicate (min (pointing_tap_quotient s mouse_report).natAbs 255)
          (.tap_code16_delay
            (pm_keycodes.getD (get_pointing_mode_direction mouse_report) .KC_NO)
            cfg.POINTING_MODE_TAP_DELAY) := by
  have hle := get_pointing_mode_direction_le mouse_report
  unfold pointing_tap_keycodes_raw pointing_tap_quotient divisor_divide16
  dsimp only
  rw [if_neg (by omega)]
  generalize get_pointing_mode_direction mouse_report = dir at hle hdir ⊢
  generalize hs1 : (if s.last_mode ≠ pointing_mode_get_mode s then
      ({ s with leftover_x := 0, leftover_y := 0 } : ModeState) else s) = s1
  have he1 : s1.events = s.events := by
    rw [← hs1]
    split <;> rfl
  rw [← he1]
  by_cases hv : PD_DOWN ≤ dir ∧ dir ≤ PD_UP
  · rw [if_pos hv, if_pos hv]
    obtain ⟨hlo, hhi⟩ := wrap16_range
      (Int.tdiv (wrap16 (mouse_report.y + s1.leftover_y)) (s1.current_divisor : Int))
    generalize wrap16 (Int.tdiv (wrap16 (mouse_report.y + s1.leftover_y))
      (s1.current_divisor : Int)) = q at hlo hhi ⊢
    by_cases hq : q = 0
    · rw [if_pos hq, hq]
      show s1.events = s1.events ++ []
      rw [List.append_nil]
    · rw [if_neg hq, tap_codes_emit_events cfg _ pm_keycodes size map_id dir q hsize hlo hhi hq]
  · have hh : PD_LEFT ≤ dir ∧ dir ≤ PD_RIGHT := by
      refine ⟨?_, hle⟩
      by_contra hc
      apply hv
      have h2 : PD_LEFT = 2 := rfl
      have h1 : PD_UP = 1 := rfl
      have h0 : PD_DOWN = 0 := rfl
      omega
    rw [if_neg hv, if_neg hv, if_pos hh]
    obtain ⟨hlo, hhi⟩ := wrap16_range
      (Int.tdiv (wrap16 (mouse_report.x + s1.leftover_x)) (s1.current_divisor : Int))
    generalize wrap16 (Int.tdiv (wrap16 (mouse_report.x + s1.leftover_x))
      (s1.current_divisor : Int)) = q at hlo hhi ⊢
    by_cases hq : q = 0
    · rw [if_pos hq, hq]
      show s1.events = s1.events ++ []
      rw [List.append_nil]
    · rw [if_neg hq, tap_codes_emit_events cfg _ pm_keycodes size map_id dir q hsize hlo hhi hq]

/-- C21: every call of `pointing_tap_keycodes_raw` with a literal table of size 4 appends
to the log exactly `min(|q|, 255)` calls of `tap_code16_delay` (for the key of the
sample's direction) and nothing else, `q` being the call's quotient: none when `q = 0`,
never more than 255, and when `q != 0` the count handed to the `do ... while (--taps)`
loop is not zero. -/
theorem tap_count (cfg : Config) (s : ModeState) (mouse_report : report_mouse_t)
    (pm_keycodes : List Keycode) (map_id : Nat) :
    (pointing_tap_keycodes_raw cfg s mouse_report pm_keycodes 4 map_id).events
      = s.events ++ List.replicate (min (pointing_tap_quotient s mouse_report).natAbs 255)
          (.tap_code16_delay
            (pm_keycodes.getD (get_pointing_mode_direction mouse_report) .KC_NO)
            cfg.POINTING_MODE_TAP_DELAY)
    ∧ (pointing_tap_quotient s mouse_report = 0 →
        (pointing_tap_keycodes_raw cfg s mouse_report pm_keycodes 4 map_id).events = s.events)
    ∧ min (pointing_tap_quotient s mouse_report).natAbs 255 ≤ 255
    ∧ (pointing_tap_quotient s mouse_report ≠ 0 →
        to_u8 (clamp_uint_16_to_8 (to_u16 (c_abs (pointing_tap_quotient s mouse_report)).toNat))
          ≠ 0) := by
  have hdir : get_pointing_mode_direction mouse_report ≤ 4 :=
    le_trans (get_pointing_mode_direction_le mouse_report) (by decide)
  have hev := pointing_tap_keycodes_raw_events cfg s mouse_report pm_keycodes 4 map_id
    (by decide) hdir
  have hrange : -32768 ≤ pointing_tap_quotient s mouse_report
      ∧ pointing_tap_quotient s mouse_report ≤ 32767 := by
    unfold pointing_tap_quotient
    dsimp only
    split <;> exact divisor_divide16_range _ _
  refine ⟨hev, ?_, Nat.min_le_right _ _, ?_⟩
  · intro hq
    rw [hev, hq]
    show s.events ++ [] = s.events
    rw [List.append_nil]
  · intro hq
    rw [tap_count_of_quotient _ hrange.1 hrange.2]
    have : 1 ≤ (pointing_tap_quotient s mouse_report).natAbs := by omega
    omega

/-- C26 (as stated, refuted): in caret mode (divisor 32) the call
`pointing_mode_tap_codes(report, KC_LEFT, KC_DOWN, KC_UP, KC_RIGHT)` taps `kc_down`
(`KC_DOWN`) for the positive sample `y = 40` and `kc_up` (`KC_UP`) for the negative sample
`y = -40`. -/
theorem tap_codes_key_assignment_counterexample :
    key_events (pointing_mode_tap_codes default_config caret_state_running (motion 0 40)
        .KC_LEFT .KC_DOWN .KC_UP .KC_RIGHT).events
      = [.tap_code16_delay .KC_DOWN 0]
    ∧ key_events (pointing_mode_tap_codes default_config caret_state_running (motion 0 (-40))
        .KC_LEFT .KC_DOWN .KC_UP .KC_RIGHT).events
      = [.tap_code16_delay .KC_UP 0] := by
  decide

/-- C26 (amended): `pointing_mode_tap_codes(report, kc_left, kc_down, kc_up, kc_right)`
appends `min(|q|, 255)` taps of one key and nothing else: when `|x| > |y|`, `kc_left` for
negative `x` and `kc_right` for positive `x`; otherwise `kc_down` for positive `y` and
`kc_up` for negative `y` (screen coordinates: positive `y` is down). -/
theorem tap_codes_key_assignment (cfg : Config) (s : ModeState)
    (mouse_report : report_mouse_t) (kc_left kc_down kc_up kc_right : Keycode) :
    (c_abs mouse_report.x > c_abs mouse_report.y → mouse_report.x < 0 →
      (pointing_mode_tap_codes cfg s mouse_report kc_left kc_down kc_up kc_right).events
        = s.events ++ List.replicate (min (pointing_tap_quotient s mouse_report).natAbs 255)
            (.tap_code16_delay kc_left cfg.POINTING_MODE_TAP_DELAY))
    ∧ (c_abs mouse_report.x > c_abs mouse_report.y → mouse_report.x > 0 →
      (pointing_mode_tap_codes cfg s mouse_report kc_left kc_down kc_up kc_right).events
        = s.events ++ List.replicate (min (pointing_tap_quotient s mouse_report).natAbs 255)
            (.tap_code16_delay kc_right cfg.POINTING_MODE_TAP_DELAY))
    ∧ (¬ (c_abs mouse_report.x > c_abs mouse_report.y) → mouse_report.y > 0 →
      (pointing_mode_tap_codes cfg s mouse_report kc_left kc_down kc_up kc_right).events
        = s.events ++ List.replicate (min (pointing_tap_quotient s mouse_report).natAbs 255)
            (.tap_code16_delay kc_down cfg.POINTING_MODE_TAP_DELAY))
    ∧ (¬ (c_abs mouse_report.x > c_abs mouse_report.y) → mouse_report.y < 0 →
      (pointing_mode_tap_codes cfg s mouse_report kc_left kc_down kc_up kc_right).events
        = s.events ++ List.replicate (min (pointing_tap_quotient s mouse_report).natAbs 255)
            (.tap_code16_delay kc_up cfg.POINTING_MODE_TAP_DELAY)) := by
  have hdir : get_pointing_mode_direction mouse_report ≤ 4 :=
    le_trans (get_pointing_mode_direction_le mouse_report) (by decide)
  have hev := pointing_tap_keycodes_raw_events cfg s mouse_report
    [kc_down, kc_up, kc_left, kc_right] 4 0 (by decide) hdir
  unfold pointing_mode_tap_codes
  rw [hev]
  refine ⟨?_, ?_, ?_, ?_⟩
  · intro h1 h2
    have hd : get_pointing_mode_direction mouse_report = PD_LEFT := by
      unfold get_pointing_mode_direction
      rw [if_neg (by omega), if_pos h1, if_neg (by omega)]
    rw [hd]
    rfl
  · intro h1 h2
    have hd : get_pointing_mode_direction mouse_report = PD_RIGHT := by
      unfold get_pointing_mode_direction
      rw [if_neg (by omega), if_pos h1, if_pos h2]
    rw [hd]
    rfl
  · intro h1 h2
    have hd : get_pointing_mode_direction mouse_report = PD_DOWN := by
      unfold get_pointing_mode_direction
      rw [if_neg (by omega), if_neg h1, if_pos h2]
    rw [hd]
    rfl
  · intro h1 h2
    have hd : get_pointing_mode_direction mouse_report = PD_UP := by
      unfold get_pointing_mode_direction
      rw [if_neg (by omega), if_neg h1, if_neg (by omega)]
    rw [hd]
    rfl

/-- C22 (as the code behaves): with maps enabled, in the map mode `PM_SAFE_RANGE + 2`
(map id 2, divisor 64, no literal table, size 0) a sample `y = 70` (direction DOWN) emits
the press and the release event addressed to `(2, PD_DOWN)`, but the samples `y = -70`
(UP), `x = -70` (LEFT) and `x = 70` (RIGHT) leave `pointing_tap_keycodes_raw` at
`if (dir > size) return;` with the state untouched: no event, no accumulation. -/
theorem map_mode_blocks_directions :
    map_config.POINTING_MODE_MAP_ENABLE = true
    ∧ pointing_mode_get_mode map_state_running > map_config.POINTING_MODE_MAP_START
    ∧ key_events (pointing_tap_keycodes_raw map_config map_state_running (motion 0 70) [] 0 2).events
      = [.action_exec 2 PD_DOWN true, .action_exec 2 PD_DOWN false]
    ∧ get_pointing_mode_direction (motion 0 (-70)) = PD_UP
    ∧ pointing_tap_keycodes_raw map_config map_state_running (motion 0 (-70)) [] 0 2
      = map_state_running
    ∧ get_pointing_mode_direction (motion (-70) 0) = PD_LEFT
    ∧ pointing_tap_keycodes_raw map_config map_state_running (motion (-70) 0) [] 0 2
      = map_state_running
    ∧ get_pointing_mode_direction (motion 70 0) = PD_RIGHT
    ∧ pointing_tap_keycodes_raw map_config map_state_running (motion 70 0) [] 0 2
      = map_state_running
    ∧ key_events (pointing_device_modes_task map_config default_hooks map_state
        (motion 0 70)).2.events
      = [.action_exec 2 PD_DOWN true, .action_exec 2 PD_DOWN false]
    ∧ key_events (pointing_device_modes_task map_config default_hooks map_state
        (motion 0 (-70))).2.events = []
    ∧ key_events (pointing_device_modes_task map_config default_hooks map_state
        (motion (-70) 0)).2.events = []
    ∧ key_events (pointing_device_modes_task map_config default_hooks map_state
        (motion 70 0)).2.events = [] := by
  decide

/-- C23 (as stated, refuted): caret mode gathers `leftover_y = 20` (no tap); the mode is
switched to `PM_DRAG`, one sample is processed there, and the mode is switched back to
`PM_CARET`. The leftover is still 20 (`last_mode` is still `PM_CARET`), and the next
sample `y = 20` emits a down-tap, while the same call with both leftovers zero emits
none. -/
theorem leftover_survives_detour :
    caret_below_threshold.leftover_y = 20
    ∧ key_events caret_below_threshold.events = []
    ∧ pointing_mode_get_mode (pointing_mode_set_mode caret_below_threshold PM_DRAG) = PM_DRAG
    ∧ pointing_mode_get_mode caret_after_drag_detour = PM_CARET
    ∧ caret_after_drag_detour.last_mode = PM_CARET
    ∧ caret_after_drag_detour.leftover_y = 20
    ∧ key_events caret_after_drag_detour.events = []
    ∧ key_events (pointing_device_modes_task default_config default_hooks
        caret_after_drag_detour (motion 0 20)).2.events = [.tap_code16_delay .KC_DOWN 0]
    ∧ key_events (pointing_device_modes_task default_config default_hooks
        { caret_after_drag_detour with leftover_x := 0, leftover_y := 0 }
        (motion 0 20)).2.events = [] := by
  decide

/-- C23 (amended): whenever the active mode differs from `last_mode`, the mode recorded
by the previous accumulating call of `pointing_tap_keycodes_raw`, the call starts from
zero on both axes: its quotient is that of the same call made with
`leftover_x = leftover_y = 0`, and whenever the call gets past the direction check
(always with a literal table of size 4) its taps and the whole resulting state, leftovers
included, are those of that call. -/
theorem leftover_reset_on_mode_change (cfg : Config) (s : ModeState)
    (mouse_report : report_mouse_t) (pm_keycodes : List Keycode) (size map_id : Nat)
    (hchg : s.last_mode ≠ pointing_mode_get_mode s) :
    pointing_tap_quotient s mouse_report
      = pointing_tap_quotient { s with leftover_x := 0, leftover_y := 0 } mouse_report
    ∧ (get_pointing_mode_direction mouse_report ≤ size →
        pointing_tap_keycodes_raw cfg s mouse_report pm_keycodes size map_id
          = pointing_tap_keycodes_raw cfg { s with leftover_x := 0, leftover_y := 0 }
              mouse_report pm_keycodes size map_id) := by
  have hchg' : ({ s with leftover_x := 0, leftover_y := 0 } : ModeState).last_mode
      ≠ pointing_mode_get_mode ({ s with leftover_x := 0, leftover_y := 0 } : ModeState) := hchg
  constructor
  · unfold pointing_tap_quotient
    dsimp only
    rw [if_pos hchg, if_pos hchg']
  · intro hdir
    have hnot : ¬ get_pointing_mode_direction mouse_report > size := by omega
    have e : pointing_mode_get_mode ({ s with leftover_x := 0, leftover_y := 0 } : ModeState)
        = pointing_mode_get_mode s := rfl
    unfold pointing_tap_keycodes_raw
    dsimp only
    rw [if_neg hnot, if_neg hnot, e, if_pos hchg, if_pos hchg]

/-- Witness of C23 (amended): caret mode entered from the initial state (`last_mode` is
`PM_NONE`) with stale leftovers 20 and -7, sample `y = 40`. -/
theorem leftover_reset_on_mode_change_witness :
    pointing_tap_quotient { caret_state with leftover_x := -7, leftover_y := 20 } (motion 0 40)
      = pointing_tap_quotient
          { ({ caret_state with leftover_x := -7, leftover_y := 20 } : ModeState) with
            leftover_x := 0, leftover_y := 0 } (motion 0 40)
    ∧ pointing_tap_keycodes_raw default_config
          { caret_state with leftover_x := -7, leftover_y := 20 } (motion 0 40)
          caret_keycodes 4 0
        = pointing_tap_keycodes_raw default_config
            { ({ caret_state with leftover_x := -7, leftover_y := 20 } : ModeState) with
              leftover_x := 0, leftover_y := 0 } (motion 0 40) caret_keycodes 4 0 :=
  ⟨(leftover_reset_on_mode_change default_config
      { caret_state with leftover_x := -7, leftover_y := 20 } (motion 0 40) caret_keycodes 4 0
      (by decide)).1,
    (leftover_reset_on_mode_change default_config
      { caret_state with leftover_x := -7, leftover_y := 20 } (motion 0 40) caret_keycodes 4 0
      (by decide)).2 (by decide)⟩

/-! ## Theorems: the bracket of the integer square root -/

theorem sqrt32_search_safe_spec (x : Nat) :
    ∀ (f l h : Nat), l < h → h ≤ 65535 → h - l ≤ 2 ^ f →
      sqrt32_search_safe x (f + 1) l h = true := by
  intro f
  induction f with
  | zero =>
    intro l h hlh hh hw
    have hl : h = l + 1 := by
      simp only [pow_zero] at hw
      omega
    subst hl
    have e : to_u32 (l + 1 + 4294967295) = l := by unfold to_u32; omega
    unfold sqrt32_search_safe
    rw [e]
    simp
  | succ f ih =>
    intro l h hlh hh hw
    by_cases hl : h = l + 1
    · subst hl
      have e : to_u32 (l + 1 + 4294967295) = l := by unfold to_u32; omega
      unfold sqrt32_search_safe
      rw [e]
      simp
    · have hpow : 2 ^ (f + 1) = 2 * 2 ^ f := by rw [pow_succ]; omega
      have hm1 : to_u32 (l + h) / 2 = (l + h) / 2 := by rw [to_u32_of_lt _ (by omega)]
      have hml : l < (l + h) / 2 := by omega
      have hmh : (l + h) / 2 < h := by omega
      have hsq : (l + h) / 2 * ((l + h) / 2) < 4294967296 := square_lt_u32 _ (by omega)
      have hmm : to_u32 ((l + h) / 2 * ((l + h) / 2)) = (l + h) / 2 * ((l + h) / 2) :=
        to_u32_of_lt _ hsq
      have hne : l ≠ to_u32 (h + 4294967295) := by unfold to_u32; omega
      unfold sqrt32_search_safe
      rw [if_pos hne]
      dsimp only
      rw [hm1, hmm, decide_eq_true hlh, decide_eq_true hsq]
      by_cases hle : (l + h) / 2 * ((l + h) / 2) ≤ x
      · rw [if_pos hle, ih ((l + h) / 2) h hmh hh (by omega)]
        rfl
      · rw [if_neg hle, ih l ((l + h) / 2) hml (by omega) (by omega)]
        rfl

theorem sqrt32_entry_bracket (x c : Nat) (hc : c ≤ 31) (hb1 : 2 ^ (31 - c) ≤ x)
    (hb2 : x < 2 ^ (31 - c + 1)) :
    ∃ l h, to_u32 (1 <<< ((31 - c) >>> 1)) = l
      ∧ (if x > 65535 >>> 2 then 65535
          else to_u32 (1 <<< (((31 - c + 1) + 1) >>> 1))) = h
      ∧ l < h ∧ h ≤ 65535 := by
  interval_cases c <;>
    norm_num [to_u32, Nat.shiftLeft_eq, Nat.shiftRight_eq_div_pow] at hb1 hb2 ⊢ <;>
    (try split) <;> omega

/-- C28: for every 32-bit unsigned `x`: `sqrt32 0` returns 0 without entering the loop;
for `x != 0` the bracket at loop entry has `l < h`, the run of the binary search keeps
`l < h` at every loop test and `m * m < 2^32` at every midpoint and leaves the loop within
32 passes, and `sqrt32` returns. -/
theorem sqrt32_guard (x : Nat) (hx : x < 4294967296) :
    (x = 0 → sqrt32 x = some 0)
    ∧ (x ≠ 0 →
        (sqrt32_entry x).1 < (sqrt32_entry x).2
        ∧ sqrt32_search_safe x 32 (sqrt32_entry x).1 (sqrt32_entry x).2 = true
        ∧ sqrt32 x = (sqrt32_search x 32 (sqrt32_entry x).1 (sqrt32_entry x).2).map to_u16
        ∧ ∃ r, sqrt32 x = some r) := by
  constructor
  · intro h0
    rw [h0]
    rfl
  · intro hne
    have h0 : 0 < x := by omega
    obtain ⟨hc, hb1, hb2⟩ := clz_from_spec 32 x h0 (by norm_num; omega)
    have e1 : 32 - 1 - clz_from 32 x = 31 - clz_from 32 x := by omega
    have e2 : 32 - clz_from 32 x = 31 - clz_from 32 x + 1 := by omega
    rw [e1] at hb1
    rw [e2] at hb2
    obtain ⟨l, h, hl, hh, hlh, hh2⟩ :=
      sqrt32_entry_bracket x (clz_from 32 x) (by omega) hb1 hb2
    have hone : clz_from 32 1 = 31 := by decide
    have hentry : sqrt32_entry x = (l, h) := by
      unfold sqrt32_entry builtin_clzl
      dsimp only
      rw [to_u32_of_lt x hx, hone, hl, hh]
    have hsq : sqrt32 x = (sqrt32_search x 32 l h).map to_u16 := by
      unfold sqrt32 builtin_clzl
      dsimp only
      rw [to_u32_of_lt x hx, if_neg hne, hone, hl, hh]
    have hpow : h - l ≤ 2 ^ 31 := by
      have : (2 : Nat) ^ 31 = 2147483648 := by norm_num
      omega
    obtain ⟨r, hr, _⟩ := sqrt32_search_spec x 31 l h hlh hh2 hpow
    rw [hentry]
    refine ⟨hlh, sqrt32_search_safe_spec x 31 l h hlh hh2 hpow, hsq, ?_⟩
    rw [hsq, hr]
    exact ⟨to_u16 r, rfl⟩

/-- Witness of C28: `x = 2^32 - 1`, the largest input (the clamped upper bound 65535). -/
theorem sqrt32_guard_witness :
    (sqrt32_entry 4294967295).1 < (sqrt32_entry 4294967295).2
    ∧ sqrt32_search_safe 4294967295 32 (sqrt32_entry 4294967295).1 (sqrt32_entry 4294967295).2
        = true
    ∧ sqrt32 4294967295
        = (sqrt32_search 4294967295 32 (sqrt32_entry 4294967295).1
            (sqrt32_entry 4294967295).2).map to_u16
    ∧ ∃ r, sqrt32 4294967295 = some r :=
  (sqrt32_guard 4294967295 (by decide)).2 (by decide)

/-! ## Theorems: the deltas of a glide -/

theorem glide_running_fits (conf : cursor_glide_config_t) (v : Nat) (a b : Int) (t : Nat)
    (glide : cursor_glide_context_t) (u : Int) (hu : u = (conf.coef : Int) * t)
    (hc : 64 ≤ conf.coef ∧ conf.coef ≤ 511) (hv : 256 ≤ v ∧ v ≤ 46340)
    (ha8 : -128 ≤ a ∧ a ≤ 127) (hb8 : -128 ≤ b ∧ b ≤ 127)
    (hav : 256 * |a| ≤ v) (hbv : 256 * |b| ≤ v)
    (hrun : glide_running conf v a b t glide)
    (hJ : 2 * u + 513 ≤ 2 * (v : Int) + conf.coef)
    (hP : 0 ≤ glide_p v conf.coef t) :
    glide_step_fits glide (t + 1)
    ∧ to_u16 (glide.status.counter + 1) = t + 1
    ∧ glide.status.v0 ≠ 0
    ∧ (-128 ≤ Int.tdiv (glide_p v conf.coef (t + 1) * a) v - glide.status.x
        ∧ Int.tdiv (glide_p v conf.coef (t + 1) * a) v - glide.status.x ≤ 127)
    ∧ (-128 ≤ Int.tdiv (glide_p v conf.coef (t + 1) * b) v - glide.status.y
        ∧ Int.tdiv (glide_p v conf.coef (t + 1) * b) v - glide.status.y ≤ 127) := by
  have ha : |a| ≤ 128 := abs_le.mpr ⟨by omega, by omega⟩
  have hb : |b| ≤ 128 := abs_le.mpr ⟨by omega, by omega⟩
  obtain ⟨r1, r2, r3, r4, r5, r6, r7, r8⟩ := hrun
  have hcI : (64 : Int) ≤ conf.coef ∧ (conf.coef : Int) ≤ 511 := by omega
  have hvI : (256 : Int) ≤ v ∧ (v : Int) ≤ 46340 := by omega
  have ht0 : (0 : Int) ≤ t := by positivity
  have hu0 : 0 ≤ u := by rw [hu]; positivity
  have htb : (t : Int) ≤ 724 := by
    have h64 : 64 * (t : Int) ≤ (conf.coef : Int) * t := mul_le_mul_of_nonneg_right hcI.1 ht0
    rw [← hu] at h64
    omega
  have htn : t ≤ 724 := by exact_mod_cast htb
  have ht1 : ((t + 1 : Nat) : Int) ≤ 725 := by push_cast; omega
  have ht1' : (0 : Int) ≤ ((t + 1 : Nat) : Int) := by positivity
  obtain ⟨d1, d2⟩ := glide_p_delta v conf.coef t u hu
  have hPlo : -255 ≤ glide_p v conf.coef (t + 1) := by omega
  have hPhi : glide_p v conf.coef (t + 1) ≤ 16776532 := by
    rcases le_total (glide_p v conf.coef (t + 1)) 0 with h0 | h0
    · omega
    · have hup := glide_p_upper v conf.coef (t + 1)
      have hvv : (v : Int) * v ≤ 46340 * 46340 := mul_le_mul hvI.2 hvI.2 (by omega) (by decide)
      have h128 : 128 * glide_p v conf.coef (t + 1)
          ≤ 2 * (conf.coef : Int) * glide_p v conf.coef (t + 1) :=
        mul_le_mul_of_nonneg_right (by omega) h0
      omega
  have hPabs : |glide_p v conf.coef (t + 1)| ≤ 16776532 := abs_le.mpr ⟨by omega, hPhi⟩
  have hPa := abs_le.mp (abs_mul_le_of_le _ a _ _ hPabs ha)
  have hPb := abs_le.mp (abs_mul_le_of_le _ b _ _ hPabs hb)
  have hXn := tdiv_scaled_bounds (glide_p v conf.coef (t + 1) * a) v hvI.1 (by omega)
  have hYn := tdiv_scaled_bounds (glide_p v conf.coef (t + 1) * b) v hvI.1 (by omega)
  have hvt : (0 : Int) ≤ (v : Int) * ((t + 1 : Nat) : Int)
      ∧ (v : Int) * ((t + 1 : Nat) : Int) ≤ 46340 * 725 :=
    ⟨by positivity, mul_le_mul hvI.2 ht1 ht1' (by decide)⟩
  have hct : (0 : Int) ≤ (conf.coef : Int) * ((t + 1 : Nat) : Int)
      ∧ (conf.coef : Int) * ((t + 1 : Nat) : Int) ≤ 511 * 725 :=
    ⟨by positivity, mul_le_mul hcI.2 ht1 ht1' (by decide)⟩
  have hctt : (0 : Int) ≤ (conf.coef : Int) * ((t + 1 : Nat) : Int) * ((t + 1 : Nat) : Int)
      ∧ (conf.coef : Int) * ((t + 1 : Nat) : Int) * ((t + 1 : Nat) : Int) ≤ 511 * 725 * 725 :=
    ⟨by positivity, mul_le_mul hct.2 ht1 ht1' (by decide)⟩
  have hfit : glide_step_fits glide (t + 1) := by
    unfold glide_step_fits
    rw [r1, r2, r3, r4]
    change in_int32 _ ∧ in_int32 _ ∧ in_int32 _ ∧ in_int32 (glide_p v conf.coef (t + 1))
      ∧ in_int32 (glide_p v conf.coef (t + 1) * a) ∧ in_int32 (glide_p v conf.coef (t + 1) * b)
      ∧ in_int32 (Int.tdiv (glide_p v conf.coef (t + 1) * a) v)
      ∧ in_int32 (Int.tdiv (glide_p v conf.coef (t + 1) * b) v)
    unfold in_int32
    refine ⟨⟨?_, ?_⟩, ⟨?_, ?_⟩, ⟨?_, ?_⟩, ⟨?_, ?_⟩, ⟨?_, ?_⟩, ⟨?_, ?_⟩, ⟨?_, ?_⟩, ⟨?_, ?_⟩⟩ <;> omega
  have hcnt : to_u16 (glide.status.counter + 1) = t + 1 := by
    rw [r6]
    unfold to_u16
    omega
  have hne : glide.status.v0 ≠ 0 := by rw [r2]; omega
  have dxfit := glide_delta_fits v a (glide_p v conf.coef t) (glide_p v conf.coef (t + 1))
    hvI.1 ha8 hav (by omega) (by omega)
  have dyfit := glide_delta_fits v b (glide_p v conf.coef t) (glide_p v conf.coef (t + 1))
    hvI.1 hb8 hbv (by omega) (by omega)
  rw [r7, r8]
  exact ⟨hfit, hcnt, hne, dxfit, dyfit⟩

theorem saturate_mouse_xy_of_range (cfg : Config) (h8 : cfg.MOUSE_EXTENDED_REPORT = false)
    (n : Int) (hn : -128 ≤ n ∧ n ≤ 127) :
    saturate_mouse_xy cfg n = n ∧ to_mouse_xy cfg n = n ∧ in_mouse_xy cfg n := by
  unfold saturate_mouse_xy to_mouse_xy in_mouse_xy
  rw [h8]
  refine ⟨?_, wrap8_of_range n hn.1 hn.2, hn⟩
  simp only [Bool.false_eq_true, if_false]
  rw [if_neg (by omega), if_neg (by omega)]

theorem glide_tick_exact (cfg : Config) (h8 : cfg.MOUSE_EXTENDED_REPORT = false) (now : Nat)
    (conf : cursor_glide_config_t) (v : Nat) (a b : Int) (t : Nat)
    (glide : cursor_glide_context_t)
    (hc : 64 ≤ conf.coef ∧ conf.coef ≤ 511) (hv : 256 ≤ v ∧ v ≤ 46340)
    (ha8 : -128 ≤ a ∧ a ≤ 127) (hb8 : -128 ≤ b ∧ b ≤ 127)
    (hav : 256 * |a| ≤ v) (hbv : 256 * |b| ≤ v)
    (hrun : glide_running conf v a b t glide)
    (hJ : 2 * ((conf.coef : Int) * t) + 513 ≤ 2 * (v : Int) + conf.coef)
    (hP : 0 ≤ glide_p v conf.coef t) :
    glide_step_fits glide (glide.status.counter + 1)
    ∧ in_mouse_xy cfg
        (Int.tdiv (glide_p glide.status.v0 glide.config.coef (glide.status.counter + 1)
          * glide.status.dx0) glide.status.v0 - glide.status.x)
    ∧ in_mouse_xy cfg
        (Int.tdiv (glide_p glide.status.v0 glide.config.coef (glide.status.counter + 1)
          * glide.status.dy0) glide.status.v0 - glide.status.y)
    ∧ (cursor_glide cfg now glide).1
      = { dx := saturate_mouse_xy cfg
            (Int.tdiv (glide_p glide.status.v0 glide.config.coef (glide.status.counter + 1)
              * glide.status.dx0) glide.status.v0 - glide.status.x),
          dy := saturate_mouse_xy cfg
            (Int.tdiv (glide_p glide.status.v0 glide.config.coef (glide.status.counter + 1)
              * glide.status.dy0) glide.status.v0 - glide.status.y),
          valid := true } := by
  obtain ⟨hfit, hcnt, hne, dxfit, dyfit⟩ := glide_running_fits conf v a b t glide _ rfl hc hv
    ha8 hb8 hav hbv hrun hJ hP
  obtain ⟨r1, r2, r3, r4, r5, r6, r7, r8⟩ := hrun
  have hex := cursor_glide_exact cfg now glide (t + 1)
    (Int.tdiv (glide_p v conf.coef (t + 1) * a) v) (Int.tdiv (glide_p v conf.coef (t + 1) * b) v)
    hne hcnt hfit (by rw [r1, r2, r3]) (by rw [r1, r2, r4])
    (by unfold in_int32; omega) (by unfold in_int32; omega)
  obtain ⟨sx, mx, ix⟩ := saturate_mouse_xy_of_range cfg h8 _ dxfit
  obtain ⟨sy, my, iy⟩ := saturate_mouse_xy_of_range cfg h8 _ dyfit
  rw [r1, r2, r3, r4, r6, sx, sy]
  refine ⟨hfit, ix, iy, ?_⟩
  rw [hex, mx, my]
  split <;> rfl

/-- C27 (as stated, refuted): with `coef = 65535` and the vector `(100, 0)` the step after
`cursor_glide_start` moves `x` from -27 to -311; the exact difference -284 saturates to
-128, but the reported `dx` is -28 (the difference cast to 8 bits). And with `coef = 0`
and the vector `(127, 0)` the state reached after 519 checks computes
`p * dx0 = 16938752 * 127`, which is outside 32 bits, and stores `x = -65937`. -/
theorem glide_delta_counterexample :
    cursor_glide_start default_config 0 steep_glide
      = some ({ dx := -27, dy := 0, valid := true }, steep_glide_started)
    ∧ Int.tdiv (glide_p steep_glide_started.status.v0 steep_glide_started.config.coef
          (steep_glide_started.status.counter + 1) * steep_glide_started.status.dx0)
        steep_glide_started.status.v0 - steep_glide_started.status.x = -284
    ∧ saturate_mouse_xy default_config (-284) = -128
    ∧ (cursor_glide default_config 0 steep_glide_started).1
        = { dx := -28, dy := 0, valid := true }
    ∧ glide_checks default_config (fun _ => 0) (frictionless_glide 127 1) 519
        = frictionless_glide 127 520
    ∧ glide_p (frictionless_glide 127 520).status.v0 (frictionless_glide 127 520).config.coef
          ((frictionless_glide 127 520).status.counter + 1)
        * (frictionless_glide 127 520).status.dx0 = 16938752 * 127
    ∧ ¬ in_int32 (16938752 * 127)
    ∧ ¬ glide_step_fits (frictionless_glide 127 520)
        ((frictionless_glide 127 520).status.counter + 1)
    ∧ (cursor_glide default_config 0 (frictionless_glide 127 520)).2.status.x = -65937 := by
  refine ⟨by decide, by decide, by decide, by decide, ?_, by decide, by decide, by decide,
    by decide⟩
  exact frictionless_checks_fit 127 (by decide) 519 (by decide) (by decide)

/-- C27 (amended): for 8-bit reports, `coef` in 64..511 and a glide started from a nonzero
vector in the 8-bit range, the start sample and the report of every later
`cursor_glide_check` call is either the invalid report or the valid report of a
`cursor_glide` step in which no 32-bit intermediate wraps, the exact differences between
the new and the previous projected position lie in the range of the report type, and `dx`,
`dy` equal these differences (saturated or not: nothing is cut). -/
theorem glide_deltas_exact (cfg : Config) (h8 : cfg.MOUSE_EXTENDED_REPORT = false)
    (now : Nat) (nows : Nat → Nat) (glide : cursor_glide_context_t)
    (hc : 64 ≤ glide.config.coef ∧ glide.config.coef ≤ 511)
    (hx : -128 ≤ glide.status.dx0 ∧ glide.status.dx0 ≤ 127)
    (hy : -128 ≤ glide.status.dy0 ∧ glide.status.dy0 ≤ 127)
    (hvec : ¬ (glide.status.dx0 = 0 ∧ glide.status.dy0 = 0)) :
    ∃ (r0 : cursor_glide_t) (g0 : cursor_glide_context_t),
      cursor_glide_start cfg now glide = some (r0, g0)
      ∧ (r0 = invalid_report
        ∨ ∃ v : Nat, glide_initial_velocity glide.status.dx0 glide.status.dy0 = some v
          ∧ in_mouse_xy cfg (Int.tdiv (glide_p v glide.config.coef 1 * glide.status.dx0) v)
          ∧ in_mouse_xy cfg (Int.tdiv (glide_p v glide.config.coef 1 * glide.status.dy0) v)
          ∧ r0 = { dx := saturate_mouse_xy cfg
                      (Int.tdiv (glide_p v glide.config.coef 1 * glide.status.dx0) v),
                   dy := saturate_mouse_xy cfg
                      (Int.tdiv (glide_p v glide.config.coef 1 * glide.status.dy0) v),
                   valid := true })
      ∧ ∀ n,
        (cursor_glide_check cfg (nows n) (glide_checks cfg nows g0 n)).1 = invalid_report
        ∨ (glide_step_fits (glide_checks cfg nows g0 n)
              ((glide_checks cfg nows g0 n).status.counter + 1)
          ∧ in_mouse_xy cfg
              (Int.tdiv (glide_p (glide_checks cfg nows g0 n).status.v0
                  (glide_checks cfg nows g0 n).config.coef
                  ((glide_checks cfg nows g0 n).status.counter + 1)
                * (glide_checks cfg nows g0 n).status.dx0)
                (glide_checks cfg nows g0 n).status.v0
              - (glide_checks cfg nows g0 n).status.x)
          ∧ in_mouse_xy cfg
              (Int.tdiv (glide_p (glide_checks cfg nows g0 n).status.v0
                  (glide_checks cfg nows g0 n).config.coef
                  ((glide_checks cfg nows g0 n).status.counter + 1)
                * (glide_checks cfg nows g0 n).status.dy0)
                (glide_checks cfg nows g0 n).status.v0
              - (glide_checks cfg nows g0 n).status.y)
          ∧ (cursor_glide_check cfg (nows n) (glide_checks cfg nows g0 n)).1
            = { dx := saturate_mouse_xy cfg
                  (Int.tdiv (glide_p (glide_checks cfg nows g0 n).status.v0
                      (glide_checks cfg nows g0 n).config.coef
                      ((glide_checks cfg nows g0 n).status.counter + 1)
                    * (glide_checks cfg nows g0 n).status.dx0)
                    (glide_checks cfg nows g0 n).status.v0
                  - (glide_checks cfg nows g0 n).status.x),
                dy := saturate_mouse_xy cfg
                  (Int.tdiv (glide_p (glide_checks cfg nows g0 n).status.v0
                      (glide_checks cfg nows g0 n).config.coef
                      ((glide_checks cfg nows g0 n).status.counter + 1)
                    * (glide_checks cfg nows g0 n).status.dy0)
                    (glide_checks cfg nows g0 n).status.v0
                  - (glide_checks cfg nows g0 n).status.y),
                valid := true }) := by
  obtain ⟨v, hv, h1, h2, h3⟩ := glide_initial_velocity_spec _ _ hx hy
  obtain ⟨b1, b2, b3, b4⟩ := initial_velocity_bounds _ _ v hx hy hvec h1 h2
  clear h1 h2
  have hw : wrap32 (v : Int) = v := wrap32_of_range _ (by omega) (by omega)
  have hstart := cursor_glide_start_eq cfg now glide v hv hw
  -- the later checks
  have hlater : ∀ (r0 : cursor_glide_t) (g0 : cursor_glide_context_t),
      glide_tracking glide.config v glide.status.dx0 glide.status.dy0 (r0.dx, r0.dy) g0 →
      ∀ n,
        (cursor_glide_check cfg (nows n) (glide_checks cfg nows g0 n)).1 = invalid_report
        ∨ (glide_step_fits (glide_checks cfg nows g0 n)
              ((glide_checks cfg nows g0 n).status.counter + 1)
          ∧ in_mouse_xy cfg
              (Int.tdiv (glide_p (glide_checks cfg nows g0 n).status.v0
                  (glide_checks cfg nows g0 n).config.coef
                  ((glide_checks cfg nows g0 n).status.counter + 1)
                * (glide_checks cfg nows g0 n).status.dx0)
                (glide_checks cfg nows g0 n).status.v0
              - (glide_checks cfg nows g0 n).status.x)
          ∧ in_mouse_xy cfg
              (Int.tdiv (glide_p (glide_checks cfg nows g0 n).status.v0
                  (glide_checks cfg nows g0 n).config.coef
                  ((glide_checks cfg nows g0 n).status.counter + 1)
                * (glide_checks cfg nows g0 n).status.dy0)
                (glide_checks cfg nows g0 n).status.v0
              - (glide_checks cfg nows g0 n).status.y)
          ∧ (cursor_glide_check cfg (nows n) (glide_checks cfg nows g0 n)).1
            = { dx := saturate_mouse_xy cfg
                  (Int.tdiv (glide_p (glide_checks cfg nows g0 n).status.v0
                      (glide_checks cfg nows g0 n).config.coef
                      ((glide_checks cfg nows g0 n).status.counter + 1)
                    * (glide_checks cfg nows g0 n).status.dx0)
                    (glide_checks cfg nows g0 n).status.v0
                  - (glide_checks cfg nows g0 n).status.x),
                dy := saturate_mouse_xy cfg
                  (Int.tdiv (glide_p (glide_checks cfg nows g0 n).status.v0
                      (glide_checks cfg nows g0 n).config.coef
                      ((glide_checks cfg nows g0 n).status.counter + 1)
                    * (glide_checks cfg nows g0 n).status.dy0)
                    (glide_checks cfg nows g0 n).status.v0
                  - (glide_checks cfg nows g0 n).status.y),
                valid := true }) := by
    intro r0 g0 h0 n
    have htr := glide_emitted_tracking cfg h8 nows glide.config v glide.status.dx0
      glide.status.dy0 r0 g0 hc ⟨b1, b2⟩ hx hy b3 b4 hvec h0 n
    generalize glide_checks cfg nows g0 n = g at htr ⊢
    obtain ⟨_, hcase⟩ := htr
    rcases hcase with hz | ⟨t, hrun, hJ, hP, _⟩
    · left
      rw [cursor_glide_check_of_zero cfg (nows n) g hz]
    · by_cases hg : timer_elapsed (nows n) g.status.timer < g.config.interval
      · left
        rw [cursor_glide_check_gated cfg (nows n) g hg]
      · right
        rw [cursor_glide_check_running cfg (nows n) glide.config v glide.status.dx0
          glide.status.dy0 t g hvec hrun (by rw [← hrun.1]; exact hg)]
        exact glide_tick_exact cfg h8 (nows n) glide.config v glide.status.dx0
          glide.status.dy0 t g hc ⟨b1, b2⟩ hx hy b3 b4 hrun hJ hP
  by_cases hab : int_to_u32 (v : Int) < to_u32 (glide.config.trigger_px * 256)
  · rw [if_pos hab] at hstart
    have htr0 : glide_tracking glide.config v glide.status.dx0 glide.status.dy0
        (invalid_report.dx, invalid_report.dy)
        { config := glide.config, status := cursor_glide_status_zero } := by
      refine ⟨⟨0, ?_⟩, Or.inl rfl⟩
      show ((0 : Int), (0 : Int)) = _
      rw [zero_mul, zero_mul, Int.zero_tdiv]
    exact ⟨_, _, hstart, Or.inl rfl, hlater _ _ htr0⟩
  · rw [if_neg hab] at hstart
    have hrun : glide_running glide.config v glide.status.dx0 glide.status.dy0 0
        { config := glide.config,
          status := { v0 := (v : Int), x := 0, y := 0, z := 0, timer := to_u16 now, counter := 0,
                      dx0 := glide.status.dx0, dy0 := glide.status.dy0 } } := by
      refine ⟨rfl, rfl, rfl, rfl, rfl, rfl, ?_, ?_⟩
      · show (0 : Int) = _
        rw [glide_p_zero, zero_mul, Int.zero_tdiv]
      · show (0 : Int) = _
        rw [glide_p_zero, zero_mul, Int.zero_tdiv]
    have hJ0 : 2 * ((glide.config.coef : Int) * ((0 : Nat) : Int)) + 513
        ≤ 2 * (v : Int) + glide.config.coef := by
      push_cast
      omega
    have hP0 : 0 ≤ glide_p v glide.config.coef 0 := by rw [glide_p_zero]
    have hex := glide_tick_exact cfg h8 now glide.config v glide.status.dx0 glide.status.dy0 0
      _ hc ⟨b1, b2⟩ hx hy b3 b4 hrun hJ0 hP0
    have htr := glide_tracking_tick cfg h8 now glide.config v glide.status.dx0 glide.status.dy0 0
      _ ((0 : Int), (0 : Int)) hc ⟨b1, b2⟩ hx hy b3 b4 hrun hJ0 hP0 rfl
    obtain ⟨_, ix, iy, hrep⟩ := hex
    simp only [zero_add, sub_zero] at ix iy hrep
    generalize cursor_glide cfg now
        { config := glide.config,
          status := { v0 := (v : Int), x := 0, y := 0, z := 0, timer := to_u16 now, counter := 0,
                      dx0 := glide.status.dx0, dy0 := glide.status.dy0 } } = res
      at hstart htr hrep
    obtain ⟨r0, g0⟩ := res
    have e0 : (((0 : Int), (0 : Int)).1 + (r0, g0).1.dx, ((0 : Int), (0 : Int)).2 + (r0, g0).1.dy)
        = (r0.dx, r0.dy) := by
      show ((0 : Int) + r0.dx, (0 : Int) + r0.dy) = _
      rw [zero_add, zero_add]
    rw [e0] at htr
    exact ⟨r0, g0, hstart, Or.inr ⟨v, hv, ix, iy, hrep⟩, hlater r0 g0 htr⟩

/-- Witness of C27 (amended): `coef = 102` and the vector `(3, 4)`, every check made at
clock value 0. -/
theorem glide_deltas_exact_witness :
    ∃ (r0 : cursor_glide_t) (g0 : cursor_glide_context_t),
      cursor_glide_start default_config 0 damped_glide = some (r0, g0)
      ∧ ∀ n,
        (cursor_glide_check default_config 0
            (glide_checks default_config (fun _ => 0) g0 n)).1 = invalid_report
        ∨ glide_step_fits (glide_checks default_config (fun _ => 0) g0 n)
            ((glide_checks default_config (fun _ => 0) g0 n).status.counter + 1) := by
  obtain ⟨r0, g0, hs, _, h⟩ := glide_deltas_exact default_config rfl 0 (fun _ => 0) damped_glide
    (by decide) (by decide) (by decide) (by decide)
  refine ⟨r0, g0, hs, fun n => ?_⟩
  rcases h n with hi | ⟨hf, _⟩
  · exact Or.inl hi
  · exact Or.inr hf

end PointingDevice
